import Mathlib

/-!
# dToolkit documentation site: homepage feature list and documentation payloads

A shallow embedding of

* `src/pages/components/HomepageFeatures.js` (the `FeatureList` constant and the
  components `Feature` and `HomepageFeatures`), and
* the nine documentation payload chunks under `src/assets/js` and
  `src/build/assets/js` (each one `e.exports = JSON.parse('...')`),

followed by the properties proved about them.
-/

namespace DToolkit

/-! ## Part 1: the homepage feature list (`HomepageFeatures.js`) -/

/-- The class names exported by the CSS module `./HomepageFeatures.module.css`.
The module itself is not among the sources, so the two names the component
reads (`styles.features`, `styles.featurePng`) are taken as a parameter. -/
structure Styles where
  features : String
  featurePng : String
deriving DecidableEq

/-- A reference to a React component (a function or class object, hence always
truthy); `Png` in a descriptor is such a reference when it is present. -/
structure Component where
  name : String
deriving DecidableEq

/-- React elements as built by JSX.

* `text s`: a string child;
* `empty`: a child that is `undefined`, `null` or `false` (React renders nothing);
* `fragment cs`: `<>...</>`;
* `host tag attrs cs`: a DOM element such as `<div className=...>...</div>`;
* `component c attrs`: an element of an externally supplied component, `<Png ... />`;
* `feature key Png title description`: the element `<Feature key={key} {...props} />`,
  not yet expanded. -/
inductive Element where
  | text (s : String)
  | empty
  | fragment (children : List Element)
  | host (tag : String) (attrs : List (String × String)) (children : List Element)
  | component (type : Component) (attrs : List (String × String))
  | feature (key : Nat) (Png : Option Component) (title : String) (description : Element)

/-- The props object `{ Png, title, description }` that `Feature` destructures. -/
structure FeatureProps where
  Png : Option Component
  title : String
  description : Element

/-! ### JSX text children

The text between `<>` and `</>` is compiled by the JSX transform: lines are
split, tabs become spaces, whitespace touching a line break is trimmed, empty
lines are dropped and the remaining lines are joined by one space. -/

/-- Split on `\r\n`, `\n` or `\r`; `acc` is the current line, reversed. -/
def splitLinesAux : List Char → List Char → List (List Char)
  | [], acc => [acc.reverse]
  | c :: cs, acc =>
    if c = '\n' then acc.reverse :: splitLinesAux cs []
    else if c = '\r' then
      match cs with
      | d :: ds => if d = '\n' then acc.reverse :: splitLinesAux ds []
                   else acc.reverse :: splitLinesAux (d :: ds) []
      | [] => acc.reverse :: splitLinesAux [] []
    else splitLinesAux cs (c :: acc)

/-- The lines of a text. -/
def splitLines (cs : List Char) : List (List Char) := splitLinesAux cs []

/-- A line holding only spaces and tabs (the negation of `/[^ \t]/`). -/
def isBlankLine (l : List Char) : Bool := l.all (fun c => c = ' ' || c = '\t')

/-- Index of the last line that has a character other than space or tab (0 if none). -/
def lastNonEmptyLine (lines : List (List Char)) : Nat :=
  lines.enum.foldl (fun acc il => if isBlankLine il.2 then acc else il.1) 0

/-- Drop leading spaces. -/
def trimStartSpaces (l : List Char) : List Char := l.dropWhile (fun c => c = ' ')

/-- Drop trailing spaces. -/
def trimEndSpaces (l : List Char) : List Char :=
  (l.reverse.dropWhile (fun c => c = ' ')).reverse

/-- One line of a JSX text child: `n` lines in all, `last` the last non-empty one. -/
def cleanLine (n last i : Nat) (line : List Char) : List Char :=
  let t := line.map (fun c => if c = '\t' then ' ' else c)
  let t := if i ≠ 0 then trimStartSpaces t else t
  let t := if i ≠ n - 1 then trimEndSpaces t else t
  if t.isEmpty then [] else if i ≠ last then t ++ [' '] else t

/-- The string a JSX text child denotes. -/
def cleanJSXText (raw : String) : String :=
  let lines := splitLines raw.toList
  String.mk (lines.enum.map
    (fun il => cleanLine lines.length (lastNonEmptyLine lines) il.1 il.2)).flatten

/-- The children contributed by a JSX text: none when the cleaned text is empty. -/
def jsxText (raw : String) : List Element :=
  if cleanJSXText raw = "" then [] else [Element.text (cleanJSXText raw)]

/-- The library function `clsx` on string arguments: the truthy (non-empty) ones joined by a space. -/
def clsx (classes : List String) : String :=
  " ".intercalate (classes.filter (fun c => c ≠ ""))

/-- The constant `FeatureList` (lines 5-31): three records with `title` and
`description`, none with `Png`. -/
def FeatureList : List FeatureProps :=
  [ { Png := none
      title := "Easy to Use"
      description := .fragment (jsxText
        "\n        Each of the modules in dToolkit was made to be very easy to use by new and experienced developers alike!\n      ") },
    { Png := none
      title := "No Setup"
      description := .fragment (jsxText
        "\n        Just plop dToolkit into your experience, and you're all set!\n      ") },
    { Png := none
      title := "Typechecking Galore"
      description := .fragment (jsxText
        "\n        dToolkit has typechecking for all of its classes, and every library also implements typechecking to be as easy to\n        implement into your projects!\n      ") } ]

/-- The component `Feature` (lines 33-45). `Png && <Png ... />` is the `Png`
element when `Png` is present and `undefined` (nothing) when it is not. -/
def Feature (styles : Styles) (props : FeatureProps) : Element :=
  .host "div" [("className", clsx ["col col--4"])]
    [ .host "div" [("className", "text--center")]
        [ match props.Png with
          | some Png => .component Png [("className", styles.featurePng), ("alt", props.title)]
          | none => .empty ],
      .host "div" [("className", " padding-horiz--md")]
        [ .host "h3" [("className", "text--center")] [.text props.title],
          .host "p" [] [props.description] ] ]

/-- The component `HomepageFeatures` (lines 47-59). It declares no parameter;
whatever React passes (`arguments`) is ignored. The children of the row are the
elements `<Feature key={idx} {...props} />`. -/
def HomepageFeatures {α : Type} (styles : Styles) (_arguments : List α) : Element :=
  .host "section" [("className", styles.features)]
    [ .host "div" [("className", "container")]
        [ .host "div" [("className", "row")]
            (FeatureList.enum.map
              (fun ip => .feature ip.1 ip.2.Png ip.2.title ip.2.description)) ] ]

mutual
/-- React's expansion of an element tree: every `<Feature ... />` element is
replaced by what `Feature` returns for its props (the key is not passed on),
and the expansion continues in the children. -/
def render (styles : Styles) : Element → Element
  | .text s => .text s
  | .empty => .empty
  | .fragment cs => .fragment (renderList styles cs)
  | .host tag attrs cs => .host tag attrs (renderList styles cs)
  | .component c attrs => .component c attrs
  | .feature _ Png title description =>
    Feature styles { Png := Png, title := title, description := render styles description }
/-- Expansion of a list of children, in order. -/
def renderList (styles : Styles) : List Element → List Element
  | [] => []
  | c :: cs => render styles c :: renderList styles cs
end

/-! ## Part 2: the documentation payloads (`e.exports = JSON.parse('...')`)

JavaScript strings are sequences of UTF-16 code units, modelled as `List Nat`.
Character codes used below: 9 tab, 10 line feed, 13 carriage return, 32 space,
34 `"`, 39 `'`, 44 `,`, 45 `-`, 46 `.`, 47 `/`, 48-57 `0`-`9`, 58 `:`,
69 `E`, 91 `[`, 92 backslash, 93 `]`, 98 `b`, 101 `e`, 102 `f`, 110 `n`,
114 `r`, 116 `t`, 117 `u`, 118 `v`, 120 `x`, 123 and 125 the braces. -/

/-- UTF-16 code units of a list of characters (a surrogate pair above U+FFFF). -/
def unitsOfChars : List Char → List Nat
  | [] => []
  | c :: cs =>
    if c.toNat < 65536 then c.toNat :: unitsOfChars cs
    else (55296 + (c.toNat - 65536) / 1024) :: (56320 + (c.toNat - 65536) % 1024)
      :: unitsOfChars cs

/-- The JavaScript string with the text of `s`. -/
def units (s : String) : List Nat := unitsOfChars s.toList

/-- The values `JSON.parse` returns. A number is carried as an integer (see
`parseNumber`); the members of an object are listed in property order. -/
inductive JSON where
  | null
  | bool (b : Bool)
  | num (n : Int)
  | str (s : List Nat)
  | arr (elements : List JSON)
  | obj (members : List (List Nat × JSON))

/-- Why loading gave no value.

* `parseError`: `JSON.parse` throws its `SyntaxError` (the spec's ParseError);
* `scriptError`: the string literal in the chunk is itself malformed;
* `unsupported`: the text needs floating point or an escape form left out of
  this model, which then says nothing about it;
* `fuel`: the recursion bound of the parser was used up; `load` never returns
  this (`load_ne_fuel`). -/
inductive LoadError where
  | parseError
  | scriptError
  | unsupported
  | fuel
deriving DecidableEq

/-! ### The string literal of the chunk -/

/-- Value of a hexadecimal digit. -/
def hexVal (c : Nat) : Option Nat :=
  if 48 ≤ c ∧ c ≤ 57 then some (c - 48)
  else if 97 ≤ c ∧ c ≤ 102 then some (c - 87)
  else if 65 ≤ c ∧ c ≤ 70 then some (c - 55)
  else none

/-- Where a scan of string text stands: in plain text, right after a backslash,
or inside a `\x` or `\u` escape with `more + 1` hexadecimal digits still to read
and `acc` the value of the digits read so far. -/
inductive Scan where
  | plain
  | escape
  | hex (more : Nat) (acc : Nat)
deriving DecidableEq

/-- A single-character escape of a JavaScript string literal: `\b \f \n \r \t \v`
name control characters, any other character stands for itself. -/
def jsSingleEscape (e : Nat) : Nat :=
  if e = 98 then 8
  else if e = 102 then 12
  else if e = 110 then 10
  else if e = 114 then 13
  else if e = 116 then 9
  else if e = 118 then 11
  else e

/-- Put a decoded unit in front of the decoded rest, if there is one. -/
def consUnit (u : Nat) : Except LoadError (List Nat) → Except LoadError (List Nat)
  | .ok s => .ok (u :: s)
  | .error e => .error e

/-- The string value of the rest of the body of a single-quoted string literal
in strict mode code, scanned from state `st`. Escapes `\xHH`, `\uHHHH` and the
single-character escapes are decoded; an unescaped quote or line break cannot
occur inside the literal; `\u{...}`, escapes starting with a digit and line
continuations are left out of the model. -/
def jsStringValueFrom : Scan → List Nat → Except LoadError (List Nat)
  | .plain, [] => .ok []
  | .escape, [] => .error .scriptError
  | .hex _ _, [] => .error .scriptError
  | .plain, c :: cs =>
    if c = 39 ∨ c = 10 ∨ c = 13 then .error .scriptError
    else if c = 92 then jsStringValueFrom .escape cs
    else consUnit c (jsStringValueFrom .plain cs)
  | .escape, e :: cs =>
    if e = 120 then jsStringValueFrom (.hex 1 0) cs
    else if e = 117 then
      if cs.head? = some 123 then .error .unsupported
      else jsStringValueFrom (.hex 3 0) cs
    else if (48 ≤ e ∧ e ≤ 57) ∨ e = 10 ∨ e = 13 ∨ e = 8232 ∨ e = 8233 then
      .error .unsupported
    else consUnit (jsSingleEscape e) (jsStringValueFrom .plain cs)
  | .hex more acc, h :: cs =>
    match hexVal h with
    | none => .error .scriptError
    | some d =>
      match more with
      | 0 => consUnit (acc * 16 + d) (jsStringValueFrom .plain cs)
      | m + 1 => jsStringValueFrom (.hex m (acc * 16 + d)) cs

/-- The string value of the body of a string literal. -/
def jsStringValue (body : List Nat) : Except LoadError (List Nat) :=
  jsStringValueFrom .plain body

/-! ### `JSON.parse` -/

/-- JSON white space: space, tab, line feed, carriage return. -/
def isWs (c : Nat) : Bool := c = 32 || c = 9 || c = 10 || c = 13

/-- Drop leading white space. -/
def skipWs : List Nat → List Nat
  | [] => []
  | c :: cs => if isWs c then skipWs cs else c :: cs

/-- A decimal digit. -/
def isDigit (c : Nat) : Bool := 48 ≤ c && c ≤ 57

/-- The character an escape `\e` of a JSON string denotes (`\u` apart). -/
def jsonEscape (e : Nat) : Option Nat :=
  if e = 34 then some 34
  else if e = 92 then some 92
  else if e = 47 then some 47
  else if e = 98 then some 8
  else if e = 102 then some 12
  else if e = 110 then some 10
  else if e = 114 then some 13
  else if e = 116 then some 9
  else none

/-- Put a unit in front of the string read from the rest, if there is one. -/
def consStr (u : Nat) :
    Except LoadError (List Nat × List Nat) → Except LoadError (List Nat × List Nat)
  | .ok (s, rest) => .ok (u :: s, rest)
  | .error e => .error e

/-- The rest of a JSON string scanned from state `st`: the string and the text
after the closing quote. Control characters below 32 must be escaped. -/
def parseStringFrom : Scan → List Nat → Except LoadError (List Nat × List Nat)
  | _, [] => .error .parseError
  | .plain, c :: cs =>
    if c = 34 then .ok ([], cs)
    else if c = 92 then parseStringFrom .escape cs
    else if c < 32 then .error .parseError
    else consStr c (parseStringFrom .plain cs)
  | .escape, e :: cs =>
    if e = 117 then parseStringFrom (.hex 3 0) cs
    else
      match jsonEscape e with
      | some u => consStr u (parseStringFrom .plain cs)
      | none => .error .parseError
  | .hex more acc, h :: cs =>
    match hexVal h with
    | none => .error .parseError
    | some d =>
      match more with
      | 0 => consStr (acc * 16 + d) (parseStringFrom .plain cs)
      | m + 1 => parseStringFrom (.hex m (acc * 16 + d)) cs

/-- A JSON string after its opening quote. -/
def parseStringBody (cs : List Nat) : Except LoadError (List Nat × List Nat) :=
  parseStringFrom .plain cs

/-- The leading decimal digits of the input, and the rest. -/
def takeDigits : List Nat → List Nat × List Nat
  | [] => ([], [])
  | c :: cs =>
    if isDigit c then (c :: (takeDigits cs).1, (takeDigits cs).2)
    else ([], c :: cs)

/-- The number a list of decimal digits denotes. -/
def digitsVal (ds : List Nat) : Nat := ds.foldl (fun acc d => 10 * acc + (d - 48)) 0

/-- A JSON number. Only integer literals of magnitude at most 2^53 are given a
value (they are exact as doubles); a fraction, an exponent, a larger literal
and `-0` need floating point and are reported as `unsupported`. -/
def parseNumber (input : List Nat) : Except LoadError (JSON × List Nat) :=
  let neg : Bool := input.head? = some 45
  let body := if neg then input.tail else input
  match takeDigits body with
  | ([], _) => .error .parseError
  | (d :: ds, rest) =>
    if d = 48 ∧ ds ≠ [] then .error .parseError
    else if rest.head? = some 46 ∨ rest.head? = some 101 ∨ rest.head? = some 69 then
      .error .unsupported
    else if 9007199254740992 < digitsVal (d :: ds) then .error .unsupported
    else if neg then
      if digitsVal (d :: ds) = 0 then .error .unsupported
      else .ok (.num (- (digitsVal (d :: ds) : Int)), rest)
    else .ok (.num (digitsVal (d :: ds) : Int), rest)

/-- One of the words `true`, `false`, `null`. -/
def parseLiteral (word : List Nat) (v : JSON) (input : List Nat) :
    Except LoadError (JSON × List Nat) :=
  if input.take word.length = word then .ok (v, input.drop word.length)
  else .error .parseError

/-- An array index: the canonical decimal text of a number below 2^32 - 1. -/
def isArrayIndex (k : List Nat) : Bool :=
  k ≠ [] && k.all isDigit && (k = [48] || k.head? ≠ some 48) && digitsVal k < 4294967295

/-- Insert a new array-index key into the ascending run of array-index keys that
starts an object (two different array-index keys never denote the same number). -/
def insertIndex (k : List Nat) (v : JSON) : List (List Nat × JSON) → List (List Nat × JSON)
  | [] => [(k, v)]
  | p :: ps =>
    if isArrayIndex p.1 ∧ digitsVal p.1 ≤ digitsVal k then p :: insertIndex k v ps
    else (k, v) :: p :: ps

/-- Define property `k` of an object: an existing key keeps its place and takes
the new value; a new array-index key goes among the index keys, in ascending
order; any other new key goes last. -/
def setProp (o : List (List Nat × JSON)) (k : List Nat) (v : JSON) :
    List (List Nat × JSON) :=
  if o.any (fun p => p.1 = k) then o.map (fun p => if p.1 = k then (k, v) else p)
  else if isArrayIndex k then insertIndex k v o
  else o ++ [(k, v)]

mutual
/-- A JSON value, with leading white space; the value and the text after it. -/
def parseValue : Nat → List Nat → Except LoadError (JSON × List Nat)
  | 0, _ => .error .fuel
  | fuel + 1, input =>
    match skipWs input with
    | [] => .error .parseError
    | c :: cs =>
      if c = 123 then
        match skipWs cs with
        | [] => .error .parseError
        | d :: ds => if d = 125 then .ok (.obj [], ds) else parseMembers fuel (d :: ds) []
      else if c = 91 then
        match skipWs cs with
        | [] => .error .parseError
        | d :: ds =>
          if d = 93 then .ok (.arr [], ds)
          else match parseElements fuel (d :: ds) with
            | .ok (vs, rest) => .ok (.arr vs, rest)
            | .error e => .error e
      else if c = 34 then
        match parseStringBody cs with
        | .ok (s, rest) => .ok (.str s, rest)
        | .error e => .error e
      else if c = 116 then parseLiteral [116, 114, 117, 101] (.bool true) (c :: cs)
      else if c = 102 then parseLiteral [102, 97, 108, 115, 101] (.bool false) (c :: cs)
      else if c = 110 then parseLiteral [110, 117, 108, 108] .null (c :: cs)
      else if c = 45 ∨ isDigit c then parseNumber (c :: cs)
      else .error .parseError
/-- The elements of a non-empty array up to and including the closing bracket. -/
def parseElements : Nat → List Nat → Except LoadError (List JSON × List Nat)
  | 0, _ => .error .fuel
  | fuel + 1, input =>
    match parseValue fuel input with
    | .error e => .error e
    | .ok (v, rest) =>
      match skipWs rest with
      | [] => .error .parseError
      | c :: cs =>
        if c = 44 then
          match parseElements fuel cs with
          | .ok (vs, rest1) => .ok (v :: vs, rest1)
          | .error e => .error e
        else if c = 93 then .ok ([v], cs)
        else .error .parseError
/-- The members of a non-empty object up to and including the closing brace;
`acc` is the object built from the members read so far. -/
def parseMembers : Nat → List Nat → List (List Nat × JSON) →
    Except LoadError (JSON × List Nat)
  | 0, _, _ => .error .fuel
  | fuel + 1, input, acc =>
    match skipWs input with
    | [] => .error .parseError
    | q :: cs =>
      if q = 34 then
        match parseStringBody cs with
        | .error e => .error e
        | .ok (k, rest) =>
          match skipWs rest with
          | [] => .error .parseError
          | c :: rest1 =>
            if c = 58 then
              match parseValue fuel rest1 with
              | .error e => .error e
              | .ok (v, rest2) =>
                match skipWs rest2 with
                | [] => .error .parseError
                | d :: rest3 =>
                  if d = 44 then parseMembers fuel rest3 (setProp acc k v)
                  else if d = 125 then .ok (.obj (setProp acc k v), rest3)
                  else .error .parseError
            else .error .parseError
      else .error .parseError
end

/-- The function `JSON.parse` (without reviver): one value, white space around
it, nothing else. The recursion bound is twice the length of the text plus one,
which is never used up (`load_ne_fuel`). -/
def JSONparse (text : List Nat) : Except LoadError JSON :=
  match parseValue (2 * text.length + 1) text with
  | .ok (v, rest) => if skipWs rest = [] then .ok v else .error .parseError
  | .error e => .error e

/-- Loading a payload: what the module factory of a chunk does with the payload
text, `e.exports = JSON.parse(text)`. -/
def load (payload : List Nat) : Except LoadError JSON := JSONparse payload

/-- Loading the payload of a chunk from its source: `literal` is the body of the
single-quoted string literal passed to `JSON.parse`. -/
def loadChunk (literal : String) : Except LoadError JSON :=
  match jsStringValue (units literal) with
  | .ok text => load text
  | .error e => .error e

/-! ### Reading a loaded value -/

/-- Property lookup `o[k]` on a loaded value (`none` for `undefined`). -/
def JSON.get (k : String) : JSON → Option JSON
  | .obj ms => (ms.find? (fun p => p.1 = units k)).map (fun p => p.2)
  | _ => none

/-- The elements when the value is an array. -/
def JSON.elements? : JSON → Option (List JSON)
  | .arr vs => some vs
  | _ => none

/-- The code units when the value is a string. -/
def JSON.string? : JSON → Option (List Nat)
  | .str s => some s
  | _ => none

/-- The value is an object. -/
def JSON.isObject : JSON → Bool
  | .obj _ => true
  | _ => false

/-- The elements of the array-valued field `k` (empty when there is none). -/
def JSON.list (k : String) (v : JSON) : List JSON :=
  ((v.get k).bind JSON.elements?).getD []

/-- The `name` of each element of the array-valued field `k`. -/
def JSON.names (k : String) (v : JSON) : List (Option (List Nat)) :=
  (v.list k).map (fun m => (m.get "name").bind JSON.string?)

/-! ### Serialising -/

/-- The decimal digits of `n`, most significant first, before `acc`. -/
def natDigitsAux : Nat → Nat → List Nat → List Nat
  | 0, _, acc => acc
  | fuel + 1, n, acc =>
    if n < 10 then (48 + n) :: acc
    else natDigitsAux fuel (n / 10) ((48 + n % 10) :: acc)

/-- The decimal text of a natural number. -/
def natDigits (n : Nat) : List Nat := natDigitsAux (n + 1) n []

/-- A lower-case hexadecimal digit. -/
def hexDigit (n : Nat) : Nat := if n < 10 then 48 + n else 87 + n

/-- The escape `\uXXXX` of a code unit. -/
def unicodeEscape (c : Nat) : List Nat :=
  [92, 117, hexDigit (c / 4096 % 16), hexDigit (c / 256 % 16), hexDigit (c / 16 % 16),
    hexDigit (c % 16)]

/-- The text of one code unit inside a quoted string (surrogates apart). -/
def quoteUnit (c : Nat) : List Nat :=
  if c = 8 then [92, 98]
  else if c = 9 then [92, 116]
  else if c = 10 then [92, 110]
  else if c = 12 then [92, 102]
  else if c = 13 then [92, 114]
  else if c = 34 then [92, 34]
  else if c = 92 then [92, 92]
  else if c < 32 then unicodeEscape c
  else [c]

/-- A leading (high) surrogate, U+D800 to U+DBFF. -/
def isHighSurrogate (c : Nat) : Bool := 55296 ≤ c && c ≤ 56319

/-- A trailing (low) surrogate, U+DC00 to U+DFFF. -/
def isLowSurrogate (c : Nat) : Bool := 56320 ≤ c && c ≤ 57343

/-- The characters of a quoted string: a surrogate pair is written as it is, a
lone surrogate as a `\u` escape. `paired` says that the unit before was a high
surrogate which the next unit completes. -/
def quoteBody : Bool → List Nat → List Nat
  | _, [] => []
  | paired, c :: cs =>
    if paired then c :: quoteBody false cs
    else if isHighSurrogate c then
      if cs.head?.map isLowSurrogate = some true then c :: quoteBody true cs
      else unicodeEscape c ++ quoteBody false cs
    else if isLowSurrogate c then unicodeEscape c ++ quoteBody false cs
    else quoteUnit c ++ quoteBody false cs

/-- A string in double quotes (`QuoteJSONString`). -/
def quote (s : List Nat) : List Nat := 34 :: (quoteBody false s ++ [34])

mutual
/-- Modelled from the spec: `serialize`, the inverse direction of `load` in the
round-trip property of section 8. No serialiser is among the sources (the
payloads come from an external extractor), so it is modelled as the compact JSON
text of a value, as `JSON.stringify` writes it: no white space, members and
elements in order. -/
def serialize : JSON → List Nat
  | .null => [110, 117, 108, 108]
  | .bool true => [116, 114, 117, 101]
  | .bool false => [102, 97, 108, 115, 101]
  | .num n => if n < 0 then 45 :: natDigits n.natAbs else natDigits n.natAbs
  | .str s => quote s
  | .arr vs => 91 :: serializeElements vs
  | .obj ms => 123 :: serializeMembers ms
/-- The elements of an array and the closing bracket. -/
def serializeElements : List JSON → List Nat
  | [] => [93]
  | v :: vs => serialize v ++ serializeMoreElements vs
/-- Each further element after its comma, and the closing bracket. -/
def serializeMoreElements : List JSON → List Nat
  | [] => [93]
  | v :: vs => 44 :: (serialize v ++ serializeMoreElements vs)
/-- The members of an object and the closing brace. -/
def serializeMembers : List (List Nat × JSON) → List Nat
  | [] => [125]
  | (k, v) :: ms => quote k ++ 58 :: (serialize v ++ serializeMoreMembers ms)
/-- Each further member after its comma, and the closing brace. -/
def serializeMoreMembers : List (List Nat × JSON) → List Nat
  | [] => [125]
  | (k, v) :: ms => 44 :: (quote k ++ 58 :: (serialize v ++ serializeMoreMembers ms))
end

/-! ### Comparing loaded values -/

mutual
/-- Structural equality of values, as a computation. -/
def JSON.beq : JSON → JSON → Bool
  | .null, .null => true
  | .bool a, .bool b => a == b
  | .num a, .num b => decide (a = b)
  | .str a, .str b => a == b
  | .arr a, .arr b => JSON.beqElements a b
  | .obj a, .obj b => JSON.beqMembers a b
  | _, _ => false
/-- Equality of element lists, position by position. -/
def JSON.beqElements : List JSON → List JSON → Bool
  | [], [] => true
  | a :: as, b :: bs => JSON.beq a b && JSON.beqElements as bs
  | _, _ => false
/-- Equality of member lists, position by position. -/
def JSON.beqMembers : List (List Nat × JSON) → List (List Nat × JSON) → Bool
  | [], [] => true
  | (k, a) :: as, (l, b) :: bs => k == l && JSON.beq a b && JSON.beqMembers as bs
  | _, _ => false
end

/-! ### Well-formed values and their size -/

/-- Order of two keys of an object, the first listed before the second: they
differ, and an array-index key is preceded only by array-index keys that are not larger. -/
def keyBefore (k l : List Nat) : Prop :=
  k ≠ l ∧ (isArrayIndex l = true → isArrayIndex k = true ∧ digitsVal k ≤ digitsVal l)

instance : DecidableRel keyBefore := fun k l => by
  unfold keyBefore
  exact inferInstance

/-- The keys of an object are distinct and in property order. -/
def keysOk (ks : List (List Nat)) : Bool := decide (ks.Pairwise keyBefore)

mutual
/-- The values `JSON.parse` can produce in this model: numbers are integers of
magnitude at most 2^53, objects have distinct keys in property order. -/
def JSON.wf : JSON → Bool
  | .null => true
  | .bool _ => true
  | .num n => decide (n.natAbs ≤ 9007199254740992)
  | .str _ => true
  | .arr vs => JSON.wfElements vs
  | .obj ms => keysOk (ms.map (fun p => p.1)) && JSON.wfMembers ms
/-- Every element is well formed. -/
def JSON.wfElements : List JSON → Bool
  | [] => true
  | v :: vs => JSON.wf v && JSON.wfElements vs
/-- Every member value is well formed. -/
def JSON.wfMembers : List (List Nat × JSON) → Bool
  | [] => true
  | (_, v) :: ms => JSON.wf v && JSON.wfMembers ms
end

mutual
/-- A bound on the recursion depth `parseValue` needs for the text of a value. -/
def JSON.size : JSON → Nat
  | .null => 1
  | .bool _ => 1
  | .num _ => 1
  | .str _ => 1
  | .arr vs => 1 + JSON.sizeElements vs
  | .obj ms => 1 + JSON.sizeMembers ms
/-- The bound for the elements of an array. -/
def JSON.sizeElements : List JSON → Nat
  | [] => 0
  | v :: vs => JSON.size v + 1 + JSON.sizeElements vs
/-- The bound for the members of an object. -/
def JSON.sizeMembers : List (List Nat × JSON) → Nat
  | [] => 0
  | (_, v) :: ms => JSON.size v + 1 + JSON.sizeMembers ms
end

/-- The text after a number does not continue it: it does not start with a
digit, a point or an exponent mark. -/
def Delimited (rest : List Nat) : Prop :=
  ∀ c, rest.head? = some c → isDigit c = false ∧ c ≠ 46 ∧ c ≠ 101 ∧ c ≠ 69

/-! ### Evaluating a chunk without building the whole text first

`jsStringValue` returns the decoded text only after it has read the whole
literal. For evaluation on the long payloads the same decoding is split into a
check (`jsStringValidFrom`) and a decoder that produces the text unit by unit
(`jsStringUnitsFrom`); `jsStringValueFrom_eq_of_valid` relates them. -/

/-- The literal body has no malformed or unmodelled escape and no bare quote or line break. -/
def jsStringValidFrom : Scan → List Nat → Bool
  | .plain, [] => true
  | .escape, [] => false
  | .hex _ _, [] => false
  | .plain, c :: cs =>
    if c = 39 ∨ c = 10 ∨ c = 13 then false
    else if c = 92 then jsStringValidFrom .escape cs
    else jsStringValidFrom .plain cs
  | .escape, e :: cs =>
    if e = 120 then jsStringValidFrom (.hex 1 0) cs
    else if e = 117 then
      if cs.head? = some 123 then false
      else jsStringValidFrom (.hex 3 0) cs
    else if (48 ≤ e ∧ e ≤ 57) ∨ e = 10 ∨ e = 13 ∨ e = 8232 ∨ e = 8233 then false
    else jsStringValidFrom .plain cs
  | .hex more acc, h :: cs =>
    match hexVal h with
    | none => false
    | some d =>
      match more with
      | 0 => jsStringValidFrom .plain cs
      | m + 1 => jsStringValidFrom (.hex m (acc * 16 + d)) cs

/-- The decoded text of a valid literal body, produced from left to right. -/
def jsStringUnitsFrom : Scan → List Nat → List Nat
  | _, [] => []
  | .plain, c :: cs =>
    if c = 92 then jsStringUnitsFrom .escape cs
    else c :: jsStringUnitsFrom .plain cs
  | .escape, e :: cs =>
    if e = 120 then jsStringUnitsFrom (.hex 1 0) cs
    else if e = 117 then jsStringUnitsFrom (.hex 3 0) cs
    else jsSingleEscape e :: jsStringUnitsFrom .plain cs
  | .hex more acc, h :: cs =>
    match more with
    | 0 => (acc * 16 + (hexVal h).getD 0) :: jsStringUnitsFrom .plain cs
    | m + 1 => jsStringUnitsFrom (.hex m (acc * 16 + (hexVal h).getD 0)) cs

/-- The text `text` loads to exactly `doc`. -/
def loadsTextTo (text : List Nat) (doc : JSON) : Bool :=
  match load text with
  | .ok v => JSON.beq v doc
  | .error _ => false

/-- The chunk whose string literal is `literal` loads to exactly `doc`. -/
def loadsTo (literal : String) (doc : JSON) : Bool :=
  jsStringValidFrom .plain (units literal) &&
    loadsTextTo (jsStringUnitsFrom .plain (units literal)) doc

/-! ### The nine payloads

Each `...Payload` is the body of the string literal passed to `JSON.parse` in
the named chunk, character for character. -/

/-- The payload text in `src/assets/js/10ee4cb5.45353c51.js` (chunk 8281, module 48809). -/
def ValuePayload : String :=
  "\x7b\"functions\":[\x7b\"name\":\"new\",\"desc\":\"Creates a new Value object. This will also determine the types for the object, if they were not strictly given.\\\\n\\\\n```lua\\\\nlocal state = Value.new(false, true)\\\\n```\",\"params\":[\x7b\"name\":\"...\",\"desc\":\"The initial values you want to store in the new Value object.\",\"lua_type\":\"a...\"\x7d],\"returns\":[\x7b\"desc\":\"\",\"lua_type\":\"Value<a...>\\\\r\\\\n\"\x7d],\"function_type\":\"static\",\"source\":\x7b\"line\":114,\"path\":\"lib/Value.lua\"\x7d\x7d,\x7b\"name\":\"Set\",\"desc\":\"Updates the value(s) inside the Value object.\\\\n\\\\n```lua\\\\nstate:Set(true, false)\\\\n```\\\\n\\\\n\\\\t\",\"params\":[\x7b\"name\":\"self\",\"desc\":\"\",\"lua_type\":\"Value<a...>\"\x7d,\x7b\"name\":\"...\",\"desc\":\"\",\"lua_type\":\"a...\"\x7d],\"returns\":[],\"function_type\":\"static\",\"source\":\x7b\"line\":134,\"path\":\"lib/Value.lua\"\x7d\x7d,\x7b\"name\":\"Get\",\"desc\":\"Returns all values inside of the Value object.\\\\n\\\\n```lua\\\\nprint(state:Get())\\\\n```\\\\n\\\\n\\\\t\",\"params\":[\x7b\"name\":\"self\",\"desc\":\"\",\"lua_type\":\"Value<a...>\"\x7d],\"returns\":[\x7b\"desc\":\"\",\"lua_type\":\"a...\"\x7d],\"function_type\":\"static\",\"source\":\x7b\"line\":153,\"path\":\"lib/Value.lua\"\x7d\x7d,\x7b\"name\":\"Clone\",\"desc\":\"Returns a new Value object with the same values as the original.\\\\n\\\\n```lua\\\\nlocal copiedState = state:Clone()\\\\n```\\\\n\\\\n\\\\t\",\"params\":[\x7b\"name\":\"self\",\"desc\":\"\",\"lua_type\":\"Value<a...>\"\x7d],\"returns\":[\x7b\"desc\":\"\",\"lua_type\":\"Value<a...>\\\\r\\\\n\"\x7d],\"function_type\":\"static\",\"source\":\x7b\"line\":168,\"path\":\"lib/Value.lua\"\x7d\x7d,\x7b\"name\":\"RawSet\",\"desc\":\"Sets the value of the Value object without firing Changed or WillChange.\\\\n\\\\n\\\\t\",\"params\":[\x7b\"name\":\"self\",\"desc\":\"\",\"lua_type\":\"Value<a...>\"\x7d,\x7b\"name\":\"...\",\"desc\":\"\",\"lua_type\":\"a...\"\x7d],\"returns\":[],\"function_type\":\"static\",\"source\":\x7b\"line\":177,\"path\":\"lib/Value.lua\"\x7d\x7d,\x7b\"name\":\"Destroy\",\"desc\":\"Destroys the Value object and makes it unusable.\\\\n\\\\n```lua\\\\ncopiedState:Destroy()\\\\n```\\\\n\\\\n\\\\t\",\"params\":[\x7b\"name\":\"self\",\"desc\":\"\",\"lua_type\":\"Value<a...>\"\x7d],\"returns\":[],\"function_type\":\"static\",\"source\":\x7b\"line\":190,\"path\":\"lib/Value.lua\"\x7d\x7d],\"properties\":[\x7b\"name\":\"WillChange\",\"desc\":\"Is fired before the value changes for [Value].\\\\n\\\\n```lua\\\\nstate.WillChange:Connect(function(foo, bar)\\\\n\\\\tprint(foo, bar)\\\\nend)\\\\n```\",\"lua_type\":\"Signal<b...>\",\"tags\":[\"Event\"],\"source\":\x7b\"line\":87,\"path\":\"lib/Value.lua\"\x7d\x7d,\x7b\"name\":\"Changed\",\"desc\":\"Is fired after the value changes for [Value].\\\\n\\\\n```lua\\\\nstate.Changed:Connect(function(foo, bar)\\\\n\\\\tprint(foo, bar)\\\\nend)\\\\n```\",\"lua_type\":\"Signal<b...>\",\"tags\":[\"Event\"],\"source\":\x7b\"line\":100,\"path\":\"lib/Value.lua\"\x7d\x7d],\"types\":[],\"name\":\"Value\",\"desc\":\"An object used to store states, and trigger every [Connection] listening to its [Signal] members.\\\\n\\\\n```lua\\\\nlocal state = Value.new(false, true)\\\\n\\\\nstate.WillChange:Connect(function(foo, bar)\\\\n\\\\tprint(foo, bar)\\\\nend)\\\\n\\\\nstate.Changed:Connect(function(foo, bar)\\\\n\\\\tprint(foo, bar)\\\\nend)\\\\n\\\\nstate:Set(true, false)\\\\n\\\\ntask.wait(1)\\\\n\\\\nlocal copiedState = state:Clone()\\\\n\\\\nprint(\\\\\"These are the current states:\\\\\", copiedState:Get())\\\\n\\\\ncopiedState:Destroy()\\\\n```\\\\n\\\\n:::caution String Literals\\\\nIt should be noted that for one reason or another, Value is not able to typecheck string literals properly.\\\\n\\\\n:::info\\\\nThere is an alternative type named InternalValue, which can be used for classes built using it! The primary difference\\\\nis that InternalValue drops the :Set(), :Destroy(), and :RawSet() methods, but only from the type, not the object.\",\"source\":\x7b\"line\":73,\"path\":\"lib/Value.lua\"\x7d\x7d"

/-- The payload text in `src/assets/js/6010cee0.4965b3b5.js` (chunk 837, module 3866). -/
def BindPayload : String :=
  "\x7b\"functions\":[\x7b\"name\":\"new\",\"desc\":\"Returns a new Bind class.\\\\n\\\\n\\\\n```lua\\\\nlocal newBind = Bind.new(\\\\\"Test\\\\\", \x7bEnum.KeyCode.E\x7d, function(actionName, state, input)\\\\n\\\\tprint(\\\\\"Wow!\\\\\")\\\\nend)\\\\n```\",\"params\":[\x7b\"name\":\"name\",\"desc\":\"The name of the action.\",\"lua_type\":\"string\"\x7d,\x7b\"name\":\"keys\",\"desc\":\"The list of keys you want to bind.\",\"lua_type\":\"Keys\"\x7d,\x7b\"name\":\"boundFunction\",\"desc\":\"Function that the binding is bound to.\",\"lua_type\":\"BoundFunction?\"\x7d,\x7b\"name\":\"enabled\",\"desc\":\"Determines if the binding should be enabled upon creation; defaults to true.\",\"lua_type\":\"boolean?\"\x7d,\x7b\"name\":\"mobileButton\",\"desc\":\"Determines if a mobile button should be added with this binding; defaults to false.\",\"lua_type\":\"boolean?\"\x7d],\"returns\":[\x7b\"desc\":\"\",\"lua_type\":\"Bind\\\\r\\\\n\"\x7d],\"function_type\":\"static\",\"source\":\x7b\"line\":78,\"path\":\"lib/Bind.lua\"\x7d\x7d,\x7b\"name\":\"Rebind\",\"desc\":\"Replaces the bound function mapped to new keys.\\\\n\\\\t\",\"params\":[\x7b\"name\":\"newKeys\",\"desc\":\"\",\"lua_type\":\"Keys\"\x7d],\"returns\":[],\"function_type\":\"method\",\"source\":\x7b\"line\":101,\"path\":\"lib/Bind.lua\"\x7d\x7d,\x7b\"name\":\"Enable\",\"desc\":\"Enables the [Bind].\\\\n\\\\t\",\"params\":[],\"returns\":[],\"function_type\":\"method\",\"source\":\x7b\"line\":121,\"path\":\"lib/Bind.lua\"\x7d\x7d,\x7b\"name\":\"Disable\",\"desc\":\"Disables the [Bind].\\\\n\\\\t\",\"params\":[],\"returns\":[],\"function_type\":\"method\",\"source\":\x7b\"line\":129,\"path\":\"lib/Bind.lua\"\x7d\x7d,\x7b\"name\":\"Destroy\",\"desc\":\"Destroys the [Bind].\\\\n\\\\t\",\"params\":[],\"returns\":[],\"function_type\":\"method\",\"source\":\x7b\"line\":137,\"path\":\"lib/Bind.lua\"\x7d\x7d],\"properties\":[\x7b\"name\":\"boundFunction\",\"desc\":\"Function bound to the given [Keys].\",\"lua_type\":\"BoundFunction\",\"source\":\x7b\"line\":54,\"path\":\"lib/Bind.lua\"\x7d\x7d,\x7b\"name\":\"keys\",\"desc\":\"[Keys] bound to the action.\",\"lua_type\":\"Keys\",\"source\":\x7b\"line\":60,\"path\":\"lib/Bind.lua\"\x7d\x7d],\"types\":[\x7b\"name\":\"Keys\",\"desc\":\"A list of Enum.KeyCode to bind an action to.\",\"lua_type\":\"\x7bEnum.KeyCode\x7d\",\"source\":\x7b\"line\":35,\"path\":\"lib/Bind.lua\"\x7d\x7d,\x7b\"name\":\"BoundFunction\",\"desc\":\"A function used to bind context actions to.\",\"lua_type\":\"(actionName: string, state: Enum.UserInputState, input: InputObject) -> ()\",\"source\":\x7b\"line\":41,\"path\":\"lib/Bind.lua\"\x7d\x7d],\"name\":\"Bind\",\"desc\":\"A [Bind] class that is used as an interface for binding keys to ContextActionService.\",\"realm\":[\"Client\"],\"source\":\x7b\"line\":47,\"path\":\"lib/Bind.lua\"\x7d\x7d"

/-- The payload text in `src/assets/js/64875472.d4d18083.js` (chunk 463, module 43102). -/
def Color3UtilPayload : String :=
  "\x7b\"functions\":[\x7b\"name\":\"GetLimitedColor\",\"desc\":\"Returns a number value that is either randomized or uses the given number.\",\"params\":[\x7b\"name\":\"a\",\"desc\":\"\",\"lua_type\":\"NumberOrRange\"\x7d],\"returns\":[\x7b\"desc\":\"\",\"lua_type\":\"number\\\\r\\\\n\"\x7d],\"function_type\":\"static\",\"ignore\":true,\"source\":\x7b\"line\":34,\"path\":\"lib/Color3Util.lua\"\x7d\x7d,\x7b\"name\":\"ClampRGB\",\"desc\":\"Returns a Color3 with clamped R, G, and B values.\\\\n\\\\n```lua\\\\nlocal clampedColor = Color3Util:ClampRGB(300, -2500, 5)\\\\n\\\\nprint(clampedColor) --\\x3e 255, 0, 5\\\\n```\",\"params\":[\x7b\"name\":\"r\",\"desc\":\"\",\"lua_type\":\"number\"\x7d,\x7b\"name\":\"g\",\"desc\":\"\",\"lua_type\":\"number\"\x7d,\x7b\"name\":\"b\",\"desc\":\"\",\"lua_type\":\"number\"\x7d],\"returns\":[\x7b\"desc\":\"\",\"lua_type\":\"Color3\\\\r\\\\n\"\x7d],\"function_type\":\"method\",\"source\":\x7b\"line\":60,\"path\":\"lib/Color3Util.lua\"\x7d\x7d,\x7b\"name\":\"ClampHSV\",\"desc\":\"Returns a Color3 with clamped H, S, and V values.\\\\n\\\\n```lua\\\\nlocal clampedColor = Color3Util:ClampHSV(300, -2500, 5)\\\\n\\\\nprint(clampedColor) --\\x3e 255, 0, 5\\\\n```\",\"params\":[\x7b\"name\":\"h\",\"desc\":\"\",\"lua_type\":\"number\"\x7d,\x7b\"name\":\"s\",\"desc\":\"\",\"lua_type\":\"number\"\x7d,\x7b\"name\":\"v\",\"desc\":\"\",\"lua_type\":\"number\"\x7d],\"returns\":[\x7b\"desc\":\"\",\"lua_type\":\"Color3\\\\r\\\\n\"\x7d],\"function_type\":\"method\",\"source\":\x7b\"line\":75,\"path\":\"lib/Color3Util.lua\"\x7d\x7d,\x7b\"name\":\"GetRandomColor\",\"desc\":\"Returns a random color.\\\\n\\\\n```lua\\\\nprint(Color3Util:GetRandomColor())\\\\n```\",\"params\":[],\"returns\":[\x7b\"desc\":\"\",\"lua_type\":\"Color3\\\\r\\\\n\"\x7d],\"function_type\":\"method\",\"source\":\x7b\"line\":88,\"path\":\"lib/Color3Util.lua\"\x7d\x7d,\x7b\"name\":\"GetRandomColorWithLimitsInRGB\",\"desc\":\"Returns a randomized color within given boundaries in RGB [0-255].\\\\n\\\\n```lua\\\\nlocal limitedColor = Color3Util:GetRandomColorWithLimitsInRGB(NumberRange.new(50, 255), nil, 5)\\\\n\\\\nprint(limitedColor)\\\\n```\\\\n\\\\n:::info\\\\nIf a parameter is given nil, it has no boundaries; if given a NumberRange, it randomizes within that range; if given a\\\\nnumber, it sets it to that number, and does no randomization.\",\"params\":[\x7b\"name\":\"r\",\"desc\":\"\",\"lua_type\":\"NumberOrRange\"\x7d,\x7b\"name\":\"g\",\"desc\":\"\",\"lua_type\":\"NumberOrRange\"\x7d,\x7b\"name\":\"b\",\"desc\":\"\",\"lua_type\":\"NumberOrRange\"\x7d],\"returns\":[\x7b\"desc\":\"\",\"lua_type\":\"Color3\\\\r\\\\n\"\x7d],\"function_type\":\"method\",\"source\":\x7b\"line\":107,\"path\":\"lib/Color3Util.lua\"\x7d\x7d,\x7b\"name\":\"GetRandomColorWithLimitsInHSV\",\"desc\":\"Returns a randomized color within given boundaries in HSV [0-255].\\\\n\\\\n```lua\\\\nlocal limitedColor = Color3Util:GetRandomColorWithLimitsInHSV(NumberRange.new(50, 255), nil, 5)\\\\n\\\\nprint(limitedColor)\\\\n```\\\\n\\\\n:::info\\\\nIf a parameter is given nil, it has no boundaries; if given a NumberRange, it randomizes\\\\nwithin that range; if given a number, it sets it to that number, and does no randomization.\",\"params\":[\x7b\"name\":\"h\",\"desc\":\"\",\"lua_type\":\"NumberOrRange\"\x7d,\x7b\"name\":\"s\",\"desc\":\"\",\"lua_type\":\"NumberOrRange\"\x7d,\x7b\"name\":\"v\",\"desc\":\"\",\"lua_type\":\"NumberOrRange\"\x7d],\"returns\":[\x7b\"desc\":\"\",\"lua_type\":\"Color3\\\\r\\\\n\"\x7d],\"function_type\":\"method\",\"source\":\x7b\"line\":126,\"path\":\"lib/Color3Util.lua\"\x7d\x7d,\x7b\"name\":\"GetVariantColor\",\"desc\":\"Returns a color that is a variation of the one given, within a given amplitude.\\\\n\\\\n```lua\\\\nlocal originalColor = Color3.new(0.5, 0.25, 0.75)\\\\nlocal variationColorA = Color3Util:GetVariantColor(originalColor, 55)\\\\nlocal variationColorB = Color3Util:GetVariantColor(originalColor, 20)\\\\n\\\\nprint(\\\\\"Original:\\\\\", originalColor, \\\\\"| A:\\\\\", variationColorA, \\\\\"| B:\\\\\", variationColorB)\\\\n```\",\"params\":[\x7b\"name\":\"color\",\"desc\":\"The color to use as a base.\",\"lua_type\":\"Color3\"\x7d,\x7b\"name\":\"amplitude\",\"desc\":\"The amount to variate the color by (0-255)\",\"lua_type\":\"number\"\x7d],\"returns\":[\x7b\"desc\":\"\",\"lua_type\":\"Color3\\\\r\\\\n\"\x7d],\"function_type\":\"method\",\"source\":\x7b\"line\":146,\"path\":\"lib/Color3Util.lua\"\x7d\x7d,\x7b\"name\":\"GetColorAtPointFromSequence\",\"desc\":\"Returns the color at the given point within the ColorSequence.\\\\n\\\\n```lua\\\\nlocal sequence = ColorSequence.new(\x7b\\\\n\\\\tColorSequenceKeypoint.new(0, Color3.new(1, 0, 0)),\\\\n\\\\tColorSequenceKeypoint.new(0.5, Color3.new(0, 1, 0)),\\\\n\\\\tColorSequenceKeypoint.new(1, Color3.new(1, 0, 1)),\\\\n\x7d)\\\\n\\\\nprint(Color3Util:GetColorAtPointFromSequence(sequence, 0.25))\\\\n```\",\"params\":[\x7b\"name\":\"sequence\",\"desc\":\"The sequence to pull the color from.\",\"lua_type\":\"ColorSequence\"\x7d,\x7b\"name\":\"point\",\"desc\":\"The time to get the color from. [0, 1]\",\"lua_type\":\"number\"\x7d],\"returns\":[\x7b\"desc\":\"\",\"lua_type\":\"Color3\\\\r\\\\n\"\x7d],\"function_type\":\"method\",\"source\":\x7b\"line\":175,\"path\":\"lib/Color3Util.lua\"\x7d\x7d,\x7b\"name\":\"GetRandomColorOnSequence\",\"desc\":\"Returns a color from anywhere on the ColorSequence.\\\\n\\\\n```lua\\\\nlocal sequence = ColorSequence.new(\x7b\\\\n\\\\tColorSequenceKeypoint.new(0, Color3.new(1, 0, 0)),\\\\n\\\\tColorSequenceKeypoint.new(0.5, Color3.new(0, 1, 0)),\\\\n\\\\tColorSequenceKeypoint.new(1, Color3.new(1, 0, 1)),\\\\n\x7d)\\\\n\\\\nprint(Color3Util:GetRandomColorOnSequence(sequence))\\\\n```\",\"params\":[\x7b\"name\":\"sequence\",\"desc\":\"The sequence to pull the color from.\",\"lua_type\":\"ColorSequence\"\x7d],\"returns\":[\x7b\"desc\":\"\",\"lua_type\":\"Color3\\\\r\\\\n\"\x7d],\"function_type\":\"method\",\"source\":\x7b\"line\":224,\"path\":\"lib/Color3Util.lua\"\x7d\x7d],\"properties\":[],\"types\":[\x7b\"name\":\"NumberOrRange\",\"desc\":\"A number, NumberRange, or nil.\",\"lua_type\":\"(number | NumberRange)?\",\"source\":\x7b\"line\":22,\"path\":\"lib/Color3Util.lua\"\x7d\x7d],\"name\":\"Color3Util\",\"desc\":\"A library with a number of Color3 helper functions.\",\"source\":\x7b\"line\":27,\"path\":\"lib/Color3Util.lua\"\x7d\x7d"

/-- The payload text in `src/assets/js/b9a8fcaf.748744fc.js` (chunk 6519, module 36356). -/
def FlowPayload : String :=
  "\x7b\"functions\":[\x7b\"name\":\"new\",\"desc\":\"Creates a new Flow object.\\\\n\\\\n```lua\\\\nlocal array = \x7b\\\\n\\\\tfoo = 5,\\\\n\\\\tbar = Vector2.new(5, 2),\\\\n\x7d\\\\n\\\\nFlow.new(array, \x7b\\\\n\\\\tfoo = 1,\\\\n\\\\tbar = Vector2.new(2, 5),\\\\n\x7d, \x7bT = 5, ES = \\\\\"Exponential\\\\\", ED = \\\\\"InOut\\\\\"\x7d).Stepped:Connect(function()\\\\n\\\\tprint(array)\\\\nend)\\\\n```\",\"params\":[\x7b\"name\":\"targets\",\"desc\":\"\",\"lua_type\":\"Target\"\x7d,\x7b\"name\":\"goals\",\"desc\":\"\",\"lua_type\":\"Properties\"\x7d,\x7b\"name\":\"modifiers\",\"desc\":\"\",\"lua_type\":\"ModifierInput?\"\x7d],\"returns\":[\x7b\"desc\":\"\",\"lua_type\":\"Flow\\\\r\\\\n\"\x7d],\"function_type\":\"static\",\"source\":\x7b\"line\":172,\"path\":\"lib/Flow/init.lua\"\x7d\x7d,\x7b\"name\":\"Play\",\"desc\":\"Runs the Flow.\\\\n\\\\t\",\"params\":[],\"returns\":[],\"function_type\":\"method\",\"source\":\x7b\"line\":222,\"path\":\"lib/Flow/init.lua\"\x7d\x7d,\x7b\"name\":\"Stop\",\"desc\":\"Stops the Flow.\\\\n\\\\t\",\"params\":[],\"returns\":[],\"function_type\":\"method\",\"source\":\x7b\"line\":314,\"path\":\"lib/Flow/init.lua\"\x7d\x7d,\x7b\"name\":\"Pause\",\"desc\":\"Pauses the Flow.\\\\n\\\\t\",\"params\":[],\"returns\":[],\"function_type\":\"method\",\"source\":\x7b\"line\":334,\"path\":\"lib/Flow/init.lua\"\x7d\x7d,\x7b\"name\":\"Destroy\",\"desc\":\"Destroys the Flow.\\\\n\\\\t\",\"params\":[],\"returns\":[],\"function_type\":\"method\",\"source\":\x7b\"line\":347,\"path\":\"lib/Flow/init.lua\"\x7d\x7d,\x7b\"name\":\"Restart\",\"desc\":\"Restarts the Flow.\\\\n\\\\t\",\"params\":[],\"returns\":[],\"function_type\":\"method\",\"source\":\x7b\"line\":371,\"path\":\"lib/Flow/init.lua\"\x7d\x7d],\"properties\":[],\"types\":[\x7b\"name\":\"StepType\",\"desc\":\"\",\"lua_type\":\"\\\\\"Heartbeat\\\\\" | \\\\\"RenderStepped\\\\\" | \\\\\"Stepped\\\\\"\",\"source\":\x7b\"line\":124,\"path\":\"lib/Flow/init.lua\"\x7d\x7d,\x7b\"name\":\"Style\",\"desc\":\"\",\"lua_type\":\"\\\\\"Linear\\\\\" | \\\\\"Smooth\\\\\" | \\\\\"Smoother\\\\\" | \\\\\"RidiculousWiggle\\\\\" | \\\\\"ReverseBack\\\\\" | \\\\\"Spring\\\\\" | \\\\\"SoftSpring\\\\\" | \\\\\"Quad\\\\\" | \\\\\"Cubic\\\\\" | \\\\\"Quart\\\\\" | \\\\\"Quint\\\\\" | \\\\\"Back\\\\\" | \\\\\"Sine\\\\\" | \\\\\"Bounce\\\\\" | \\\\\"Elastic\\\\\" | \\\\\"Exponential\\\\\" | \\\\\"Circular\\\\\"\",\"source\":\x7b\"line\":128,\"path\":\"lib/Flow/init.lua\"\x7d\x7d,\x7b\"name\":\"Direction\",\"desc\":\"\",\"lua_type\":\"\\\\\"In\\\\\" | \\\\\"Out\\\\\" | \\\\\"InOut\\\\\" | \\\\\"OutIn\\\\\"\",\"source\":\x7b\"line\":132,\"path\":\"lib/Flow/init.lua\"\x7d\x7d,\x7b\"name\":\"Properties\",\"desc\":\"\",\"lua_type\":\"\x7b[string]: any\x7d\",\"source\":\x7b\"line\":136,\"path\":\"lib/Flow/init.lua\"\x7d\x7d,\x7b\"name\":\"Target\",\"desc\":\"\",\"lua_type\":\"Instance | \x7b[string]: any\x7d | \x7bInstance\x7d\",\"source\":\x7b\"line\":140,\"path\":\"lib/Flow/init.lua\"\x7d\x7d,\x7b\"name\":\"ModifierInput\",\"desc\":\"Additionally, you can use shorthand for each parameter, based off of the capitalized letters in each member.\\\\nEx: Time -> T\",\"lua_type\":\"\x7bTime: number?, EasingStyle: Style?, EasingDirection: Direction?, AutoPlay: boolean?, Destroy: boolean?, Reverse: boolean?, RepeatCount: number?, DelayTime: number?, StepType: StepType?\x7d\",\"source\":\x7b\"line\":147,\"path\":\"lib/Flow/init.lua\"\x7d\x7d],\"name\":\"Flow\",\"desc\":\"Interface for tweening.\",\"source\":\x7b\"line\":152,\"path\":\"lib/Flow/init.lua\"\x7d\x7d"

/-- The payload text in `src/build/assets/js/000a0734.384b6ae8.js` (chunk 7189, module 44035). -/
def OrderedStoragePayload : String :=
  "\x7b\"functions\":[\x7b\"name\":\"GetOrderedDataStore\",\"desc\":\"Returns a [OrderedDataStore] object, given a name and an optional scope parameter.\",\"params\":[\x7b\"name\":\"name\",\"desc\":\"The name of the [OrderedDataStore].\",\"lua_type\":\"string\"\x7d,\x7b\"name\":\"scope\",\"desc\":\"The scope of the [OrderedDataStore].\",\"lua_type\":\"string?\"\x7d],\"returns\":[\x7b\"desc\":\"\",\"lua_type\":\"OrderedDataStoreResult\\\\r\\\\n\"\x7d],\"function_type\":\"method\",\"yields\":true,\"source\":\x7b\"line\":226,\"path\":\"lib/Storage/OrderedDataStore.lua\"\x7d\x7d,\x7b\"name\":\"new\",\"desc\":\"Creates a new [OrderedStorageResult] object.\",\"params\":[\x7b\"name\":\"name\",\"desc\":\"The name of the [OrderedDataStore].\",\"lua_type\":\"string\"\x7d,\x7b\"name\":\"scope\",\"desc\":\"The scope of the [OrderedDataStore].\",\"lua_type\":\"string?\"\x7d,\x7b\"name\":\"default\",\"desc\":\"Default data to be used for blank entries.\",\"lua_type\":\"number\"\x7d],\"returns\":[\x7b\"desc\":\"\",\"lua_type\":\"OrderedStorageResult\\\\r\\\\n\"\x7d],\"function_type\":\"static\",\"yields\":true,\"source\":\x7b\"line\":269,\"path\":\"lib/Storage/OrderedDataStore.lua\"\x7d\x7d,\x7b\"name\":\"HardLoad\",\"desc\":\"Performs GetAsync if the data requested by the index does not exist, and returns the data.\\\\n\\\\n\\\\n\\\\t\",\"params\":[\x7b\"name\":\"self\",\"desc\":\"\",\"lua_type\":\"OrderedStorage\"\x7d,\x7b\"name\":\"index\",\"desc\":\"The key within the [OrderedDataStore].\",\"lua_type\":\"string\"\x7d],\"returns\":[\x7b\"desc\":\"\",\"lua_type\":\"DataResult\\\\r\\\\n\"\x7d],\"function_type\":\"static\",\"yields\":true,\"source\":\x7b\"line\":303,\"path\":\"lib/Storage/OrderedDataStore.lua\"\x7d\x7d,\x7b\"name\":\"SoftLoad\",\"desc\":\"Returns data associated with the index, if it has been loaded already.\\\\n\\\\n\\\\n\\\\t\",\"params\":[\x7b\"name\":\"self\",\"desc\":\"\",\"lua_type\":\"OrderedStorage\"\x7d,\x7b\"name\":\"index\",\"desc\":\"The key within the [OrderedDataStore].\",\"lua_type\":\"string\"\x7d],\"returns\":[\x7b\"desc\":\"\",\"lua_type\":\"DataResult\\\\r\\\\n\"\x7d],\"function_type\":\"static\",\"source\":\x7b\"line\":402,\"path\":\"lib/Storage/OrderedDataStore.lua\"\x7d\x7d,\x7b\"name\":\"HardSave\",\"desc\":\"Performs SetAsync with the data associated with the index, if it isn\\'t already being saved.\\\\n\\\\n\\\\n\\\\t\",\"params\":[\x7b\"name\":\"self\",\"desc\":\"\",\"lua_type\":\"OrderedStorage\"\x7d,\x7b\"name\":\"index\",\"desc\":\"The key within the [OrderedDataStore].\",\"lua_type\":\"string\"\x7d,\x7b\"name\":\"ids\",\"desc\":\"\",\"lua_type\":\"\x7bnumber\x7d?\"\x7d,\x7b\"name\":\"setOptions\",\"desc\":\"\",\"lua_type\":\"DataStoreSetOptions?\"\x7d],\"returns\":[\x7b\"desc\":\"\",\"lua_type\":\"SaveResult\\\\r\\\\n\"\x7d],\"function_type\":\"static\",\"yields\":true,\"source\":\x7b\"line\":446,\"path\":\"lib/Storage/OrderedDataStore.lua\"\x7d\x7d,\x7b\"name\":\"SoftSave\",\"desc\":\"Replaces all the data associated with the index.\\\\n\\\\n\\\\n\\\\t\",\"params\":[\x7b\"name\":\"self\",\"desc\":\"\",\"lua_type\":\"OrderedStorage\"\x7d,\x7b\"name\":\"index\",\"desc\":\"The key within the [OrderedDataStore].\",\"lua_type\":\"string\"\x7d,\x7b\"name\":\"newData\",\"desc\":\"\",\"lua_type\":\"any\"\x7d],\"returns\":[\x7b\"desc\":\"\",\"lua_type\":\"SaveResult\\\\r\\\\n\"\x7d],\"function_type\":\"static\",\"source\":\x7b\"line\":516,\"path\":\"lib/Storage/OrderedDataStore.lua\"\x7d\x7d,\x7b\"name\":\"GetPages\",\"desc\":\"Returns a [PageResult] object.\\\\n\\\\n\\\\n\\\\t\",\"params\":[\x7b\"name\":\"self\",\"desc\":\"\",\"lua_type\":\"OrderedStorage\"\x7d,\x7b\"name\":\"ascending\",\"desc\":\"Whether the list is in descending order or ascending order.\",\"lua_type\":\"boolean\"\x7d,\x7b\"name\":\"pageSize\",\"desc\":\"The length of each page.\",\"lua_type\":\"number\"\x7d,\x7b\"name\":\"min\",\"desc\":\"The minimum value to be included in the pages.\",\"lua_type\":\"number\"\x7d,\x7b\"name\":\"max\",\"desc\":\"The maximum value to be included in the pages.\",\"lua_type\":\"number\"\x7d],\"returns\":[\x7b\"desc\":\"\",\"lua_type\":\"PageResult\\\\r\\\\n\"\x7d],\"function_type\":\"static\",\"yields\":true,\"source\":\x7b\"line\":565,\"path\":\"lib/Storage/OrderedDataStore.lua\"\x7d\x7d,\x7b\"name\":\"Clear\",\"desc\":\"Hard saves the data, then removes the data associated with the index.\\\\n\\\\n\\\\n\\\\t\",\"params\":[\x7b\"name\":\"self\",\"desc\":\"\",\"lua_type\":\"OrderedStorage\"\x7d,\x7b\"name\":\"index\",\"desc\":\"The key within the [OrderedDataStore].\",\"lua_type\":\"string\"\x7d],\"returns\":[],\"function_type\":\"static\",\"yields\":true,\"source\":\x7b\"line\":609,\"path\":\"lib/Storage/OrderedDataStore.lua\"\x7d\x7d,\x7b\"name\":\"Close\",\"desc\":\"Saves all data, and clears it\\'s own members.\\\\n\\\\t\",\"params\":[\x7b\"name\":\"self\",\"desc\":\"\",\"lua_type\":\"OrderedStorage\"\x7d],\"returns\":[],\"function_type\":\"static\",\"yields\":true,\"source\":\x7b\"line\":628,\"path\":\"lib/Storage/OrderedDataStore.lua\"\x7d\x7d],\"properties\":[\x7b\"name\":\"LoadRetry\",\"desc\":\"Fired when Storage is going to retry loading the requested data, if it previously failed.\\\\nThe first param is the error message, the second param is the name of the Storage, the third param is the scope, and the\\\\nlast param is the key.\",\"lua_type\":\"Signal<string, string, string?, string>\",\"tags\":[\"Event\"],\"source\":\x7b\"line\":149,\"path\":\"lib/Storage/OrderedDataStore.lua\"\x7d\x7d,\x7b\"name\":\"LoadFail\",\"desc\":\"Fired when Storage failed to load the requested data after retrying several times.\\\\nThe first param is the error message, the second param is the name of the Storage, the third param is the scope, and the\\\\nlast param is the key.\",\"lua_type\":\"Signal<string, string, string?, string>\",\"tags\":[\"Event\"],\"source\":\x7b\"line\":158,\"path\":\"lib/Storage/OrderedDataStore.lua\"\x7d\x7d,\x7b\"name\":\"SaveStart\",\"desc\":\"Fired when Storage is going to try to save to [OrderedDataStore].\\\\nThe only param passed is the index.\",\"lua_type\":\"Signal<string>\",\"tags\":[\"Event\"],\"source\":\x7b\"line\":166,\"path\":\"lib/Storage/OrderedDataStore.lua\"\x7d\x7d,\x7b\"name\":\"SaveRetry\",\"desc\":\"Fired when Storage is going to retry saving the requested data, if it previously failed.\\\\nThe first param is the error message, the second param is the name of the Storage, the third param is the scope, and the\\\\nlast param is the key.\",\"lua_type\":\"Signal<string, string, string?, string>\",\"tags\":[\"Event\"],\"source\":\x7b\"line\":175,\"path\":\"lib/Storage/OrderedDataStore.lua\"\x7d\x7d,\x7b\"name\":\"SaveFail\",\"desc\":\"Fired when Storage failed to load the requested data after retrying several times.\\\\nThe first param is the error message, the second param is the name of the Storage, the third param is the scope, and the\\\\nlast param is the key.\",\"lua_type\":\"Signal<string, string, string?, string>\",\"tags\":[\"Event\"],\"source\":\x7b\"line\":184,\"path\":\"lib/Storage/OrderedDataStore.lua\"\x7d\x7d,\x7b\"name\":\"SaveSuccess\",\"desc\":\"Fired when Storage successfully saved to the [OrderedDataStore].\\\\nThe only param passed is the index.\",\"lua_type\":\"Signal<string>\",\"tags\":[\"Event\"],\"source\":\x7b\"line\":192,\"path\":\"lib/Storage/OrderedDataStore.lua\"\x7d\x7d,\x7b\"name\":\"FilledBlankStorage\",\"desc\":\"Fired when Storage fills in an empty key.\\\\nThe first param is the name of the Storage, the second param is the scope, and the last param is the index.\",\"lua_type\":\"Signal<string, string?, string>\",\"tags\":[\"Event\"],\"source\":\x7b\"line\":200,\"path\":\"lib/Storage/OrderedDataStore.lua\"\x7d\x7d,\x7b\"name\":\"GetSortedAsyncRetry\",\"desc\":\"Fired when Storage is going to retry getting the requested page data, if it previously failed.\\\\nThe first param is the error message, the second param is the name of the Storage, and the last param is the scope.\",\"lua_type\":\"Signal<string, string, string?>\",\"tags\":[\"Event\"],\"source\":\x7b\"line\":208,\"path\":\"lib/Storage/OrderedDataStore.lua\"\x7d\x7d,\x7b\"name\":\"GetSortedAsyncFail\",\"desc\":\"Fired when Storage failed to load the requested page data after retrying several times.\\\\nThe first param is the error message, the second param is the name of the Storage, and the last param is the scope.\",\"lua_type\":\"Signal<string, string, string?>\",\"tags\":[\"Event\"],\"source\":\x7b\"line\":216,\"path\":\"lib/Storage/OrderedDataStore.lua\"\x7d\x7d],\"types\":[\x7b\"name\":\"PageResult\",\"desc\":\"A dictionary containing a success boolean, a message (if saving the data fails), and a result (if getting the data\\\\n\\\\tsucceeds, then this is the DataStoreKeyPages object).\",\"lua_type\":\"Result<DataStoreKeyPages?>\",\"source\":\x7b\"line\":38,\"path\":\"lib/Storage/Types.lua\"\x7d\x7d,\x7b\"name\":\"OrderedDataStoreResult\",\"desc\":\"A table containing data members for success, message, and result. The message data member is only used when success is\\\\n\\\\tfalse, and result is only used when success is true, and contains the OrderedDataStore.\",\"lua_type\":\"Result<OrderedDataStore?>\",\"source\":\x7b\"line\":45,\"path\":\"lib/Storage/Types.lua\"\x7d\x7d,\x7b\"name\":\"OrderedStorageResult\",\"desc\":\"A dictionary containing a success boolean, a message (if getting the DataStore fails), and a result (if getting the\\\\n\\\\tDataStore succeeds, this is the OrderedStorage object).\",\"lua_type\":\"Result<OrderedStorage?>\",\"source\":\x7b\"line\":129,\"path\":\"lib/Storage/Types.lua\"\x7d\x7d],\"name\":\"OrderedStorage\",\"desc\":\"A basic [OrderedDataStore] wrapper object.\",\"realm\":[\"Server\"],\"source\":\x7b\"line\":140,\"path\":\"lib/Storage/OrderedDataStore.lua\"\x7d\x7d"

/-- The payload text in `src/build/assets/js/29b7258a.8a6e13f3.js` (chunk 1918, module 73913). -/
def StoragePayload : String :=
  "\x7b\"functions\":[\x7b\"name\":\"new\",\"desc\":\"Returns a [StorageResult] object.\\\\n\\\\n```lua\\\\nlocal storageResult = Storage.new(\\\\\"Base\\\\\", \\\\\"TEST\\\\\", nil, \x7b\\\\n\\\\tfoo = 5,\\\\n\\\\tbar = 10,\\\\n\\\\tqux = \x7b\\\\n\\\\t\\\\tfoo = 10,\\\\n\\\\t\\\\tbar = 5\\\\n\\\\t\\\\tboot = \\\\\"doot\\\\\",\\\\n\\\\t\\\\t\\\\n\\\\t\\\\tsecret = \x7b\\\\n\\\\t\\\\t\\\\tREALLYSECRET = \x7b\\\\n\\\\t\\\\t\\\\t\\\\tkey = \\\\\"oof!\\\\\",\\\\n\\\\t\\\\t\\\\t\x7d\\\\n\\\\t\\\\t\x7d,\\\\n\\\\t\x7d,\\\\n\x7d)\\\\n\\\\nif storageResult.success then\\\\n\\\\tlocal storage = storageResult.result\\\\n\\\\t\\\\n\\\\tstorage.DeepKeyUpdated:Connect(function(index, oldData, newData, indexers)\\\\n\\\\t\\\\tprint(index, indexers, table.unpack(indexers), oldData, newData)\\\\n\\\\tend)\\\\n\\\\t\\\\n\\\\tstorage.KeyUpdate:Connect(function(index, key, newData, oldData)\\\\n\\\\t\\\\tprint(index, key, newData, oldData)\\\\n\\\\tend)\\\\n\\\\t\\\\n\\\\tdo\\\\n\\\\t\\\\tlocal data = storage:HardLoad(\\\\\"qux\\\\\")\\\\n\\\\t\\\\t\\\\n\\\\t\\\\tif data.success then\\\\n\\\\t\\\\t\\\\tstorage:DeepUpdate(\\\\\"qux\\\\\", \\\\\"doh!\\\\\", \\\\\"secret\\\\\", \\\\\"REALLYSECRET\\\\\")\\\\n\\\\t\\\\tend\\\\n\\\\tend\\\\n\\\\t\\\\n\\\\tdo\\\\n\\\\t\\\\tlocal data = storage:HardLoad(\\\\\"foo\\\\\")\\\\n\\\\t\\\\t\\\\n\\\\t\\\\tif data.success then\\\\n\\\\t\\\\t\\\\tstorage:Update(\\\\\"foo\\\\\", 10)\\\\n\\\\t\\\\tend\\\\n\\\\tend\\\\nend\\\\n```\\\\n\\\\n\\\\n\\\\t\",\"params\":[\x7b\"name\":\"type\",\"desc\":\"\",\"lua_type\":\"StorageType\"\x7d,\x7b\"name\":\"name\",\"desc\":\"The name of the [Storage].\",\"lua_type\":\"string\"\x7d,\x7b\"name\":\"scope\",\"desc\":\"The scope of the [Storage].\",\"lua_type\":\"string?\"\x7d,\x7b\"name\":\"default\",\"desc\":\"\",\"lua_type\":\"Default\"\x7d,\x7b\"name\":\"options\",\"desc\":\"Options to modify DataStores.\",\"lua_type\":\"DataStoreOptions?\"\x7d],\"returns\":[\x7b\"desc\":\"\",\"lua_type\":\"StorageResult\\\\r\\\\n\"\x7d],\"function_type\":\"static\",\"yields\":true,\"source\":\x7b\"line\":99,\"path\":\"lib/Storage/init.lua\"\x7d\x7d,\x7b\"name\":\"newOrdered\",\"desc\":\"Returns a [OrderedStorageResult] object.\\\\n\\\\n\\\\n\\\\t\",\"params\":[\x7b\"name\":\"name\",\"desc\":\"The name of the [OrderedStorage].\",\"lua_type\":\"string\"\x7d,\x7b\"name\":\"scope\",\"desc\":\"The scope of the [OrderedStorage].\",\"lua_type\":\"string?\"\x7d,\x7b\"name\":\"default\",\"desc\":\"The default data for the [OrderedStorage]\",\"lua_type\":\"number\"\x7d],\"returns\":[\x7b\"desc\":\"\",\"lua_type\":\"StorageResult\\\\r\\\\n\"\x7d],\"function_type\":\"static\",\"yields\":true,\"source\":\x7b\"line\":119,\"path\":\"lib/Storage/init.lua\"\x7d\x7d,\x7b\"name\":\"GetStorage\",\"desc\":\"Returns an already-existing [StorageResult] object, given a name.\\\\n\\\\n```lua\\\\nlocal storageResult = Storage:GetStorage(\\\\\"TEST\\\\\")\\\\n```\\\\n\\\\n\\\\n\\\\t\",\"params\":[\x7b\"name\":\"name\",\"desc\":\"The name of the [Storage].\",\"lua_type\":\"string\"\x7d],\"returns\":[\x7b\"desc\":\"\",\"lua_type\":\"StorageResult?\\\\r\\\\n\"\x7d],\"function_type\":\"method\",\"source\":\x7b\"line\":136,\"path\":\"lib/Storage/init.lua\"\x7d\x7d,\x7b\"name\":\"GetBaseStorage\",\"desc\":\"Returns a [BaseResult] object.\\\\n\\\\n```lua\\\\nlocal baseResult = Storage:GetBaseStorage(\\\\\"Base\\\\\", \\\\\"TEST2\\\\\")\\\\n```\\\\n\\\\n\\\\n\\\\t\",\"params\":[\x7b\"name\":\"type\",\"desc\":\"The type of [Storage]; \\\\\"Base\\\\\" or \\\\\"Ordered\\\\\".\",\"lua_type\":\"BaseTypes\"\x7d,\x7b\"name\":\"name\",\"desc\":\"The name of the [Storage].\",\"lua_type\":\"string\"\x7d,\x7b\"name\":\"scope\",\"desc\":\"The scope of the [Storage].\",\"lua_type\":\"string?\"\x7d,\x7b\"name\":\"options\",\"desc\":\"Options to modify DataStores.\",\"lua_type\":\"DataStoreOptions?\"\x7d],\"returns\":[\x7b\"desc\":\"\",\"lua_type\":\"BaseResult\\\\r\\\\n\"\x7d],\"function_type\":\"method\",\"source\":\x7b\"line\":154,\"path\":\"lib/Storage/init.lua\"\x7d\x7d],\"properties\":[],\"types\":[\x7b\"name\":\"StorageType\",\"desc\":\"The type of DataStore; Player contains specific functionality used for players, and Base creates a general-purpose\\\\n\\\\tDataStore.\",\"lua_type\":\"\\\\\"Player\\\\\" | \\\\\"Base\\\\\"\",\"source\":\x7b\"line\":12,\"path\":\"lib/Storage/Types.lua\"\x7d\x7d,\x7b\"name\":\"Default\",\"desc\":\"Default data to be used for blank entries.\",\"lua_type\":\"\x7b[string | number]: any\x7d\",\"source\":\x7b\"line\":18,\"path\":\"lib/Storage/Types.lua\"\x7d\x7d,\x7b\"name\":\"Result\",\"desc\":\"\",\"lua_type\":\"<a>\x7bsuccess: boolean, message: string?, result: a, metadata: DataStoreKeyInfo?\x7d\",\"source\":\x7b\"line\":22,\"path\":\"lib/Storage/Types.lua\"\x7d\x7d,\x7b\"name\":\"SaveResult\",\"desc\":\"A dictionary containing a success boolean, and a message (if saving the data fails).\",\"lua_type\":\"Result<boolean?>\",\"source\":\x7b\"line\":28,\"path\":\"lib/Storage/Types.lua\"\x7d\x7d,\x7b\"name\":\"DataStoreResult\",\"desc\":\"A table containing data members for success, message, and result. The message data member is only used when success is\\\\n\\\\tfalse, and result is only used when success is true, and contains the DataStore.\",\"lua_type\":\"Result<GlobalDataStore?>\",\"source\":\x7b\"line\":49,\"path\":\"lib/Storage/Types.lua\"\x7d\x7d,\x7b\"name\":\"SaveStatus\",\"desc\":\"\",\"lua_type\":\"\\\\\"Saving\\\\\" | \\\\\"Failed\\\\\" | \\\\\"Ready\\\\\" | \\\\\"NotReady\\\\\"\",\"ignore\":true,\"source\":\x7b\"line\":54,\"path\":\"lib/Storage/Types.lua\"\x7d\x7d,\x7b\"name\":\"LoadStatus\",\"desc\":\"\",\"lua_type\":\"\\\\\"Loading\\\\\" | \\\\\"Failed\\\\\" | \\\\\"Ready\\\\\"\",\"ignore\":true,\"source\":\x7b\"line\":59,\"path\":\"lib/Storage/Types.lua\"\x7d\x7d,\x7b\"name\":\"BaseData\",\"desc\":\"\",\"lua_type\":\"\x7bsaveStatus: SaveStatus, loadStatus: LoadStatus, canSave: boolean, data: any\x7d\",\"source\":\x7b\"line\":63,\"path\":\"lib/Storage/Types.lua\"\x7d\x7d,\x7b\"name\":\"DataResult\",\"desc\":\"A dictionary containing a success boolean, a message (if getting the data fails), and a result (if getting the data\\\\n\\\\tsucceeds, this is the data).\",\"lua_type\":\"Result<any>\",\"source\":\x7b\"line\":70,\"path\":\"lib/Storage/Types.lua\"\x7d\x7d,\x7b\"name\":\"BaseResult\",\"desc\":\"A dictionary containing a success boolean, a message (if getting the DataStore fails), and a result (if getting the\\\\n\\\\tDataStore succeeds, this is the DataStore).\",\"lua_type\":\"Result<(GlobalDataStore | OrderedDataStore)?>\",\"source\":\x7b\"line\":77,\"path\":\"lib/Storage/Types.lua\"\x7d\x7d,\x7b\"name\":\"StorageResult\",\"desc\":\"A dictionary containing a success boolean, a message (if getting the DataStore fails), and a result (if getting the\\\\n\\\\tDataStore succeeds, this is the Storage object).\",\"lua_type\":\"Result<(PlayerStorage | BaseStorage)?>\",\"source\":\x7b\"line\":105,\"path\":\"lib/Storage/Types.lua\"\x7d\x7d],\"name\":\"Storage\",\"desc\":\"A DataStore wrapper service.\\\\n\\\\t\",\"realm\":[\"Server\"],\"source\":\x7b\"line\":42,\"path\":\"lib/Storage/init.lua\"\x7d\x7d"

/-- The payload text in `src/build/assets/js/3f77d212.2683b635.js` (chunk 18, module 41755). -/
def StopwatchPayload : String :=
  "\x7b\"functions\":[\x7b\"name\":\"new\",\"desc\":\"Creates a new [Stopwatch] object.\\\\n\\\\n```lua\\\\nlocal newStopwatch = Stopwatch.new()\\\\n```\",\"params\":[],\"returns\":[\x7b\"desc\":\"\",\"lua_type\":\"Stopwatch\\\\r\\\\n\"\x7d],\"function_type\":\"static\",\"source\":\x7b\"line\":47,\"path\":\"lib/Stopwatch.lua\"\x7d\x7d,\x7b\"name\":\"Start\",\"desc\":\"Starts or resumes the [Stopwatch].\\\\n\\\\n```lua\\\\nnewStopwatch:Start()\\\\n```\\\\n\\\\n\\\\t\",\"params\":[\x7b\"name\":\"self\",\"desc\":\"\",\"lua_type\":\"Stopwatch\"\x7d],\"returns\":[],\"function_type\":\"static\",\"source\":\x7b\"line\":63,\"path\":\"lib/Stopwatch.lua\"\x7d\x7d,\x7b\"name\":\"Stop\",\"desc\":\"Stops the [Stopwatch], and resets the total elapsed time. Returns the total elapsed time if it succeeds, or nil.\\\\n\\\\n```lua\\\\nprint(\\\\\"new time!!\\\\\", newStopwatch:Stop())\\\\n```\\\\n\\\\n\\\\t\",\"params\":[\x7b\"name\":\"self\",\"desc\":\"\",\"lua_type\":\"Stopwatch\"\x7d],\"returns\":[\x7b\"desc\":\"\",\"lua_type\":\"number\\\\r\\\\n\"\x7d],\"function_type\":\"static\",\"source\":\x7b\"line\":81,\"path\":\"lib/Stopwatch.lua\"\x7d\x7d,\x7b\"name\":\"Pause\",\"desc\":\"Pauses the [Stopwatch], and returns the lap elapsed time if it can; otherwise returns nil.\\\\n\\\\n```lua\\\\nprint(newStopwatch:Pause())\\\\n```\\\\n\\\\n\\\\t\",\"params\":[\x7b\"name\":\"self\",\"desc\":\"\",\"lua_type\":\"Stopwatch\"\x7d],\"returns\":[\x7b\"desc\":\"\",\"lua_type\":\"number?\\\\r\\\\n\"\x7d],\"function_type\":\"static\",\"source\":\x7b\"line\":104,\"path\":\"lib/Stopwatch.lua\"\x7d\x7d,\x7b\"name\":\"GetElapsed\",\"desc\":\"Returns two numbers or nil; the first number is the total elapsed time, the second is the elapsed time of the lap, if\\\\nthe [Stopwatch] is running; otherwise returns nil.\\\\n\\\\n```lua\\\\ntask.spawn(function()\\\\n\\\\twhile true do\\\\n\\\\t\\\\tlocal total, lap = newStopwatch:GetElapsed()\\\\n\\\\t\\\\t\\\\n\\\\t\\\\tif total then\\\\n\\\\t\\\\t\\\\tif lap then\\\\n\\\\t\\\\t\\\\t\\\\tprint(\\\\\"Total:\\\\\", total, \\\\\"; Lap:\\\\\", lap)\\\\n\\\\t\\\\t\\\\telse\\\\n\\\\t\\\\t\\\\t\\\\tprint(\\\\\"Total:\\\\\", total)\\\\n\\\\t\\\\t\\\\tend\\\\n\\\\t\\\\telse\\\\n\\\\t\\\\t\\\\tprint(\\\\\"Stopwatch does not exist!\\\\\")\\\\n\\\\t\\\\tend\\\\n\\\\t\\\\t\\\\n\\\\t\\\\ttask.wait()\\\\n\\\\tend\\\\nend)\\\\n```\\\\n\\\\n\\\\t\",\"params\":[\x7b\"name\":\"self\",\"desc\":\"\",\"lua_type\":\"Stopwatch\"\x7d],\"returns\":[\x7b\"desc\":\"\",\"lua_type\":\"number\"\x7d,\x7b\"desc\":\"\",\"lua_type\":\"number?\"\x7d],\"function_type\":\"static\",\"source\":\x7b\"line\":144,\"path\":\"lib/Stopwatch.lua\"\x7d\x7d,\x7b\"name\":\"IsRunning\",\"desc\":\"Returns a boolean describing if the [Stopwatch] is running or not.\\\\n\\\\n```lua\\\\nnewStopwatch:Start()\\\\n\\\\nprint(newStopwatch:IsRunning())\\\\n\\\\ntask.wait(1)\\\\n\\\\nnewStopwatch:Stop()\\\\n\\\\nprint(newStopwatch:IsRunning())\\\\n```\\\\n\\\\n\\\\t\",\"params\":[\x7b\"name\":\"self\",\"desc\":\"\",\"lua_type\":\"Stopwatch\"\x7d],\"returns\":[\x7b\"desc\":\"\",\"lua_type\":\"boolean\\\\r\\\\n\"\x7d],\"function_type\":\"static\",\"source\":\x7b\"line\":169,\"path\":\"lib/Stopwatch.lua\"\x7d\x7d,\x7b\"name\":\"Destroy\",\"desc\":\"Destroys the [Stopwatch] object.\\\\n\\\\n```lua\\\\nnewStopwatch:Destroy()\\\\n```\\\\n\\\\n\\\\t\",\"params\":[\x7b\"name\":\"self\",\"desc\":\"\",\"lua_type\":\"Stopwatch\"\x7d],\"returns\":[],\"function_type\":\"static\",\"source\":\x7b\"line\":182,\"path\":\"lib/Stopwatch.lua\"\x7d\x7d],\"properties\":[],\"types\":[],\"name\":\"Stopwatch\",\"desc\":\"A class that tracks time; like a stopwatch!\\\\n\\\\n```lua\\\\nlocal newStopwatch = Stopwatch.new()\\\\n\\\\nlocal totalDelay = task.wait(math.random() * 5)\\\\n\\\\nprint(newStopWatch:Stop())\\\\nprint(totalDelay)\\\\n```\",\"source\":\x7b\"line\":35,\"path\":\"lib/Stopwatch.lua\"\x7d\x7d"

/-- The payload text in `src/build/assets/js/9dae525b.1d40e190.js` (chunk 9297, module 81670). -/
def TimerPayload : String :=
  "\x7b\"functions\":[\x7b\"name\":\"new\",\"desc\":\"Creates and returns a new [Timer] object.\\\\n\\\\n```lua\\\\nlocal newTimer = Timer.new()\\\\nnewTimer:SetDuration(5)\\\\n\\\\nnewTimer.Finished:Connect(function()\\\\n\\\\tprint(\\\\\"Finished!\\\\\")\\\\n\\\\t\\\\n\\\\tnewTimer:Start()\\\\nend)\\\\n\\\\nnewTimer:Start()\\\\n```\",\"params\":[\x7b\"name\":\"initDuration\",\"desc\":\"Duration applied after initializing the [Timer].\",\"lua_type\":\"number?\"\x7d],\"returns\":[\x7b\"desc\":\"\",\"lua_type\":\"Timer\\\\r\\\\n\"\x7d],\"function_type\":\"static\",\"source\":\x7b\"line\":99,\"path\":\"lib/Timer.lua\"\x7d\x7d,\x7b\"name\":\"Start\",\"desc\":\"Starts the [Timer].\\\\n\\\\n:::caution\\\\nThis will error if the [Timer] has not been given a duration yet.\\\\n\\\\n\\\\t\",\"params\":[\x7b\"name\":\"self\",\"desc\":\"\",\"lua_type\":\"Timer\"\x7d],\"returns\":[],\"function_type\":\"static\",\"source\":\x7b\"line\":121,\"path\":\"lib/Timer.lua\"\x7d\x7d,\x7b\"name\":\"Pause\",\"desc\":\"Pauses the [Timer].\\\\n\\\\t\",\"params\":[\x7b\"name\":\"self\",\"desc\":\"\",\"lua_type\":\"Timer\"\x7d],\"returns\":[],\"function_type\":\"static\",\"source\":\x7b\"line\":147,\"path\":\"lib/Timer.lua\"\x7d\x7d,\x7b\"name\":\"Stop\",\"desc\":\"Stops the [Timer].\\\\n\\\\t\",\"params\":[\x7b\"name\":\"self\",\"desc\":\"\",\"lua_type\":\"Timer\"\x7d],\"returns\":[],\"function_type\":\"static\",\"source\":\x7b\"line\":171,\"path\":\"lib/Timer.lua\"\x7d\x7d,\x7b\"name\":\"IsRunning\",\"desc\":\"Returns true or false, depending on if the [Timer] is running or not.\\\\n\\\\t\",\"params\":[\x7b\"name\":\"self\",\"desc\":\"\",\"lua_type\":\"Timer\"\x7d],\"returns\":[\x7b\"desc\":\"\",\"lua_type\":\"boolean\\\\r\\\\n\"\x7d],\"function_type\":\"static\",\"source\":\x7b\"line\":193,\"path\":\"lib/Timer.lua\"\x7d\x7d,\x7b\"name\":\"SetDuration\",\"desc\":\"Sets the duration of the [Timer]. Durations MUST be a positive number and not zero.\\\\n\\\\n:::caution\\\\nThis will error if the [Timer] is running. Utilize :IsRunning() to prevent the error from propagating.\\\\n\\\\n\\\\t\",\"params\":[\x7b\"name\":\"self\",\"desc\":\"\",\"lua_type\":\"Timer\"\x7d,\x7b\"name\":\"newDuration\",\"desc\":\"\",\"lua_type\":\"number\"\x7d],\"returns\":[],\"function_type\":\"static\",\"source\":\x7b\"line\":205,\"path\":\"lib/Timer.lua\"\x7d\x7d,\x7b\"name\":\"GetRemaining\",\"desc\":\"Gets the duration and elapsed time of the [Timer].\\\\n\\\\n:::caution\\\\nThis will error if the [Timer] has not been given a duration yet.\\\\n\\\\n\\\\t\",\"params\":[\x7b\"name\":\"self\",\"desc\":\"\",\"lua_type\":\"Timer\"\x7d],\"returns\":[\x7b\"desc\":\"\",\"lua_type\":\"Remaining\\\\r\\\\n\"\x7d],\"function_type\":\"static\",\"source\":\x7b\"line\":226,\"path\":\"lib/Timer.lua\"\x7d\x7d,\x7b\"name\":\"Destroy\",\"desc\":\"Destroys the [Timer] object.\\\\n\\\\t\",\"params\":[\x7b\"name\":\"self\",\"desc\":\"\",\"lua_type\":\"Timer\"\x7d],\"returns\":[],\"function_type\":\"static\",\"source\":\x7b\"line\":250,\"path\":\"lib/Timer.lua\"\x7d\x7d,\x7b\"name\":\"withUpdate\",\"desc\":\"Creates and returns a new [Timer] object, with an Updated [Signal].\",\"params\":[\x7b\"name\":\"initDuration\",\"desc\":\"Duration applied after initializing the [Timer].\",\"lua_type\":\"number?\"\x7d],\"returns\":[\x7b\"desc\":\"\",\"lua_type\":\"TimerWithUpdate\\\\r\\\\n\"\x7d],\"function_type\":\"static\",\"source\":\x7b\"line\":282,\"path\":\"lib/Timer.lua\"\x7d\x7d],\"properties\":[\x7b\"name\":\"Finished\",\"desc\":\"Fired when the Timer finishes running.\",\"lua_type\":\"Signal<>\",\"source\":\x7b\"line\":55,\"path\":\"lib/Timer.lua\"\x7d\x7d,\x7b\"name\":\"Paused\",\"desc\":\"Fired when the Timer has been paused.\",\"lua_type\":\"Signal<>\",\"source\":\x7b\"line\":61,\"path\":\"lib/Timer.lua\"\x7d\x7d,\x7b\"name\":\"Updated\",\"desc\":\"Fired when the Timer has been updated. The first number is the time remaining, the second is the time elapsed.\\\\n\\\\n:::note\\\\nThis [Signal] member is not available in the base version of [Timer]. Use .withUpdate() to implement it.\",\"lua_type\":\"Signal<number, number>\",\"deprecated\":\x7b\"version\":\"v2.0.0\",\"desc\":\"Create your own updating method instead; removed due to a performance hit after the v2 revisions.\"\x7d,\"source\":\x7b\"line\":71,\"path\":\"lib/Timer.lua\"\x7d\x7d],\"types\":[\x7b\"name\":\"Remaining\",\"desc\":\"A data type used to display how much time is remaining / has elapsed in the Timer.\",\"lua_type\":\"\x7bremaining: number, elapsed: number\x7d\",\"source\":\x7b\"line\":78,\"path\":\"lib/Timer.lua\"\x7d\x7d],\"name\":\"Timer\",\"desc\":\"A timer class.\\\\n\\\\n:::note V2.0.0\\\\nAs of v2.0.0, the Updated [Signal] is no longer a part of the default Timer class. It can be restored by using .withUpdate().\",\"source\":\x7b\"line\":49,\"path\":\"lib/Timer.lua\"\x7d\x7d"

/-- The payload text in `src/build/assets/js/e7f361d7.28a8a893.js` (chunk 9529, module 99986). -/
def BaseStoragePayload : String :=
  "\x7b\"functions\":[\x7b\"name\":\"GetDataStore\",\"desc\":\"Returns a [DataStoreResult] object, given a name and optional scope and [DataStoreOptions] parameters.\",\"params\":[\x7b\"name\":\"name\",\"desc\":\"The name of the [GlobalDataStore].\",\"lua_type\":\"string\"\x7d,\x7b\"name\":\"scope\",\"desc\":\"The scope of the [GlobalDataStore].\",\"lua_type\":\"string?\"\x7d,\x7b\"name\":\"options\",\"desc\":\"The [DataStoreOptions] used when getting the [GlobalDataStore].\",\"lua_type\":\"DataStoreOptions?\"\x7d],\"returns\":[\x7b\"desc\":\"\",\"lua_type\":\"DataStoreResult\\\\r\\\\n\"\x7d],\"function_type\":\"method\",\"yields\":true,\"source\":\x7b\"line\":199,\"path\":\"lib/Storage/DataStore.lua\"\x7d\x7d,\x7b\"name\":\"new\",\"desc\":\"Creates a new [BaseStorageResult] object.\",\"params\":[\x7b\"name\":\"name\",\"desc\":\"The name of the [GlobalDataStore].\",\"lua_type\":\"string\"\x7d,\x7b\"name\":\"scope\",\"desc\":\"The scope of the [GlobalDataStore].\",\"lua_type\":\"string?\"\x7d,\x7b\"name\":\"options\",\"desc\":\"Options to modify [GlobalDataStore]s.\",\"lua_type\":\"DataStoreOptions?\"\x7d,\x7b\"name\":\"default\",\"desc\":\"Default data to be used for blank entries.\",\"lua_type\":\"Default\"\x7d],\"returns\":[\x7b\"desc\":\"\",\"lua_type\":\"BaseStorageResult\\\\r\\\\n\"\x7d],\"function_type\":\"static\",\"yields\":true,\"source\":\x7b\"line\":243,\"path\":\"lib/Storage/DataStore.lua\"\x7d\x7d,\x7b\"name\":\"HardLoad\",\"desc\":\"Performs GetAsync if the data requested by the index does not exist, and returns the data.\\\\n\\\\n\\\\n\\\\t\",\"params\":[\x7b\"name\":\"index\",\"desc\":\"The key within the [GlobalDataStore].\",\"lua_type\":\"string\"\x7d],\"returns\":[\x7b\"desc\":\"\",\"lua_type\":\"DataResult\\\\r\\\\n\"\x7d],\"function_type\":\"method\",\"yields\":true,\"source\":\x7b\"line\":277,\"path\":\"lib/Storage/DataStore.lua\"\x7d\x7d,\x7b\"name\":\"SoftLoad\",\"desc\":\"Returns data associated with the index, if it has been loaded already.\\\\n\\\\n\\\\n\\\\t\",\"params\":[\x7b\"name\":\"index\",\"desc\":\"The key within the [GlobalDataStore].\",\"lua_type\":\"string\"\x7d],\"returns\":[\x7b\"desc\":\"\",\"lua_type\":\"DataResult\\\\r\\\\n\"\x7d],\"function_type\":\"method\",\"source\":\x7b\"line\":370,\"path\":\"lib/Storage/DataStore.lua\"\x7d\x7d,\x7b\"name\":\"HardSave\",\"desc\":\"Performs SetAsync with the data associated with the index, if it isn\\'t already being saved.\\\\n\\\\n\\\\n\\\\t\",\"params\":[\x7b\"name\":\"index\",\"desc\":\"The key within the [GlobalDataStore].\",\"lua_type\":\"string\"\x7d,\x7b\"name\":\"ids\",\"desc\":\"An optional list of user IDs associated with the data.\",\"lua_type\":\"\x7bnumber\x7d?\"\x7d,\x7b\"name\":\"setOptions\",\"desc\":\"Options used to adjust SetAsync.\",\"lua_type\":\"DataStoreSetOptions?\"\x7d],\"returns\":[\x7b\"desc\":\"\",\"lua_type\":\"SaveResult\\\\r\\\\n\"\x7d],\"function_type\":\"method\",\"yields\":true,\"source\":\x7b\"line\":416,\"path\":\"lib/Storage/DataStore.lua\"\x7d\x7d,\x7b\"name\":\"SoftSave\",\"desc\":\"Replaces all the data associated with the index.\\\\n\\\\n\\\\n\\\\t\",\"params\":[\x7b\"name\":\"index\",\"desc\":\"The key within the [GlobalDataStore].\",\"lua_type\":\"string\"\x7d,\x7b\"name\":\"newData\",\"desc\":\"\",\"lua_type\":\"any\"\x7d],\"returns\":[\x7b\"desc\":\"\",\"lua_type\":\"SaveResult\\\\r\\\\n\"\x7d],\"function_type\":\"method\",\"source\":\x7b\"line\":487,\"path\":\"lib/Storage/DataStore.lua\"\x7d\x7d,\x7b\"name\":\"Update\",\"desc\":\"Saves the data associated with the index, if it isn\\'t already being saved.\\\\n\\\\n\\\\n\\\\t\",\"params\":[\x7b\"name\":\"index\",\"desc\":\"The key within the [GlobalDataStore].\",\"lua_type\":\"string\"\x7d,\x7b\"name\":\"key\",\"desc\":\"The key within the data.\",\"lua_type\":\"(string | number)\"\x7d,\x7b\"name\":\"newData\",\"desc\":\"The data to replace the contents of the key.\",\"lua_type\":\"any\"\x7d],\"returns\":[\x7b\"desc\":\"\",\"lua_type\":\"SaveResult\\\\r\\\\n\"\x7d],\"function_type\":\"method\",\"source\":\x7b\"line\":534,\"path\":\"lib/Storage/DataStore.lua\"\x7d\x7d,\x7b\"name\":\"DeepUpdate\",\"desc\":\"Saves the data associated with the indexes, if it isn\\'t already being saved.\\\\n\\\\n\\\\n\\\\t\",\"params\":[\x7b\"name\":\"index\",\"desc\":\"The key within the [GlobalDataStore].\",\"lua_type\":\"string\"\x7d,\x7b\"name\":\"newData\",\"desc\":\"The data to replace the contents of the key.\",\"lua_type\":\"any\"\x7d,\x7b\"name\":\"key\",\"desc\":\"The key within the data.\",\"lua_type\":\"(string | number)\"\x7d,\x7b\"name\":\"...\",\"desc\":\"The key indexer(s) within the data.\",\"lua_type\":\"(string | number)\"\x7d],\"returns\":[\x7b\"desc\":\"\",\"lua_type\":\"SaveResult\\\\r\\\\n\"\x7d],\"function_type\":\"method\",\"source\":\x7b\"line\":586,\"path\":\"lib/Storage/DataStore.lua\"\x7d\x7d,\x7b\"name\":\"Clear\",\"desc\":\"Hard saves the data, then removes the data associated with the index.\\\\n\\\\n\\\\n\\\\t\",\"params\":[\x7b\"name\":\"index\",\"desc\":\"The key within the [GlobalDataStore].\",\"lua_type\":\"string\"\x7d],\"returns\":[],\"function_type\":\"method\",\"yields\":true,\"source\":\x7b\"line\":664,\"path\":\"lib/Storage/DataStore.lua\"\x7d\x7d,\x7b\"name\":\"Close\",\"desc\":\"Saves all data, and clears it\\'s own members.\\\\n\\\\t\",\"params\":[],\"returns\":[],\"function_type\":\"method\",\"yields\":true,\"source\":\x7b\"line\":679,\"path\":\"lib/Storage/DataStore.lua\"\x7d\x7d],\"properties\":[\x7b\"name\":\"LoadRetry\",\"desc\":\"Fired when Storage is going to retry loading the requested data, if it previously failed.\\\\nThe first param is the error message, the second param is the name of the Storage, the third param is the scope, and the\\\\nlast param is the key.\",\"lua_type\":\"Signal<string, string, string?, string>\",\"tags\":[\"Event\"],\"source\":\x7b\"line\":119,\"path\":\"lib/Storage/DataStore.lua\"\x7d\x7d,\x7b\"name\":\"LoadFail\",\"desc\":\"Fired when Storage failed to load the requested data after retrying several times.\\\\nThe first param is the error message, the second param is the name of the Storage, the third param is the scope, and the\\\\nlast param is the key.\",\"lua_type\":\"Signal<string, string, string?, string>\",\"tags\":[\"Event\"],\"source\":\x7b\"line\":128,\"path\":\"lib/Storage/DataStore.lua\"\x7d\x7d,\x7b\"name\":\"SaveStart\",\"desc\":\"Fired when Storage is going to try to save to [GlobalDataStore].\\\\nThe only param passed is the index.\",\"lua_type\":\"Signal<string>\",\"tags\":[\"Event\"],\"source\":\x7b\"line\":136,\"path\":\"lib/Storage/DataStore.lua\"\x7d\x7d,\x7b\"name\":\"SaveRetry\",\"desc\":\"Fired when Storage is going to retry saving the requested data, if it previously failed.\\\\nThe first param is the error message, the second param is the name of the Storage, the third param is the scope, and the\\\\nlast param is the key.\",\"lua_type\":\"Signal<string, string, string?, string>\",\"tags\":[\"Event\"],\"source\":\x7b\"line\":145,\"path\":\"lib/Storage/DataStore.lua\"\x7d\x7d,\x7b\"name\":\"SaveFail\",\"desc\":\"Fired when Storage failed to load the requested data after retrying several times.\\\\nThe first param is the error message, the second param is the name of the Storage, the third param is the scope, and the\\\\nlast param is the key.\",\"lua_type\":\"Signal<string, string, string?, string>\",\"tags\":[\"Event\"],\"source\":\x7b\"line\":154,\"path\":\"lib/Storage/DataStore.lua\"\x7d\x7d,\x7b\"name\":\"SaveSuccess\",\"desc\":\"Fired when Storage successfully saved to the [GlobalDataStore].\\\\nThe only param passed is the index.\",\"lua_type\":\"Signal<string>\",\"tags\":[\"Event\"],\"source\":\x7b\"line\":162,\"path\":\"lib/Storage/DataStore.lua\"\x7d\x7d,\x7b\"name\":\"FilledBlankStorage\",\"desc\":\"Fired when Storage fills in an empty key.\\\\nThe first param is the name of the Storage, the second param is the scope, and the last param is the index.\",\"lua_type\":\"Signal<string, string?, string>\",\"tags\":[\"Event\"],\"source\":\x7b\"line\":170,\"path\":\"lib/Storage/DataStore.lua\"\x7d\x7d,\x7b\"name\":\"KeyUpdated\",\"desc\":\"Fired when a key in Storage is updated.\\\\nThe first param is the name of the Storage, the second param is the name of the key, the third param is the new data, and\\\\nthe last param is the old data.\",\"lua_type\":\"Signal<string, string | number, any, any>\",\"tags\":[\"Event\"],\"source\":\x7b\"line\":179,\"path\":\"lib/Storage/DataStore.lua\"\x7d\x7d,\x7b\"name\":\"DeepKeyUpdated\",\"desc\":\"Fired when a key deep in Storage is updated.\\\\nThe first param is the name of the index, the second param is the new data, the third param is the new old data, and the\\\\nlast param is an array of all the additional keys given.\",\"lua_type\":\"Signal<string, any, any, \x7bstring | number\x7d>\",\"tags\":[\"Event\"],\"source\":\x7b\"line\":188,\"path\":\"lib/Storage/DataStore.lua\"\x7d\x7d],\"types\":[\x7b\"name\":\"BaseStorageResult\",\"desc\":\"A dictionary containing a success boolean, a message (if getting the DataStore fails), and a result (if getting the\\\\n\\\\tDataStore succeeds, this is the BaseStorage object).\",\"lua_type\":\"Result<BaseStorage?>\",\"source\":\x7b\"line\":84,\"path\":\"lib/Storage/Types.lua\"\x7d\x7d],\"name\":\"BaseStorage\",\"desc\":\"A basic [GlobalDataStore] wrapper object.\",\"realm\":[\"Server\"],\"source\":\x7b\"line\":110,\"path\":\"lib/Storage/DataStore.lua\"\x7d\x7d"

/-! ### The values the payloads load to (see the `..._loads` lemmas) -/

/-- The value of the Value payload. -/
def ValueDoc : JSON :=
  .obj [
    (units "functions", .arr [
      .obj [
        (units "name", .str (units "new")),
        (units "desc", .str (units "Creates a new Value object. This will also determine the types for the object, if they were not strictly given.\n\n```lua\nlocal state = Value.new(false, true)\n```")),
        (units "params", .arr [
          .obj [
            (units "name", .str (units "...")),
            (units "desc", .str (units "The initial values you want to store in the new Value object.")),
            (units "lua_type", .str (units "a...")) ] ]),
        (units "returns", .arr [
          .obj [
            (units "desc", .str (units "")),
            (units "lua_type", .str (units "Value<a...>\r\n")) ] ]),
        (units "function_type", .str (units "static")),
        (units "source", .obj [
          (units "line", .num 114),
          (units "path", .str (units "lib/Value.lua")) ]) ],
      .obj [
        (units "name", .str (units "Set")),
        (units "desc", .str (units "Updates the value(s) inside the Value object.\n\n```lua\nstate:Set(true, false)\n```\n\n\t")),
        (units "params", .arr [
          .obj [
            (units "name", .str (units "self")),
            (units "desc", .str (units "")),
            (units "lua_type", .str (units "Value<a...>")) ],
          .obj [
            (units "name", .str (units "...")),
            (units "desc", .str (units "")),
            (units "lua_type", .str (units "a...")) ] ]),
        (units "returns", .arr []),
        (units "function_type", .str (units "static")),
        (units "source", .obj [
          (units "line", .num 134),
          (units "path", .str (units "lib/Value.lua")) ]) ],
      .obj [
        (units "name", .str (units "Get")),
        (units "desc", .str (units "Returns all values inside of the Value object.\n\n```lua\nprint(state:Get())\n```\n\n\t")),
        (units "params", .arr [
          .obj [
            (units "name", .str (units "self")),
            (units "desc", .str (units "")),
            (units "lua_type", .str (units "Value<a...>")) ] ]),
        (units "returns", .arr [
          .obj [
            (units "desc", .str (units "")),
            (units "lua_type", .str (units "a...")) ] ]),
        (units "function_type", .str (units "static")),
        (units "source", .obj [
          (units "line", .num 153),
          (units "path", .str (units "lib/Value.lua")) ]) ],
      .obj [
        (units "name", .str (units "Clone")),
        (units "desc", .str (units "Returns a new Value object with the same values as the original.\n\n```lua\nlocal copiedState = state:Clone()\n```\n\n\t")),
        (units "params", .arr [
          .obj [
            (units "name", .str (units "self")),
            (units "desc", .str (units "")),
            (units "lua_type", .str (units "Value<a...>")) ] ]),
        (units "returns", .arr [
          .obj [
            (units "desc", .str (units "")),
            (units "lua_type", .str (units "Value<a...>\r\n")) ] ]),
        (units "function_type", .str (units "static")),
        (units "source", .obj [
          (units "line", .num 168),
          (units "path", .str (units "lib/Value.lua")) ]) ],
      .obj [
        (units "name", .str (units "RawSet")),
        (units "desc", .str (units "Sets the value of the Value object without firing Changed or WillChange.\n\n\t")),
        (units "params", .arr [
          .obj [
            (units "name", .str (units "self")),
            (units "desc", .str (units "")),
            (units "lua_type", .str (units "Value<a...>")) ],
          .obj [
            (units "name", .str (units "...")),
            (units "desc", .str (units "")),
            (units "lua_type", .str (units "a...")) ] ]),
        (units "returns", .arr []),
        (units "function_type", .str (units "static")),
        (units "source", .obj [
          (units "line", .num 177),
          (units "path", .str (units "lib/Value.lua")) ]) ],
      .obj [
        (units "name", .str (units "Destroy")),
        (units "desc", .str (units "Destroys the Value object and makes it unusable.\n\n```lua\ncopiedState:Destroy()\n```\n\n\t")),
        (units "params", .arr [
          .obj [
            (units "name", .str (units "self")),
            (units "desc", .str (units "")),
            (units "lua_type", .str (units "Value<a...>")) ] ]),
        (units "returns", .arr []),
        (units "function_type", .str (units "static")),
        (units "source", .obj [
          (units "line", .num 190),
          (units "path", .str (units "lib/Value.lua")) ]) ] ]),
    (units "properties", .arr [
      .obj [
        (units "name", .str (units "WillChange")),
        (units "desc", .str (units "Is fired before the value changes for [Value].\n\n```lua\nstate.WillChange:Connect(function(foo, bar)\n\tprint(foo, bar)\nend)\n```")),
        (units "lua_type", .str (units "Signal<b...>")),
        (units "tags", .arr [
          .str (units "Event") ]),
        (units "source", .obj [
          (units "line", .num 87),
          (units "path", .str (units "lib/Value.lua")) ]) ],
      .obj [
        (units "name", .str (units "Changed")),
        (units "desc", .str (units "Is fired after the value changes for [Value].\n\n```lua\nstate.Changed:Connect(function(foo, bar)\n\tprint(foo, bar)\nend)\n```")),
        (units "lua_type", .str (units "Signal<b...>")),
        (units "tags", .arr [
          .str (units "Event") ]),
        (units "source", .obj [
          (units "line", .num 100),
          (units "path", .str (units "lib/Value.lua")) ]) ] ]),
    (units "types", .arr []),
    (units "name", .str (units "Value")),
    (units "desc", .str (units "An object used to store states, and trigger every [Connection] listening to its [Signal] members.\n\n```lua\nlocal state = Value.new(false, true)\n\nstate.WillChange:Connect(function(foo, bar)\n\tprint(foo, bar)\nend)\n\nstate.Changed:Connect(function(foo, bar)\n\tprint(foo, bar)\nend)\n\nstate:Set(true, false)\n\ntask.wait(1)\n\nlocal copiedState = state:Clone()\n\nprint(\"These are the current states:\", copiedState:Get())\n\ncopiedState:Destroy()\n```\n\n:::caution String Literals\nIt should be noted that for one reason or another, Value is not able to typecheck string literals properly.\n\n:::info\nThere is an alternative type named InternalValue, which can be used for classes built using it! The primary difference\nis that InternalValue drops the :Set(), :Destroy(), and :RawSet() methods, but only from the type, not the object.")),
    (units "source", .obj [
      (units "line", .num 73),
      (units "path", .str (units "lib/Value.lua")) ]) ]

/-- The value of the Bind payload. -/
def BindDoc : JSON :=
  .obj [
    (units "functions", .arr [
      .obj [
        (units "name", .str (units "new")),
        (units "desc", .str (units "Returns a new Bind class.\n\n\n```lua\nlocal newBind = Bind.new(\"Test\", \x7bEnum.KeyCode.E\x7d, function(actionName, state, input)\n\tprint(\"Wow!\")\nend)\n```")),
        (units "params", .arr [
          .obj [
            (units "name", .str (units "name")),
            (units "desc", .str (units "The name of the action.")),
            (units "lua_type", .str (units "string")) ],
          .obj [
            (units "name", .str (units "keys")),
            (units "desc", .str (units "The list of keys you want to bind.")),
            (units "lua_type", .str (units "Keys")) ],
          .obj [
            (units "name", .str (units "boundFunction")),
            (units "desc", .str (units "Function that the binding is bound to.")),
            (units "lua_type", .str (units "BoundFunction?")) ],
          .obj [
            (units "name", .str (units "enabled")),
            (units "desc", .str (units "Determines if the binding should be enabled upon creation; defaults to true.")),
            (units "lua_type", .str (units "boolean?")) ],
          .obj [
            (units "name", .str (units "mobileButton")),
            (units "desc", .str (units "Determines if a mobile button should be added with this binding; defaults to false.")),
            (units "lua_type", .str (units "boolean?")) ] ]),
        (units "returns", .arr [
          .obj [
            (units "desc", .str (units "")),
            (units "lua_type", .str (units "Bind\r\n")) ] ]),
        (units "function_type", .str (units "static")),
        (units "source", .obj [
          (units "line", .num 78),
          (units "path", .str (units "lib/Bind.lua")) ]) ],
      .obj [
        (units "name", .str (units "Rebind")),
        (units "desc", .str (units "Replaces the bound function mapped to new keys.\n\t")),
        (units "params", .arr [
          .obj [
            (units "name", .str (units "newKeys")),
            (units "desc", .str (units "")),
            (units "lua_type", .str (units "Keys")) ] ]),
        (units "returns", .arr []),
        (units "function_type", .str (units "method")),
        (units "source", .obj [
          (units "line", .num 101),
          (units "path", .str (units "lib/Bind.lua")) ]) ],
      .obj [
        (units "name", .str (units "Enable")),
        (units "desc", .str (units "Enables the [Bind].\n\t")),
        (units "params", .arr []),
        (units "returns", .arr []),
        (units "function_type", .str (units "method")),
        (units "source", .obj [
          (units "line", .num 121),
          (units "path", .str (units "lib/Bind.lua")) ]) ],
      .obj [
        (units "name", .str (units "Disable")),
        (units "desc", .str (units "Disables the [Bind].\n\t")),
        (units "params", .arr []),
        (units "returns", .arr []),
        (units "function_type", .str (units "method")),
        (units "source", .obj [
          (units "line", .num 129),
          (units "path", .str (units "lib/Bind.lua")) ]) ],
      .obj [
        (units "name", .str (units "Destroy")),
        (units "desc", .str (units "Destroys the [Bind].\n\t")),
        (units "params", .arr []),
        (units "returns", .arr []),
        (units "function_type", .str (units "method")),
        (units "source", .obj [
          (units "line", .num 137),
          (units "path", .str (units "lib/Bind.lua")) ]) ] ]),
    (units "properties", .arr [
      .obj [
        (units "name", .str (units "boundFunction")),
        (units "desc", .str (units "Function bound to the given [Keys].")),
        (units "lua_type", .str (units "BoundFunction")),
        (units "source", .obj [
          (units "line", .num 54),
          (units "path", .str (units "lib/Bind.lua")) ]) ],
      .obj [
        (units "name", .str (units "keys")),
        (units "desc", .str (units "[Keys] bound to the action.")),
        (units "lua_type", .str (units "Keys")),
        (units "source", .obj [
          (units "line", .num 60),
          (units "path", .str (units "lib/Bind.lua")) ]) ] ]),
    (units "types", .arr [
      .obj [
        (units "name", .str (units "Keys")),
        (units "desc", .str (units "A list of Enum.KeyCode to bind an action to.")),
        (units "lua_type", .str (units "\x7bEnum.KeyCode\x7d")),
        (units "source", .obj [
          (units "line", .num 35),
          (units "path", .str (units "lib/Bind.lua")) ]) ],
      .obj [
        (units "name", .str (units "BoundFunction")),
        (units "desc", .str (units "A function used to bind context actions to.")),
        (units "lua_type", .str (units "(actionName: string, state: Enum.UserInputState, input: InputObject) -> ()")),
        (units "source", .obj [
          (units "line", .num 41),
          (units "path", .str (units "lib/Bind.lua")) ]) ] ]),
    (units "name", .str (units "Bind")),
    (units "desc", .str (units "A [Bind] class that is used as an interface for binding keys to ContextActionService.")),
    (units "realm", .arr [
      .str (units "Client") ]),
    (units "source", .obj [
      (units "line", .num 47),
      (units "path", .str (units "lib/Bind.lua")) ]) ]

/-- The value of the Color3Util payload. -/
def Color3UtilDoc : JSON :=
  .obj [
    (units "functions", .arr [
      .obj [
        (units "name", .str (units "GetLimitedColor")),
        (units "desc", .str (units "Returns a number value that is either randomized or uses the given number.")),
        (units "params", .arr [
          .obj [
            (units "name", .str (units "a")),
            (units "desc", .str (units "")),
            (units "lua_type", .str (units "NumberOrRange")) ] ]),
        (units "returns", .arr [
          .obj [
            (units "desc", .str (units "")),
            (units "lua_type", .str (units "number\r\n")) ] ]),
        (units "function_type", .str (units "static")),
        (units "ignore", .bool true),
        (units "source", .obj [
          (units "line", .num 34),
          (units "path", .str (units "lib/Color3Util.lua")) ]) ],
      .obj [
        (units "name", .str (units "ClampRGB")),
        (units "desc", .str (units "Returns a Color3 with clamped R, G, and B values.\n\n```lua\nlocal clampedColor = Color3Util:ClampRGB(300, -2500, 5)\n\nprint(clampedColor) --> 255, 0, 5\n```")),
        (units "params", .arr [
          .obj [
            (units "name", .str (units "r")),
            (units "desc", .str (units "")),
            (units "lua_type", .str (units "number")) ],
          .obj [
            (units "name", .str (units "g")),
            (units "desc", .str (units "")),
            (units "lua_type", .str (units "number")) ],
          .obj [
            (units "name", .str (units "b")),
            (units "desc", .str (units "")),
            (units "lua_type", .str (units "number")) ] ]),
        (units "returns", .arr [
          .obj [
            (units "desc", .str (units "")),
            (units "lua_type", .str (units "Color3\r\n")) ] ]),
        (units "function_type", .str (units "method")),
        (units "source", .obj [
          (units "line", .num 60),
          (units "path", .str (units "lib/Color3Util.lua")) ]) ],
      .obj [
        (units "name", .str (units "ClampHSV")),
        (units "desc", .str (units "Returns a Color3 with clamped H, S, and V values.\n\n```lua\nlocal clampedColor = Color3Util:ClampHSV(300, -2500, 5)\n\nprint(clampedColor) --> 255, 0, 5\n```")),
        (units "params", .arr [
          .obj [
            (units "name", .str (units "h")),
            (units "desc", .str (units "")),
            (units "lua_type", .str (units "number")) ],
          .obj [
            (units "name", .str (units "s")),
            (units "desc", .str (units "")),
            (units "lua_type", .str (units "number")) ],
          .obj [
            (units "name", .str (units "v")),
            (units "desc", .str (units "")),
            (units "lua_type", .str (units "number")) ] ]),
        (units "returns", .arr [
          .obj [
            (units "desc", .str (units "")),
            (units "lua_type", .str (units "Color3\r\n")) ] ]),
        (units "function_type", .str (units "method")),
        (units "source", .obj [
          (units "line", .num 75),
          (units "path", .str (units "lib/Color3Util.lua")) ]) ],
      .obj [
        (units "name", .str (units "GetRandomColor")),
        (units "desc", .str (units "Returns a random color.\n\n```lua\nprint(Color3Util:GetRandomColor())\n```")),
        (units "params", .arr []),
        (units "returns", .arr [
          .obj [
            (units "desc", .str (units "")),
            (units "lua_type", .str (units "Color3\r\n")) ] ]),
        (units "function_type", .str (units "method")),
        (units "source", .obj [
          (units "line", .num 88),
          (units "path", .str (units "lib/Color3Util.lua")) ]) ],
      .obj [
        (units "name", .str (units "GetRandomColorWithLimitsInRGB")),
        (units "desc", .str (units "Returns a randomized color within given boundaries in RGB [0-255].\n\n```lua\nlocal limitedColor = Color3Util:GetRandomColorWithLimitsInRGB(NumberRange.new(50, 255), nil, 5)\n\nprint(limitedColor)\n```\n\n:::info\nIf a parameter is given nil, it has no boundaries; if given a NumberRange, it randomizes within that range; if given a\nnumber, it sets it to that number, and does no randomization.")),
        (units "params", .arr [
          .obj [
            (units "name", .str (units "r")),
            (units "desc", .str (units "")),
            (units "lua_type", .str (units "NumberOrRange")) ],
          .obj [
            (units "name", .str (units "g")),
            (units "desc", .str (units "")),
            (units "lua_type", .str (units "NumberOrRange")) ],
          .obj [
            (units "name", .str (units "b")),
            (units "desc", .str (units "")),
            (units "lua_type", .str (units "NumberOrRange")) ] ]),
        (units "returns", .arr [
          .obj [
            (units "desc", .str (units "")),
            (units "lua_type", .str (units "Color3\r\n")) ] ]),
        (units "function_type", .str (units "method")),
        (units "source", .obj [
          (units "line", .num 107),
          (units "path", .str (units "lib/Color3Util.lua")) ]) ],
      .obj [
        (units "name", .str (units "GetRandomColorWithLimitsInHSV")),
        (units "desc", .str (units "Returns a randomized color within given boundaries in HSV [0-255].\n\n```lua\nlocal limitedColor = Color3Util:GetRandomColorWithLimitsInHSV(NumberRange.new(50, 255), nil, 5)\n\nprint(limitedColor)\n```\n\n:::info\nIf a parameter is given nil, it has no boundaries; if given a NumberRange, it randomizes\nwithin that range; if given a number, it sets it to that number, and does no randomization.")),
        (units "params", .arr [
          .obj [
            (units "name", .str (units "h")),
            (units "desc", .str (units "")),
            (units "lua_type", .str (units "NumberOrRange")) ],
          .obj [
            (units "name", .str (units "s")),
            (units "desc", .str (units "")),
            (units "lua_type", .str (units "NumberOrRange")) ],
          .obj [
            (units "name", .str (units "v")),
            (units "desc", .str (units "")),
            (units "lua_type", .str (units "NumberOrRange")) ] ]),
        (units "returns", .arr [
          .obj [
            (units "desc", .str (units "")),
            (units "lua_type", .str (units "Color3\r\n")) ] ]),
        (units "function_type", .str (units "method")),
        (units "source", .obj [
          (units "line", .num 126),
          (units "path", .str (units "lib/Color3Util.lua")) ]) ],
      .obj [
        (units "name", .str (units "GetVariantColor")),
        (units "desc", .str (units "Returns a color that is a variation of the one given, within a given amplitude.\n\n```lua\nlocal originalColor = Color3.new(0.5, 0.25, 0.75)\nlocal variationColorA = Color3Util:GetVariantColor(originalColor, 55)\nlocal variationColorB = Color3Util:GetVariantColor(originalColor, 20)\n\nprint(\"Original:\", originalColor, \"| A:\", variationColorA, \"| B:\", variationColorB)\n```")),
        (units "params", .arr [
          .obj [
            (units "name", .str (units "color")),
            (units "desc", .str (units "The color to use as a base.")),
            (units "lua_type", .str (units "Color3")) ],
          .obj [
            (units "name", .str (units "amplitude")),
            (units "desc", .str (units "The amount to variate the color by (0-255)")),
            (units "lua_type", .str (units "number")) ] ]),
        (units "returns", .arr [
          .obj [
            (units "desc", .str (units "")),
            (units "lua_type", .str (units "Color3\r\n")) ] ]),
        (units "function_type", .str (units "method")),
        (units "source", .obj [
          (units "line", .num 146),
          (units "path", .str (units "lib/Color3Util.lua")) ]) ],
      .obj [
        (units "name", .str (units "GetColorAtPointFromSequence")),
        (units "desc", .str (units "Returns the color at the given point within the ColorSequence.\n\n```lua\nlocal sequence = ColorSequence.new(\x7b\n\tColorSequenceKeypoint.new(0, Color3.new(1, 0, 0)),\n\tColorSequenceKeypoint.new(0.5, Color3.new(0, 1, 0)),\n\tColorSequenceKeypoint.new(1, Color3.new(1, 0, 1)),\n\x7d)\n\nprint(Color3Util:GetColorAtPointFromSequence(sequence, 0.25))\n```")),
        (units "params", .arr [
          .obj [
            (units "name", .str (units "sequence")),
            (units "desc", .str (units "The sequence to pull the color from.")),
            (units "lua_type", .str (units "ColorSequence")) ],
          .obj [
            (units "name", .str (units "point")),
            (units "desc", .str (units "The time to get the color from. [0, 1]")),
            (units "lua_type", .str (units "number")) ] ]),
        (units "returns", .arr [
          .obj [
            (units "desc", .str (units "")),
            (units "lua_type", .str (units "Color3\r\n")) ] ]),
        (units "function_type", .str (units "method")),
        (units "source", .obj [
          (units "line", .num 175),
          (units "path", .str (units "lib/Color3Util.lua")) ]) ],
      .obj [
        (units "name", .str (units "GetRandomColorOnSequence")),
        (units "desc", .str (units "Returns a color from anywhere on the ColorSequence.\n\n```lua\nlocal sequence = ColorSequence.new(\x7b\n\tColorSequenceKeypoint.new(0, Color3.new(1, 0, 0)),\n\tColorSequenceKeypoint.new(0.5, Color3.new(0, 1, 0)),\n\tColorSequenceKeypoint.new(1, Color3.new(1, 0, 1)),\n\x7d)\n\nprint(Color3Util:GetRandomColorOnSequence(sequence))\n```")),
        (units "params", .arr [
          .obj [
            (units "name", .str (units "sequence")),
            (units "desc", .str (units "The sequence to pull the color from.")),
            (units "lua_type", .str (units "ColorSequence")) ] ]),
        (units "returns", .arr [
          .obj [
            (units "desc", .str (units "")),
            (units "lua_type", .str (units "Color3\r\n")) ] ]),
        (units "function_type", .str (units "method")),
        (units "source", .obj [
          (units "line", .num 224),
          (units "path", .str (units "lib/Color3Util.lua")) ]) ] ]),
    (units "properties", .arr []),
    (units "types", .arr [
      .obj [
        (units "name", .str (units "NumberOrRange")),
        (units "desc", .str (units "A number, NumberRange, or nil.")),
        (units "lua_type", .str (units "(number | NumberRange)?")),
        (units "source", .obj [
          (units "line", .num 22),
          (units "path", .str (units "lib/Color3Util.lua")) ]) ] ]),
    (units "name", .str (units "Color3Util")),
    (units "desc", .str (units "A library with a number of Color3 helper functions.")),
    (units "source", .obj [
      (units "line", .num 27),
      (units "path", .str (units "lib/Color3Util.lua")) ]) ]

/-- The value of the Flow payload. -/
def FlowDoc : JSON :=
  .obj [
    (units "functions", .arr [
      .obj [
        (units "name", .str (units "new")),
        (units "desc", .str (units "Creates a new Flow object.\n\n```lua\nlocal array = \x7b\n\tfoo = 5,\n\tbar = Vector2.new(5, 2),\n\x7d\n\nFlow.new(array, \x7b\n\tfoo = 1,\n\tbar = Vector2.new(2, 5),\n\x7d, \x7bT = 5, ES = \"Exponential\", ED = \"InOut\"\x7d).Stepped:Connect(function()\n\tprint(array)\nend)\n```")),
        (units "params", .arr [
          .obj [
            (units "name", .str (units "targets")),
            (units "desc", .str (units "")),
            (units "lua_type", .str (units "Target")) ],
          .obj [
            (units "name", .str (units "goals")),
            (units "desc", .str (units "")),
            (units "lua_type", .str (units "Properties")) ],
          .obj [
            (units "name", .str (units "modifiers")),
            (units "desc", .str (units "")),
            (units "lua_type", .str (units "ModifierInput?")) ] ]),
        (units "returns", .arr [
          .obj [
            (units "desc", .str (units "")),
            (units "lua_type", .str (units "Flow\r\n")) ] ]),
        (units "function_type", .str (units "static")),
        (units "source", .obj [
          (units "line", .num 172),
          (units "path", .str (units "lib/Flow/init.lua")) ]) ],
      .obj [
        (units "name", .str (units "Play")),
        (units "desc", .str (units "Runs the Flow.\n\t")),
        (units "params", .arr []),
        (units "returns", .arr []),
        (units "function_type", .str (units "method")),
        (units "source", .obj [
          (units "line", .num 222),
          (units "path", .str (units "lib/Flow/init.lua")) ]) ],
      .obj [
        (units "name", .str (units "Stop")),
        (units "desc", .str (units "Stops the Flow.\n\t")),
        (units "params", .arr []),
        (units "returns", .arr []),
        (units "function_type", .str (units "method")),
        (units "source", .obj [
          (units "line", .num 314),
          (units "path", .str (units "lib/Flow/init.lua")) ]) ],
      .obj [
        (units "name", .str (units "Pause")),
        (units "desc", .str (units "Pauses the Flow.\n\t")),
        (units "params", .arr []),
        (units "returns", .arr []),
        (units "function_type", .str (units "method")),
        (units "source", .obj [
          (units "line", .num 334),
          (units "path", .str (units "lib/Flow/init.lua")) ]) ],
      .obj [
        (units "name", .str (units "Destroy")),
        (units "desc", .str (units "Destroys the Flow.\n\t")),
        (units "params", .arr []),
        (units "returns", .arr []),
        (units "function_type", .str (units "method")),
        (units "source", .obj [
          (units "line", .num 347),
          (units "path", .str (units "lib/Flow/init.lua")) ]) ],
      .obj [
        (units "name", .str (units "Restart")),
        (units "desc", .str (units "Restarts the Flow.\n\t")),
        (units "params", .arr []),
        (units "returns", .arr []),
        (units "function_type", .str (units "method")),
        (units "source", .obj [
          (units "line", .num 371),
          (units "path", .str (units "lib/Flow/init.lua")) ]) ] ]),
    (units "properties", .arr []),
    (units "types", .arr [
      .obj [
        (units "name", .str (units "StepType")),
        (units "desc", .str (units "")),
        (units "lua_type", .str (units "\"Heartbeat\" | \"RenderStepped\" | \"Stepped\"")),
        (units "source", .obj [
          (units "line", .num 124),
          (units "path", .str (units "lib/Flow/init.lua")) ]) ],
      .obj [
        (units "name", .str (units "Style")),
        (units "desc", .str (units "")),
        (units "lua_type", .str (units "\"Linear\" | \"Smooth\" | \"Smoother\" | \"RidiculousWiggle\" | \"ReverseBack\" | \"Spring\" | \"SoftSpring\" | \"Quad\" | \"Cubic\" | \"Quart\" | \"Quint\" | \"Back\" | \"Sine\" | \"Bounce\" | \"Elastic\" | \"Exponential\" | \"Circular\"")),
        (units "source", .obj [
          (units "line", .num 128),
          (units "path", .str (units "lib/Flow/init.lua")) ]) ],
      .obj [
        (units "name", .str (units "Direction")),
        (units "desc", .str (units "")),
        (units "lua_type", .str (units "\"In\" | \"Out\" | \"InOut\" | \"OutIn\"")),
        (units "source", .obj [
          (units "line", .num 132),
          (units "path", .str (units "lib/Flow/init.lua")) ]) ],
      .obj [
        (units "name", .str (units "Properties")),
        (units "desc", .str (units "")),
        (units "lua_type", .str (units "\x7b[string]: any\x7d")),
        (units "source", .obj [
          (units "line", .num 136),
          (units "path", .str (units "lib/Flow/init.lua")) ]) ],
      .obj [
        (units "name", .str (units "Target")),
        (units "desc", .str (units "")),
        (units "lua_type", .str (units "Instance | \x7b[string]: any\x7d | \x7bInstance\x7d")),
        (units "source", .obj [
          (units "line", .num 140),
          (units "path", .str (units "lib/Flow/init.lua")) ]) ],
      .obj [
        (units "name", .str (units "ModifierInput")),
        (units "desc", .str (units "Additionally, you can use shorthand for each parameter, based off of the capitalized letters in each member.\nEx: Time -> T")),
        (units "lua_type", .str (units "\x7bTime: number?, EasingStyle: Style?, EasingDirection: Direction?, AutoPlay: boolean?, Destroy: boolean?, Reverse: boolean?, RepeatCount: number?, DelayTime: number?, StepType: StepType?\x7d")),
        (units "source", .obj [
          (units "line", .num 147),
          (units "path", .str (units "lib/Flow/init.lua")) ]) ] ]),
    (units "name", .str (units "Flow")),
    (units "desc", .str (units "Interface for tweening.")),
    (units "source", .obj [
      (units "line", .num 152),
      (units "path", .str (units "lib/Flow/init.lua")) ]) ]

/-- The value of the OrderedStorage payload. -/
def OrderedStorageDoc : JSON :=
  .obj [
    (units "functions", .arr [
      .obj [
        (units "name", .str (units "GetOrderedDataStore")),
        (units "desc", .str (units "Returns a [OrderedDataStore] object, given a name and an optional scope parameter.")),
        (units "params", .arr [
          .obj [
            (units "name", .str (units "name")),
            (units "desc", .str (units "The name of the [OrderedDataStore].")),
            (units "lua_type", .str (units "string")) ],
          .obj [
            (units "name", .str (units "scope")),
            (units "desc", .str (units "The scope of the [OrderedDataStore].")),
            (units "lua_type", .str (units "string?")) ] ]),
        (units "returns", .arr [
          .obj [
            (units "desc", .str (units "")),
            (units "lua_type", .str (units "OrderedDataStoreResult\r\n")) ] ]),
        (units "function_type", .str (units "method")),
        (units "yields", .bool true),
        (units "source", .obj [
          (units "line", .num 226),
          (units "path", .str (units "lib/Storage/OrderedDataStore.lua")) ]) ],
      .obj [
        (units "name", .str (units "new")),
        (units "desc", .str (units "Creates a new [OrderedStorageResult] object.")),
        (units "params", .arr [
          .obj [
            (units "name", .str (units "name")),
            (units "desc", .str (units "The name of the [OrderedDataStore].")),
            (units "lua_type", .str (units "string")) ],
          .obj [
            (units "name", .str (units "scope")),
            (units "desc", .str (units "The scope of the [OrderedDataStore].")),
            (units "lua_type", .str (units "string?")) ],
          .obj [
            (units "name", .str (units "default")),
            (units "desc", .str (units "Default data to be used for blank entries.")),
            (units "lua_type", .str (units "number")) ] ]),
        (units "returns", .arr [
          .obj [
            (units "desc", .str (units "")),
            (units "lua_type", .str (units "OrderedStorageResult\r\n")) ] ]),
        (units "function_type", .str (units "static")),
        (units "yields", .bool true),
        (units "source", .obj [
          (units "line", .num 269),
          (units "path", .str (units "lib/Storage/OrderedDataStore.lua")) ]) ],
      .obj [
        (units "name", .str (units "HardLoad")),
        (units "desc", .str (units "Performs GetAsync if the data requested by the index does not exist, and returns the data.\n\n\n\t")),
        (units "params", .arr [
          .obj [
            (units "name", .str (units "self")),
            (units "desc", .str (units "")),
            (units "lua_type", .str (units "OrderedStorage")) ],
          .obj [
            (units "name", .str (units "index")),
            (units "desc", .str (units "The key within the [OrderedDataStore].")),
            (units "lua_type", .str (units "string")) ] ]),
        (units "returns", .arr [
          .obj [
            (units "desc", .str (units "")),
            (units "lua_type", .str (units "DataResult\r\n")) ] ]),
        (units "function_type", .str (units "static")),
        (units "yields", .bool true),
        (units "source", .obj [
          (units "line", .num 303),
          (units "path", .str (units "lib/Storage/OrderedDataStore.lua")) ]) ],
      .obj [
        (units "name", .str (units "SoftLoad")),
        (units "desc", .str (units "Returns data associated with the index, if it has been loaded already.\n\n\n\t")),
        (units "params", .arr [
          .obj [
            (units "name", .str (units "self")),
            (units "desc", .str (units "")),
            (units "lua_type", .str (units "OrderedStorage")) ],
          .obj [
            (units "name", .str (units "index")),
            (units "desc", .str (units "The key within the [OrderedDataStore].")),
            (units "lua_type", .str (units "string")) ] ]),
        (units "returns", .arr [
          .obj [
            (units "desc", .str (units "")),
            (units "lua_type", .str (units "DataResult\r\n")) ] ]),
        (units "function_type", .str (units "static")),
        (units "source", .obj [
          (units "line", .num 402),
          (units "path", .str (units "lib/Storage/OrderedDataStore.lua")) ]) ],
      .obj [
        (units "name", .str (units "HardSave")),
        (units "desc", .str (units "Performs SetAsync with the data associated with the index, if it isn't already being saved.\n\n\n\t")),
        (units "params", .arr [
          .obj [
            (units "name", .str (units "self")),
            (units "desc", .str (units "")),
            (units "lua_type", .str (units "OrderedStorage")) ],
          .obj [
            (units "name", .str (units "index")),
            (units "desc", .str (units "The key within the [OrderedDataStore].")),
            (units "lua_type", .str (units "string")) ],
          .obj [
            (units "name", .str (units "ids")),
            (units "desc", .str (units "")),
            (units "lua_type", .str (units "\x7bnumber\x7d?")) ],
          .obj [
            (units "name", .str (units "setOptions")),
            (units "desc", .str (units "")),
            (units "lua_type", .str (units "DataStoreSetOptions?")) ] ]),
        (units "returns", .arr [
          .obj [
            (units "desc", .str (units "")),
            (units "lua_type", .str (units "SaveResult\r\n")) ] ]),
        (units "function_type", .str (units "static")),
        (units "yields", .bool true),
        (units "source", .obj [
          (units "line", .num 446),
          (units "path", .str (units "lib/Storage/OrderedDataStore.lua")) ]) ],
      .obj [
        (units "name", .str (units "SoftSave")),
        (units "desc", .str (units "Replaces all the data associated with the index.\n\n\n\t")),
        (units "params", .arr [
          .obj [
            (units "name", .str (units "self")),
            (units "desc", .str (units "")),
            (units "lua_type", .str (units "OrderedStorage")) ],
          .obj [
            (units "name", .str (units "index")),
            (units "desc", .str (units "The key within the [OrderedDataStore].")),
            (units "lua_type", .str (units "string")) ],
          .obj [
            (units "name", .str (units "newData")),
            (units "desc", .str (units "")),
            (units "lua_type", .str (units "any")) ] ]),
        (units "returns", .arr [
          .obj [
            (units "desc", .str (units "")),
            (units "lua_type", .str (units "SaveResult\r\n")) ] ]),
        (units "function_type", .str (units "static")),
        (units "source", .obj [
          (units "line", .num 516),
          (units "path", .str (units "lib/Storage/OrderedDataStore.lua")) ]) ],
      .obj [
        (units "name", .str (units "GetPages")),
        (units "desc", .str (units "Returns a [PageResult] object.\n\n\n\t")),
        (units "params", .arr [
          .obj [
            (units "name", .str (units "self")),
            (units "desc", .str (units "")),
            (units "lua_type", .str (units "OrderedStorage")) ],
          .obj [
            (units "name", .str (units "ascending")),
            (units "desc", .str (units "Whether the list is in descending order or ascending order.")),
            (units "lua_type", .str (units "boolean")) ],
          .obj [
            (units "name", .str (units "pageSize")),
            (units "desc", .str (units "The length of each page.")),
            (units "lua_type", .str (units "number")) ],
          .obj [
            (units "name", .str (units "min")),
            (units "desc", .str (units "The minimum value to be included in the pages.")),
            (units "lua_type", .str (units "number")) ],
          .obj [
            (units "name", .str (units "max")),
            (units "desc", .str (units "The maximum value to be included in the pages.")),
            (units "lua_type", .str (units "number")) ] ]),
        (units "returns", .arr [
          .obj [
            (units "desc", .str (units "")),
            (units "lua_type", .str (units "PageResult\r\n")) ] ]),
        (units "function_type", .str (units "static")),
        (units "yields", .bool true),
        (units "source", .obj [
          (units "line", .num 565),
          (units "path", .str (units "lib/Storage/OrderedDataStore.lua")) ]) ],
      .obj [
        (units "name", .str (units "Clear")),
        (units "desc", .str (units "Hard saves the data, then removes the data associated with the index.\n\n\n\t")),
        (units "params", .arr [
          .obj [
            (units "name", .str (units "self")),
            (units "desc", .str (units "")),
            (units "lua_type", .str (units "OrderedStorage")) ],
          .obj [
            (units "name", .str (units "index")),
            (units "desc", .str (units "The key within the [OrderedDataStore].")),
            (units "lua_type", .str (units "string")) ] ]),
        (units "returns", .arr []),
        (units "function_type", .str (units "static")),
        (units "yields", .bool true),
        (units "source", .obj [
          (units "line", .num 609),
          (units "path", .str (units "lib/Storage/OrderedDataStore.lua")) ]) ],
      .obj [
        (units "name", .str (units "Close")),
        (units "desc", .str (units "Saves all data, and clears it's own members.\n\t")),
        (units "params", .arr [
          .obj [
            (units "name", .str (units "self")),
            (units "desc", .str (units "")),
            (units "lua_type", .str (units "OrderedStorage")) ] ]),
        (units "returns", .arr []),
        (units "function_type", .str (units "static")),
        (units "yields", .bool true),
        (units "source", .obj [
          (units "line", .num 628),
          (units "path", .str (units "lib/Storage/OrderedDataStore.lua")) ]) ] ]),
    (units "properties", .arr [
      .obj [
        (units "name", .str (units "LoadRetry")),
        (units "desc", .str (units "Fired when Storage is going to retry loading the requested data, if it previously failed.\nThe first param is the error message, the second param is the name of the Storage, the third param is the scope, and the\nlast param is the key.")),
        (units "lua_type", .str (units "Signal<string, string, string?, string>")),
        (units "tags", .arr [
          .str (units "Event") ]),
        (units "source", .obj [
          (units "line", .num 149),
          (units "path", .str (units "lib/Storage/OrderedDataStore.lua")) ]) ],
      .obj [
        (units "name", .str (units "LoadFail")),
        (units "desc", .str (units "Fired when Storage failed to load the requested data after retrying several times.\nThe first param is the error message, the second param is the name of the Storage, the third param is the scope, and the\nlast param is the key.")),
        (units "lua_type", .str (units "Signal<string, string, string?, string>")),
        (units "tags", .arr [
          .str (units "Event") ]),
        (units "source", .obj [
          (units "line", .num 158),
          (units "path", .str (units "lib/Storage/OrderedDataStore.lua")) ]) ],
      .obj [
        (units "name", .str (units "SaveStart")),
        (units "desc", .str (units "Fired when Storage is going to try to save to [OrderedDataStore].\nThe only param passed is the index.")),
        (units "lua_type", .str (units "Signal<string>")),
        (units "tags", .arr [
          .str (units "Event") ]),
        (units "source", .obj [
          (units "line", .num 166),
          (units "path", .str (units "lib/Storage/OrderedDataStore.lua")) ]) ],
      .obj [
        (units "name", .str (units "SaveRetry")),
        (units "desc", .str (units "Fired when Storage is going to retry saving the requested data, if it previously failed.\nThe first param is the error message, the second param is the name of the Storage, the third param is the scope, and the\nlast param is the key.")),
        (units "lua_type", .str (units "Signal<string, string, string?, string>")),
        (units "tags", .arr [
          .str (units "Event") ]),
        (units "source", .obj [
          (units "line", .num 175),
          (units "path", .str (units "lib/Storage/OrderedDataStore.lua")) ]) ],
      .obj [
        (units "name", .str (units "SaveFail")),
        (units "desc", .str (units "Fired when Storage failed to load the requested data after retrying several times.\nThe first param is the error message, the second param is the name of the Storage, the third param is the scope, and the\nlast param is the key.")),
        (units "lua_type", .str (units "Signal<string, string, string?, string>")),
        (units "tags", .arr [
          .str (units "Event") ]),
        (units "source", .obj [
          (units "line", .num 184),
          (units "path", .str (units "lib/Storage/OrderedDataStore.lua")) ]) ],
      .obj [
        (units "name", .str (units "SaveSuccess")),
        (units "desc", .str (units "Fired when Storage successfully saved to the [OrderedDataStore].\nThe only param passed is the index.")),
        (units "lua_type", .str (units "Signal<string>")),
        (units "tags", .arr [
          .str (units "Event") ]),
        (units "source", .obj [
          (units "line", .num 192),
          (units "path", .str (units "lib/Storage/OrderedDataStore.lua")) ]) ],
      .obj [
        (units "name", .str (units "FilledBlankStorage")),
        (units "desc", .str (units "Fired when Storage fills in an empty key.\nThe first param is the name of the Storage, the second param is the scope, and the last param is the index.")),
        (units "lua_type", .str (units "Signal<string, string?, string>")),
        (units "tags", .arr [
          .str (units "Event") ]),
        (units "source", .obj [
          (units "line", .num 200),
          (units "path", .str (units "lib/Storage/OrderedDataStore.lua")) ]) ],
      .obj [
        (units "name", .str (units "GetSortedAsyncRetry")),
        (units "desc", .str (units "Fired when Storage is going to retry getting the requested page data, if it previously failed.\nThe first param is the error message, the second param is the name of the Storage, and the last param is the scope.")),
        (units "lua_type", .str (units "Signal<string, string, string?>")),
        (units "tags", .arr [
          .str (units "Event") ]),
        (units "source", .obj [
          (units "line", .num 208),
          (units "path", .str (units "lib/Storage/OrderedDataStore.lua")) ]) ],
      .obj [
        (units "name", .str (units "GetSortedAsyncFail")),
        (units "desc", .str (units "Fired when Storage failed to load the requested page data after retrying several times.\nThe first param is the error message, the second param is the name of the Storage, and the last param is the scope.")),
        (units "lua_type", .str (units "Signal<string, string, string?>")),
        (units "tags", .arr [
          .str (units "Event") ]),
        (units "source", .obj [
          (units "line", .num 216),
          (units "path", .str (units "lib/Storage/OrderedDataStore.lua")) ]) ] ]),
    (units "types", .arr [
      .obj [
        (units "name", .str (units "PageResult")),
        (units "desc", .str (units "A dictionary containing a success boolean, a message (if saving the data fails), and a result (if getting the data\n\tsucceeds, then this is the DataStoreKeyPages object).")),
        (units "lua_type", .str (units "Result<DataStoreKeyPages?>")),
        (units "source", .obj [
          (units "line", .num 38),
          (units "path", .str (units "lib/Storage/Types.lua")) ]) ],
      .obj [
        (units "name", .str (units "OrderedDataStoreResult")),
        (units "desc", .str (units "A table containing data members for success, message, and result. The message data member is only used when success is\n\tfalse, and result is only used when success is true, and contains the OrderedDataStore.")),
        (units "lua_type", .str (units "Result<OrderedDataStore?>")),
        (units "source", .obj [
          (units "line", .num 45),
          (units "path", .str (units "lib/Storage/Types.lua")) ]) ],
      .obj [
        (units "name", .str (units "OrderedStorageResult")),
        (units "desc", .str (units "A dictionary containing a success boolean, a message (if getting the DataStore fails), and a result (if getting the\n\tDataStore succeeds, this is the OrderedStorage object).")),
        (units "lua_type", .str (units "Result<OrderedStorage?>")),
        (units "source", .obj [
          (units "line", .num 129),
          (units "path", .str (units "lib/Storage/Types.lua")) ]) ] ]),
    (units "name", .str (units "OrderedStorage")),
    (units "desc", .str (units "A basic [OrderedDataStore] wrapper object.")),
    (units "realm", .arr [
      .str (units "Server") ]),
    (units "source", .obj [
      (units "line", .num 140),
      (units "path", .str (units "lib/Storage/OrderedDataStore.lua")) ]) ]

/-- The value of the Storage payload. -/
def StorageDoc : JSON :=
  .obj [
    (units "functions", .arr [
      .obj [
        (units "name", .str (units "new")),
        (units "desc", .str (units "Returns a [StorageResult] object.\n\n```lua\nlocal storageResult = Storage.new(\"Base\", \"TEST\", nil, \x7b\n\tfoo = 5,\n\tbar = 10,\n\tqux = \x7b\n\t\tfoo = 10,\n\t\tbar = 5\n\t\tboot = \"doot\",\n\t\t\n\t\tsecret = \x7b\n\t\t\tREALLYSECRET = \x7b\n\t\t\t\tkey = \"oof!\",\n\t\t\t\x7d\n\t\t\x7d,\n\t\x7d,\n\x7d)\n\nif storageResult.success then\n\tlocal storage = storageResult.result\n\t\n\tstorage.DeepKeyUpdated:Connect(function(index, oldData, newData, indexers)\n\t\tprint(index, indexers, table.unpack(indexers), oldData, newData)\n\tend)\n\t\n\tstorage.KeyUpdate:Connect(function(index, key, newData, oldData)\n\t\tprint(index, key, newData, oldData)\n\tend)\n\t\n\tdo\n\t\tlocal data = storage:HardLoad(\"qux\")\n\t\t\n\t\tif data.success then\n\t\t\tstorage:DeepUpdate(\"qux\", \"doh!\", \"secret\", \"REALLYSECRET\")\n\t\tend\n\tend\n\t\n\tdo\n\t\tlocal data = storage:HardLoad(\"foo\")\n\t\t\n\t\tif data.success then\n\t\t\tstorage:Update(\"foo\", 10)\n\t\tend\n\tend\nend\n```\n\n\n\t")),
        (units "params", .arr [
          .obj [
            (units "name", .str (units "type")),
            (units "desc", .str (units "")),
            (units "lua_type", .str (units "StorageType")) ],
          .obj [
            (units "name", .str (units "name")),
            (units "desc", .str (units "The name of the [Storage].")),
            (units "lua_type", .str (units "string")) ],
          .obj [
            (units "name", .str (units "scope")),
            (units "desc", .str (units "The scope of the [Storage].")),
            (units "lua_type", .str (units "string?")) ],
          .obj [
            (units "name", .str (units "default")),
            (units "desc", .str (units "")),
            (units "lua_type", .str (units "Default")) ],
          .obj [
            (units "name", .str (units "options")),
            (units "desc", .str (units "Options to modify DataStores.")),
            (units "lua_type", .str (units "DataStoreOptions?")) ] ]),
        (units "returns", .arr [
          .obj [
            (units "desc", .str (units "")),
            (units "lua_type", .str (units "StorageResult\r\n")) ] ]),
        (units "function_type", .str (units "static")),
        (units "yields", .bool true),
        (units "source", .obj [
          (units "line", .num 99),
          (units "path", .str (units "lib/Storage/init.lua")) ]) ],
      .obj [
        (units "name", .str (units "newOrdered")),
        (units "desc", .str (units "Returns a [OrderedStorageResult] object.\n\n\n\t")),
        (units "params", .arr [
          .obj [
            (units "name", .str (units "name")),
            (units "desc", .str (units "The name of the [OrderedStorage].")),
            (units "lua_type", .str (units "string")) ],
          .obj [
            (units "name", .str (units "scope")),
            (units "desc", .str (units "The scope of the [OrderedStorage].")),
            (units "lua_type", .str (units "string?")) ],
          .obj [
            (units "name", .str (units "default")),
            (units "desc", .str (units "The default data for the [OrderedStorage]")),
            (units "lua_type", .str (units "number")) ] ]),
        (units "returns", .arr [
          .obj [
            (units "desc", .str (units "")),
            (units "lua_type", .str (units "StorageResult\r\n")) ] ]),
        (units "function_type", .str (units "static")),
        (units "yields", .bool true),
        (units "source", .obj [
          (units "line", .num 119),
          (units "path", .str (units "lib/Storage/init.lua")) ]) ],
      .obj [
        (units "name", .str (units "GetStorage")),
        (units "desc", .str (units "Returns an already-existing [StorageResult] object, given a name.\n\n```lua\nlocal storageResult = Storage:GetStorage(\"TEST\")\n```\n\n\n\t")),
        (units "params", .arr [
          .obj [
            (units "name", .str (units "name")),
            (units "desc", .str (units "The name of the [Storage].")),
            (units "lua_type", .str (units "string")) ] ]),
        (units "returns", .arr [
          .obj [
            (units "desc", .str (units "")),
            (units "lua_type", .str (units "StorageResult?\r\n")) ] ]),
        (units "function_type", .str (units "method")),
        (units "source", .obj [
          (units "line", .num 136),
          (units "path", .str (units "lib/Storage/init.lua")) ]) ],
      .obj [
        (units "name", .str (units "GetBaseStorage")),
        (units "desc", .str (units "Returns a [BaseResult] object.\n\n```lua\nlocal baseResult = Storage:GetBaseStorage(\"Base\", \"TEST2\")\n```\n\n\n\t")),
        (units "params", .arr [
          .obj [
            (units "name", .str (units "type")),
            (units "desc", .str (units "The type of [Storage]; \"Base\" or \"Ordered\".")),
            (units "lua_type", .str (units "BaseTypes")) ],
          .obj [
            (units "name", .str (units "name")),
            (units "desc", .str (units "The name of the [Storage].")),
            (units "lua_type", .str (units "string")) ],
          .obj [
            (units "name", .str (units "scope")),
            (units "desc", .str (units "The scope of the [Storage].")),
            (units "lua_type", .str (units "string?")) ],
          .obj [
            (units "name", .str (units "options")),
            (units "desc", .str (units "Options to modify DataStores.")),
            (units "lua_type", .str (units "DataStoreOptions?")) ] ]),
        (units "returns", .arr [
          .obj [
            (units "desc", .str (units "")),
            (units "lua_type", .str (units "BaseResult\r\n")) ] ]),
        (units "function_type", .str (units "method")),
        (units "source", .obj [
          (units "line", .num 154),
          (units "path", .str (units "lib/Storage/init.lua")) ]) ] ]),
    (units "properties", .arr []),
    (units "types", .arr [
      .obj [
        (units "name", .str (units "StorageType")),
        (units "desc", .str (units "The type of DataStore; Player contains specific functionality used for players, and Base creates a general-purpose\n\tDataStore.")),
        (units "lua_type", .str (units "\"Player\" | \"Base\"")),
        (units "source", .obj [
          (units "line", .num 12),
          (units "path", .str (units "lib/Storage/Types.lua")) ]) ],
      .obj [
        (units "name", .str (units "Default")),
        (units "desc", .str (units "Default data to be used for blank entries.")),
        (units "lua_type", .str (units "\x7b[string | number]: any\x7d")),
        (units "source", .obj [
          (units "line", .num 18),
          (units "path", .str (units "lib/Storage/Types.lua")) ]) ],
      .obj [
        (units "name", .str (units "Result")),
        (units "desc", .str (units "")),
        (units "lua_type", .str (units "<a>\x7bsuccess: boolean, message: string?, result: a, metadata: DataStoreKeyInfo?\x7d")),
        (units "source", .obj [
          (units "line", .num 22),
          (units "path", .str (units "lib/Storage/Types.lua")) ]) ],
      .obj [
        (units "name", .str (units "SaveResult")),
        (units "desc", .str (units "A dictionary containing a success boolean, and a message (if saving the data fails).")),
        (units "lua_type", .str (units "Result<boolean?>")),
        (units "source", .obj [
          (units "line", .num 28),
          (units "path", .str (units "lib/Storage/Types.lua")) ]) ],
      .obj [
        (units "name", .str (units "DataStoreResult")),
        (units "desc", .str (units "A table containing data members for success, message, and result. The message data member is only used when success is\n\tfalse, and result is only used when success is true, and contains the DataStore.")),
        (units "lua_type", .str (units "Result<GlobalDataStore?>")),
        (units "source", .obj [
          (units "line", .num 49),
          (units "path", .str (units "lib/Storage/Types.lua")) ]) ],
      .obj [
        (units "name", .str (units "SaveStatus")),
        (units "desc", .str (units "")),
        (units "lua_type", .str (units "\"Saving\" | \"Failed\" | \"Ready\" | \"NotReady\"")),
        (units "ignore", .bool true),
        (units "source", .obj [
          (units "line", .num 54),
          (units "path", .str (units "lib/Storage/Types.lua")) ]) ],
      .obj [
        (units "name", .str (units "LoadStatus")),
        (units "desc", .str (units "")),
        (units "lua_type", .str (units "\"Loading\" | \"Failed\" | \"Ready\"")),
        (units "ignore", .bool true),
        (units "source", .obj [
          (units "line", .num 59),
          (units "path", .str (units "lib/Storage/Types.lua")) ]) ],
      .obj [
        (units "name", .str (units "BaseData")),
        (units "desc", .str (units "")),
        (units "lua_type", .str (units "\x7bsaveStatus: SaveStatus, loadStatus: LoadStatus, canSave: boolean, data: any\x7d")),
        (units "source", .obj [
          (units "line", .num 63),
          (units "path", .str (units "lib/Storage/Types.lua")) ]) ],
      .obj [
        (units "name", .str (units "DataResult")),
        (units "desc", .str (units "A dictionary containing a success boolean, a message (if getting the data fails), and a result (if getting the data\n\tsucceeds, this is the data).")),
        (units "lua_type", .str (units "Result<any>")),
        (units "source", .obj [
          (units "line", .num 70),
          (units "path", .str (units "lib/Storage/Types.lua")) ]) ],
      .obj [
        (units "name", .str (units "BaseResult")),
        (units "desc", .str (units "A dictionary containing a success boolean, a message (if getting the DataStore fails), and a result (if getting the\n\tDataStore succeeds, this is the DataStore).")),
        (units "lua_type", .str (units "Result<(GlobalDataStore | OrderedDataStore)?>")),
        (units "source", .obj [
          (units "line", .num 77),
          (units "path", .str (units "lib/Storage/Types.lua")) ]) ],
      .obj [
        (units "name", .str (units "StorageResult")),
        (units "desc", .str (units "A dictionary containing a success boolean, a message (if getting the DataStore fails), and a result (if getting the\n\tDataStore succeeds, this is the Storage object).")),
        (units "lua_type", .str (units "Result<(PlayerStorage | BaseStorage)?>")),
        (units "source", .obj [
          (units "line", .num 105),
          (units "path", .str (units "lib/Storage/Types.lua")) ]) ] ]),
    (units "name", .str (units "Storage")),
    (units "desc", .str (units "A DataStore wrapper service.\n\t")),
    (units "realm", .arr [
      .str (units "Server") ]),
    (units "source", .obj [
      (units "line", .num 42),
      (units "path", .str (units "lib/Storage/init.lua")) ]) ]

/-- The value of the Stopwatch payload. -/
def StopwatchDoc : JSON :=
  .obj [
    (units "functions", .arr [
      .obj [
        (units "name", .str (units "new")),
        (units "desc", .str (units "Creates a new [Stopwatch] object.\n\n```lua\nlocal newStopwatch = Stopwatch.new()\n```")),
        (units "params", .arr []),
        (units "returns", .arr [
          .obj [
            (units "desc", .str (units "")),
            (units "lua_type", .str (units "Stopwatch\r\n")) ] ]),
        (units "function_type", .str (units "static")),
        (units "source", .obj [
          (units "line", .num 47),
          (units "path", .str (units "lib/Stopwatch.lua")) ]) ],
      .obj [
        (units "name", .str (units "Start")),
        (units "desc", .str (units "Starts or resumes the [Stopwatch].\n\n```lua\nnewStopwatch:Start()\n```\n\n\t")),
        (units "params", .arr [
          .obj [
            (units "name", .str (units "self")),
            (units "desc", .str (units "")),
            (units "lua_type", .str (units "Stopwatch")) ] ]),
        (units "returns", .arr []),
        (units "function_type", .str (units "static")),
        (units "source", .obj [
          (units "line", .num 63),
          (units "path", .str (units "lib/Stopwatch.lua")) ]) ],
      .obj [
        (units "name", .str (units "Stop")),
        (units "desc", .str (units "Stops the [Stopwatch], and resets the total elapsed time. Returns the total elapsed time if it succeeds, or nil.\n\n```lua\nprint(\"new time!!\", newStopwatch:Stop())\n```\n\n\t")),
        (units "params", .arr [
          .obj [
            (units "name", .str (units "self")),
            (units "desc", .str (units "")),
            (units "lua_type", .str (units "Stopwatch")) ] ]),
        (units "returns", .arr [
          .obj [
            (units "desc", .str (units "")),
            (units "lua_type", .str (units "number\r\n")) ] ]),
        (units "function_type", .str (units "static")),
        (units "source", .obj [
          (units "line", .num 81),
          (units "path", .str (units "lib/Stopwatch.lua")) ]) ],
      .obj [
        (units "name", .str (units "Pause")),
        (units "desc", .str (units "Pauses the [Stopwatch], and returns the lap elapsed time if it can; otherwise returns nil.\n\n```lua\nprint(newStopwatch:Pause())\n```\n\n\t")),
        (units "params", .arr [
          .obj [
            (units "name", .str (units "self")),
            (units "desc", .str (units "")),
            (units "lua_type", .str (units "Stopwatch")) ] ]),
        (units "returns", .arr [
          .obj [
            (units "desc", .str (units "")),
            (units "lua_type", .str (units "number?\r\n")) ] ]),
        (units "function_type", .str (units "static")),
        (units "source", .obj [
          (units "line", .num 104),
          (units "path", .str (units "lib/Stopwatch.lua")) ]) ],
      .obj [
        (units "name", .str (units "GetElapsed")),
        (units "desc", .str (units "Returns two numbers or nil; the first number is the total elapsed time, the second is the elapsed time of the lap, if\nthe [Stopwatch] is running; otherwise returns nil.\n\n```lua\ntask.spawn(function()\n\twhile true do\n\t\tlocal total, lap = newStopwatch:GetElapsed()\n\t\t\n\t\tif total then\n\t\t\tif lap then\n\t\t\t\tprint(\"Total:\", total, \"; Lap:\", lap)\n\t\t\telse\n\t\t\t\tprint(\"Total:\", total)\n\t\t\tend\n\t\telse\n\t\t\tprint(\"Stopwatch does not exist!\")\n\t\tend\n\t\t\n\t\ttask.wait()\n\tend\nend)\n```\n\n\t")),
        (units "params", .arr [
          .obj [
            (units "name", .str (units "self")),
            (units "desc", .str (units "")),
            (units "lua_type", .str (units "Stopwatch")) ] ]),
        (units "returns", .arr [
          .obj [
            (units "desc", .str (units "")),
            (units "lua_type", .str (units "number")) ],
          .obj [
            (units "desc", .str (units "")),
            (units "lua_type", .str (units "number?")) ] ]),
        (units "function_type", .str (units "static")),
        (units "source", .obj [
          (units "line", .num 144),
          (units "path", .str (units "lib/Stopwatch.lua")) ]) ],
      .obj [
        (units "name", .str (units "IsRunning")),
        (units "desc", .str (units "Returns a boolean describing if the [Stopwatch] is running or not.\n\n```lua\nnewStopwatch:Start()\n\nprint(newStopwatch:IsRunning())\n\ntask.wait(1)\n\nnewStopwatch:Stop()\n\nprint(newStopwatch:IsRunning())\n```\n\n\t")),
        (units "params", .arr [
          .obj [
            (units "name", .str (units "self")),
            (units "desc", .str (units "")),
            (units "lua_type", .str (units "Stopwatch")) ] ]),
        (units "returns", .arr [
          .obj [
            (units "desc", .str (units "")),
            (units "lua_type", .str (units "boolean\r\n")) ] ]),
        (units "function_type", .str (units "static")),
        (units "source", .obj [
          (units "line", .num 169),
          (units "path", .str (units "lib/Stopwatch.lua")) ]) ],
      .obj [
        (units "name", .str (units "Destroy")),
        (units "desc", .str (units "Destroys the [Stopwatch] object.\n\n```lua\nnewStopwatch:Destroy()\n```\n\n\t")),
        (units "params", .arr [
          .obj [
            (units "name", .str (units "self")),
            (units "desc", .str (units "")),
            (units "lua_type", .str (units "Stopwatch")) ] ]),
        (units "returns", .arr []),
        (units "function_type", .str (units "static")),
        (units "source", .obj [
          (units "line", .num 182),
          (units "path", .str (units "lib/Stopwatch.lua")) ]) ] ]),
    (units "properties", .arr []),
    (units "types", .arr []),
    (units "name", .str (units "Stopwatch")),
    (units "desc", .str (units "A class that tracks time; like a stopwatch!\n\n```lua\nlocal newStopwatch = Stopwatch.new()\n\nlocal totalDelay = task.wait(math.random() * 5)\n\nprint(newStopWatch:Stop())\nprint(totalDelay)\n```")),
    (units "source", .obj [
      (units "line", .num 35),
      (units "path", .str (units "lib/Stopwatch.lua")) ]) ]

/-- The value of the Timer payload. -/
def TimerDoc : JSON :=
  .obj [
    (units "functions", .arr [
      .obj [
        (units "name", .str (units "new")),
        (units "desc", .str (units "Creates and returns a new [Timer] object.\n\n```lua\nlocal newTimer = Timer.new()\nnewTimer:SetDuration(5)\n\nnewTimer.Finished:Connect(function()\n\tprint(\"Finished!\")\n\t\n\tnewTimer:Start()\nend)\n\nnewTimer:Start()\n```")),
        (units "params", .arr [
          .obj [
            (units "name", .str (units "initDuration")),
            (units "desc", .str (units "Duration applied after initializing the [Timer].")),
            (units "lua_type", .str (units "number?")) ] ]),
        (units "returns", .arr [
          .obj [
            (units "desc", .str (units "")),
            (units "lua_type", .str (units "Timer\r\n")) ] ]),
        (units "function_type", .str (units "static")),
        (units "source", .obj [
          (units "line", .num 99),
          (units "path", .str (units "lib/Timer.lua")) ]) ],
      .obj [
        (units "name", .str (units "Start")),
        (units "desc", .str (units "Starts the [Timer].\n\n:::caution\nThis will error if the [Timer] has not been given a duration yet.\n\n\t")),
        (units "params", .arr [
          .obj [
            (units "name", .str (units "self")),
            (units "desc", .str (units "")),
            (units "lua_type", .str (units "Timer")) ] ]),
        (units "returns", .arr []),
        (units "function_type", .str (units "static")),
        (units "source", .obj [
          (units "line", .num 121),
          (units "path", .str (units "lib/Timer.lua")) ]) ],
      .obj [
        (units "name", .str (units "Pause")),
        (units "desc", .str (units "Pauses the [Timer].\n\t")),
        (units "params", .arr [
          .obj [
            (units "name", .str (units "self")),
            (units "desc", .str (units "")),
            (units "lua_type", .str (units "Timer")) ] ]),
        (units "returns", .arr []),
        (units "function_type", .str (units "static")),
        (units "source", .obj [
          (units "line", .num 147),
          (units "path", .str (units "lib/Timer.lua")) ]) ],
      .obj [
        (units "name", .str (units "Stop")),
        (units "desc", .str (units "Stops the [Timer].\n\t")),
        (units "params", .arr [
          .obj [
            (units "name", .str (units "self")),
            (units "desc", .str (units "")),
            (units "lua_type", .str (units "Timer")) ] ]),
        (units "returns", .arr []),
        (units "function_type", .str (units "static")),
        (units "source", .obj [
          (units "line", .num 171),
          (units "path", .str (units "lib/Timer.lua")) ]) ],
      .obj [
        (units "name", .str (units "IsRunning")),
        (units "desc", .str (units "Returns true or false, depending on if the [Timer] is running or not.\n\t")),
        (units "params", .arr [
          .obj [
            (units "name", .str (units "self")),
            (units "desc", .str (units "")),
            (units "lua_type", .str (units "Timer")) ] ]),
        (units "returns", .arr [
          .obj [
            (units "desc", .str (units "")),
            (units "lua_type", .str (units "boolean\r\n")) ] ]),
        (units "function_type", .str (units "static")),
        (units "source", .obj [
          (units "line", .num 193),
          (units "path", .str (units "lib/Timer.lua")) ]) ],
      .obj [
        (units "name", .str (units "SetDuration")),
        (units "desc", .str (units "Sets the duration of the [Timer]. Durations MUST be a positive number and not zero.\n\n:::caution\nThis will error if the [Timer] is running. Utilize :IsRunning() to prevent the error from propagating.\n\n\t")),
        (units "params", .arr [
          .obj [
            (units "name", .str (units "self")),
            (units "desc", .str (units "")),
            (units "lua_type", .str (units "Timer")) ],
          .obj [
            (units "name", .str (units "newDuration")),
            (units "desc", .str (units "")),
            (units "lua_type", .str (units "number")) ] ]),
        (units "returns", .arr []),
        (units "function_type", .str (units "static")),
        (units "source", .obj [
          (units "line", .num 205),
          (units "path", .str (units "lib/Timer.lua")) ]) ],
      .obj [
        (units "name", .str (units "GetRemaining")),
        (units "desc", .str (units "Gets the duration and elapsed time of the [Timer].\n\n:::caution\nThis will error if the [Timer] has not been given a duration yet.\n\n\t")),
        (units "params", .arr [
          .obj [
            (units "name", .str (units "self")),
            (units "desc", .str (units "")),
            (units "lua_type", .str (units "Timer")) ] ]),
        (units "returns", .arr [
          .obj [
            (units "desc", .str (units "")),
            (units "lua_type", .str (units "Remaining\r\n")) ] ]),
        (units "function_type", .str (units "static")),
        (units "source", .obj [
          (units "line", .num 226),
          (units "path", .str (units "lib/Timer.lua")) ]) ],
      .obj [
        (units "name", .str (units "Destroy")),
        (units "desc", .str (units "Destroys the [Timer] object.\n\t")),
        (units "params", .arr [
          .obj [
            (units "name", .str (units "self")),
            (units "desc", .str (units "")),
            (units "lua_type", .str (units "Timer")) ] ]),
        (units "returns", .arr []),
        (units "function_type", .str (units "static")),
        (units "source", .obj [
          (units "line", .num 250),
          (units "path", .str (units "lib/Timer.lua")) ]) ],
      .obj [
        (units "name", .str (units "withUpdate")),
        (units "desc", .str (units "Creates and returns a new [Timer] object, with an Updated [Signal].")),
        (units "params", .arr [
          .obj [
            (units "name", .str (units "initDuration")),
            (units "desc", .str (units "Duration applied after initializing the [Timer].")),
            (units "lua_type", .str (units "number?")) ] ]),
        (units "returns", .arr [
          .obj [
            (units "desc", .str (units "")),
            (units "lua_type", .str (units "TimerWithUpdate\r\n")) ] ]),
        (units "function_type", .str (units "static")),
        (units "source", .obj [
          (units "line", .num 282),
          (units "path", .str (units "lib/Timer.lua")) ]) ] ]),
    (units "properties", .arr [
      .obj [
        (units "name", .str (units "Finished")),
        (units "desc", .str (units "Fired when the Timer finishes running.")),
        (units "lua_type", .str (units "Signal<>")),
        (units "source", .obj [
          (units "line", .num 55),
          (units "path", .str (units "lib/Timer.lua")) ]) ],
      .obj [
        (units "name", .str (units "Paused")),
        (units "desc", .str (units "Fired when the Timer has been paused.")),
        (units "lua_type", .str (units "Signal<>")),
        (units "source", .obj [
          (units "line", .num 61),
          (units "path", .str (units "lib/Timer.lua")) ]) ],
      .obj [
        (units "name", .str (units "Updated")),
        (units "desc", .str (units "Fired when the Timer has been updated. The first number is the time remaining, the second is the time elapsed.\n\n:::note\nThis [Signal] member is not available in the base version of [Timer]. Use .withUpdate() to implement it.")),
        (units "lua_type", .str (units "Signal<number, number>")),
        (units "deprecated", .obj [
          (units "version", .str (units "v2.0.0")),
          (units "desc", .str (units "Create your own updating method instead; removed due to a performance hit after the v2 revisions.")) ]),
        (units "source", .obj [
          (units "line", .num 71),
          (units "path", .str (units "lib/Timer.lua")) ]) ] ]),
    (units "types", .arr [
      .obj [
        (units "name", .str (units "Remaining")),
        (units "desc", .str (units "A data type used to display how much time is remaining / has elapsed in the Timer.")),
        (units "lua_type", .str (units "\x7bremaining: number, elapsed: number\x7d")),
        (units "source", .obj [
          (units "line", .num 78),
          (units "path", .str (units "lib/Timer.lua")) ]) ] ]),
    (units "name", .str (units "Timer")),
    (units "desc", .str (units "A timer class.\n\n:::note V2.0.0\nAs of v2.0.0, the Updated [Signal] is no longer a part of the default Timer class. It can be restored by using .withUpdate().")),
    (units "source", .obj [
      (units "line", .num 49),
      (units "path", .str (units "lib/Timer.lua")) ]) ]

/-- The value of the BaseStorage payload. -/
def BaseStorageDoc : JSON :=
  .obj [
    (units "functions", .arr [
      .obj [
        (units "name", .str (units "GetDataStore")),
        (units "desc", .str (units "Returns a [DataStoreResult] object, given a name and optional scope and [DataStoreOptions] parameters.")),
        (units "params", .arr [
          .obj [
            (units "name", .str (units "name")),
            (units "desc", .str (units "The name of the [GlobalDataStore].")),
            (units "lua_type", .str (units "string")) ],
          .obj [
            (units "name", .str (units "scope")),
            (units "desc", .str (units "The scope of the [GlobalDataStore].")),
            (units "lua_type", .str (units "string?")) ],
          .obj [
            (units "name", .str (units "options")),
            (units "desc", .str (units "The [DataStoreOptions] used when getting the [GlobalDataStore].")),
            (units "lua_type", .str (units "DataStoreOptions?")) ] ]),
        (units "returns", .arr [
          .obj [
            (units "desc", .str (units "")),
            (units "lua_type", .str (units "DataStoreResult\r\n")) ] ]),
        (units "function_type", .str (units "method")),
        (units "yields", .bool true),
        (units "source", .obj [
          (units "line", .num 199),
          (units "path", .str (units "lib/Storage/DataStore.lua")) ]) ],
      .obj [
        (units "name", .str (units "new")),
        (units "desc", .str (units "Creates a new [BaseStorageResult] object.")),
        (units "params", .arr [
          .obj [
            (units "name", .str (units "name")),
            (units "desc", .str (units "The name of the [GlobalDataStore].")),
            (units "lua_type", .str (units "string")) ],
          .obj [
            (units "name", .str (units "scope")),
            (units "desc", .str (units "The scope of the [GlobalDataStore].")),
            (units "lua_type", .str (units "string?")) ],
          .obj [
            (units "name", .str (units "options")),
            (units "desc", .str (units "Options to modify [GlobalDataStore]s.")),
            (units "lua_type", .str (units "DataStoreOptions?")) ],
          .obj [
            (units "name", .str (units "default")),
            (units "desc", .str (units "Default data to be used for blank entries.")),
            (units "lua_type", .str (units "Default")) ] ]),
        (units "returns", .arr [
          .obj [
            (units "desc", .str (units "")),
            (units "lua_type", .str (units "BaseStorageResult\r\n")) ] ]),
        (units "function_type", .str (units "static")),
        (units "yields", .bool true),
        (units "source", .obj [
          (units "line", .num 243),
          (units "path", .str (units "lib/Storage/DataStore.lua")) ]) ],
      .obj [
        (units "name", .str (units "HardLoad")),
        (units "desc", .str (units "Performs GetAsync if the data requested by the index does not exist, and returns the data.\n\n\n\t")),
        (units "params", .arr [
          .obj [
            (units "name", .str (units "index")),
            (units "desc", .str (units "The key within the [GlobalDataStore].")),
            (units "lua_type", .str (units "string")) ] ]),
        (units "returns", .arr [
          .obj [
            (units "desc", .str (units "")),
            (units "lua_type", .str (units "DataResult\r\n")) ] ]),
        (units "function_type", .str (units "method")),
        (units "yields", .bool true),
        (units "source", .obj [
          (units "line", .num 277),
          (units "path", .str (units "lib/Storage/DataStore.lua")) ]) ],
      .obj [
        (units "name", .str (units "SoftLoad")),
        (units "desc", .str (units "Returns data associated with the index, if it has been loaded already.\n\n\n\t")),
        (units "params", .arr [
          .obj [
            (units "name", .str (units "index")),
            (units "desc", .str (units "The key within the [GlobalDataStore].")),
            (units "lua_type", .str (units "string")) ] ]),
        (units "returns", .arr [
          .obj [
            (units "desc", .str (units "")),
            (units "lua_type", .str (units "DataResult\r\n")) ] ]),
        (units "function_type", .str (units "method")),
        (units "source", .obj [
          (units "line", .num 370),
          (units "path", .str (units "lib/Storage/DataStore.lua")) ]) ],
      .obj [
        (units "name", .str (units "HardSave")),
        (units "desc", .str (units "Performs SetAsync with the data associated with the index, if it isn't already being saved.\n\n\n\t")),
        (units "params", .arr [
          .obj [
            (units "name", .str (units "index")),
            (units "desc", .str (units "The key within the [GlobalDataStore].")),
            (units "lua_type", .str (units "string")) ],
          .obj [
            (units "name", .str (units "ids")),
            (units "desc", .str (units "An optional list of user IDs associated with the data.")),
            (units "lua_type", .str (units "\x7bnumber\x7d?")) ],
          .obj [
            (units "name", .str (units "setOptions")),
            (units "desc", .str (units "Options used to adjust SetAsync.")),
            (units "lua_type", .str (units "DataStoreSetOptions?")) ] ]),
        (units "returns", .arr [
          .obj [
            (units "desc", .str (units "")),
            (units "lua_type", .str (units "SaveResult\r\n")) ] ]),
        (units "function_type", .str (units "method")),
        (units "yields", .bool true),
        (units "source", .obj [
          (units "line", .num 416),
          (units "path", .str (units "lib/Storage/DataStore.lua")) ]) ],
      .obj [
        (units "name", .str (units "SoftSave")),
        (units "desc", .str (units "Replaces all the data associated with the index.\n\n\n\t")),
        (units "params", .arr [
          .obj [
            (units "name", .str (units "index")),
            (units "desc", .str (units "The key within the [GlobalDataStore].")),
            (units "lua_type", .str (units "string")) ],
          .obj [
            (units "name", .str (units "newData")),
            (units "desc", .str (units "")),
            (units "lua_type", .str (units "any")) ] ]),
        (units "returns", .arr [
          .obj [
            (units "desc", .str (units "")),
            (units "lua_type", .str (units "SaveResult\r\n")) ] ]),
        (units "function_type", .str (units "method")),
        (units "source", .obj [
          (units "line", .num 487),
          (units "path", .str (units "lib/Storage/DataStore.lua")) ]) ],
      .obj [
        (units "name", .str (units "Update")),
        (units "desc", .str (units "Saves the data associated with the index, if it isn't already being saved.\n\n\n\t")),
        (units "params", .arr [
          .obj [
            (units "name", .str (units "index")),
            (units "desc", .str (units "The key within the [GlobalDataStore].")),
            (units "lua_type", .str (units "string")) ],
          .obj [
            (units "name", .str (units "key")),
            (units "desc", .str (units "The key within the data.")),
            (units "lua_type", .str (units "(string | number)")) ],
          .obj [
            (units "name", .str (units "newData")),
            (units "desc", .str (units "The data to replace the contents of the key.")),
            (units "lua_type", .str (units "any")) ] ]),
        (units "returns", .arr [
          .obj [
            (units "desc", .str (units "")),
            (units "lua_type", .str (units "SaveResult\r\n")) ] ]),
        (units "function_type", .str (units "method")),
        (units "source", .obj [
          (units "line", .num 534),
          (units "path", .str (units "lib/Storage/DataStore.lua")) ]) ],
      .obj [
        (units "name", .str (units "DeepUpdate")),
        (units "desc", .str (units "Saves the data associated with the indexes, if it isn't already being saved.\n\n\n\t")),
        (units "params", .arr [
          .obj [
            (units "name", .str (units "index")),
            (units "desc", .str (units "The key within the [GlobalDataStore].")),
            (units "lua_type", .str (units "string")) ],
          .obj [
            (units "name", .str (units "newData")),
            (units "desc", .str (units "The data to replace the contents of the key.")),
            (units "lua_type", .str (units "any")) ],
          .obj [
            (units "name", .str (units "key")),
            (units "desc", .str (units "The key within the data.")),
            (units "lua_type", .str (units "(string | number)")) ],
          .obj [
            (units "name", .str (units "...")),
            (units "desc", .str (units "The key indexer(s) within the data.")),
            (units "lua_type", .str (units "(string | number)")) ] ]),
        (units "returns", .arr [
          .obj [
            (units "desc", .str (units "")),
            (units "lua_type", .str (units "SaveResult\r\n")) ] ]),
        (units "function_type", .str (units "method")),
        (units "source", .obj [
          (units "line", .num 586),
          (units "path", .str (units "lib/Storage/DataStore.lua")) ]) ],
      .obj [
        (units "name", .str (units "Clear")),
        (units "desc", .str (units "Hard saves the data, then removes the data associated with the index.\n\n\n\t")),
        (units "params", .arr [
          .obj [
            (units "name", .str (units "index")),
            (units "desc", .str (units "The key within the [GlobalDataStore].")),
            (units "lua_type", .str (units "string")) ] ]),
        (units "returns", .arr []),
        (units "function_type", .str (units "method")),
        (units "yields", .bool true),
        (units "source", .obj [
          (units "line", .num 664),
          (units "path", .str (units "lib/Storage/DataStore.lua")) ]) ],
      .obj [
        (units "name", .str (units "Close")),
        (units "desc", .str (units "Saves all data, and clears it's own members.\n\t")),
        (units "params", .arr []),
        (units "returns", .arr []),
        (units "function_type", .str (units "method")),
        (units "yields", .bool true),
        (units "source", .obj [
          (units "line", .num 679),
          (units "path", .str (units "lib/Storage/DataStore.lua")) ]) ] ]),
    (units "properties", .arr [
      .obj [
        (units "name", .str (units "LoadRetry")),
        (units "desc", .str (units "Fired when Storage is going to retry loading the requested data, if it previously failed.\nThe first param is the error message, the second param is the name of the Storage, the third param is the scope, and the\nlast param is the key.")),
        (units "lua_type", .str (units "Signal<string, string, string?, string>")),
        (units "tags", .arr [
          .str (units "Event") ]),
        (units "source", .obj [
          (units "line", .num 119),
          (units "path", .str (units "lib/Storage/DataStore.lua")) ]) ],
      .obj [
        (units "name", .str (units "LoadFail")),
        (units "desc", .str (units "Fired when Storage failed to load the requested data after retrying several times.\nThe first param is the error message, the second param is the name of the Storage, the third param is the scope, and the\nlast param is the key.")),
        (units "lua_type", .str (units "Signal<string, string, string?, string>")),
        (units "tags", .arr [
          .str (units "Event") ]),
        (units "source", .obj [
          (units "line", .num 128),
          (units "path", .str (units "lib/Storage/DataStore.lua")) ]) ],
      .obj [
        (units "name", .str (units "SaveStart")),
        (units "desc", .str (units "Fired when Storage is going to try to save to [GlobalDataStore].\nThe only param passed is the index.")),
        (units "lua_type", .str (units "Signal<string>")),
        (units "tags", .arr [
          .str (units "Event") ]),
        (units "source", .obj [
          (units "line", .num 136),
          (units "path", .str (units "lib/Storage/DataStore.lua")) ]) ],
      .obj [
        (units "name", .str (units "SaveRetry")),
        (units "desc", .str (units "Fired when Storage is going to retry saving the requested data, if it previously failed.\nThe first param is the error message, the second param is the name of the Storage, the third param is the scope, and the\nlast param is the key.")),
        (units "lua_type", .str (units "Signal<string, string, string?, string>")),
        (units "tags", .arr [
          .str (units "Event") ]),
        (units "source", .obj [
          (units "line", .num 145),
          (units "path", .str (units "lib/Storage/DataStore.lua")) ]) ],
      .obj [
        (units "name", .str (units "SaveFail")),
        (units "desc", .str (units "Fired when Storage failed to load the requested data after retrying several times.\nThe first param is the error message, the second param is the name of the Storage, the third param is the scope, and the\nlast param is the key.")),
        (units "lua_type", .str (units "Signal<string, string, string?, string>")),
        (units "tags", .arr [
          .str (units "Event") ]),
        (units "source", .obj [
          (units "line", .num 154),
          (units "path", .str (units "lib/Storage/DataStore.lua")) ]) ],
      .obj [
        (units "name", .str (units "SaveSuccess")),
        (units "desc", .str (units "Fired when Storage successfully saved to the [GlobalDataStore].\nThe only param passed is the index.")),
        (units "lua_type", .str (units "Signal<string>")),
        (units "tags", .arr [
          .str (units "Event") ]),
        (units "source", .obj [
          (units "line", .num 162),
          (units "path", .str (units "lib/Storage/DataStore.lua")) ]) ],
      .obj [
        (units "name", .str (units "FilledBlankStorage")),
        (units "desc", .str (units "Fired when Storage fills in an empty key.\nThe first param is the name of the Storage, the second param is the scope, and the last param is the index.")),
        (units "lua_type", .str (units "Signal<string, string?, string>")),
        (units "tags", .arr [
          .str (units "Event") ]),
        (units "source", .obj [
          (units "line", .num 170),
          (units "path", .str (units "lib/Storage/DataStore.lua")) ]) ],
      .obj [
        (units "name", .str (units "KeyUpdated")),
        (units "desc", .str (units "Fired when a key in Storage is updated.\nThe first param is the name of the Storage, the second param is the name of the key, the third param is the new data, and\nthe last param is the old data.")),
        (units "lua_type", .str (units "Signal<string, string | number, any, any>")),
        (units "tags", .arr [
          .str (units "Event") ]),
        (units "source", .obj [
          (units "line", .num 179),
          (units "path", .str (units "lib/Storage/DataStore.lua")) ]) ],
      .obj [
        (units "name", .str (units "DeepKeyUpdated")),
        (units "desc", .str (units "Fired when a key deep in Storage is updated.\nThe first param is the name of the index, the second param is the new data, the third param is the new old data, and the\nlast param is an array of all the additional keys given.")),
        (units "lua_type", .str (units "Signal<string, any, any, \x7bstring | number\x7d>")),
        (units "tags", .arr [
          .str (units "Event") ]),
        (units "source", .obj [
          (units "line", .num 188),
          (units "path", .str (units "lib/Storage/DataStore.lua")) ]) ] ]),
    (units "types", .arr [
      .obj [
        (units "name", .str (units "BaseStorageResult")),
        (units "desc", .str (units "A dictionary containing a success boolean, a message (if getting the DataStore fails), and a result (if getting the\n\tDataStore succeeds, this is the BaseStorage object).")),
        (units "lua_type", .str (units "Result<BaseStorage?>")),
        (units "source", .obj [
          (units "line", .num 84),
          (units "path", .str (units "lib/Storage/Types.lua")) ]) ] ]),
    (units "name", .str (units "BaseStorage")),
    (units "desc", .str (units "A basic [GlobalDataStore] wrapper object.")),
    (units "realm", .arr [
      .str (units "Server") ]),
    (units "source", .obj [
      (units "line", .num 110),
      (units "path", .str (units "lib/Storage/DataStore.lua")) ]) ]

/-! ### The shipped payloads as a whole -/

/-- The payload text a chunk passes to `JSON.parse`: the string value of its literal. -/
def payloadText (literal : String) : List Nat := jsStringUnitsFrom .plain (units literal)

/-- The nine payloads under `src`, each with the symbol it documents. -/
def shippedPayloads : List (String × String) :=
  [ ("Value", ValuePayload), ("Bind", BindPayload), ("Color3Util", Color3UtilPayload),
    ("Flow", FlowPayload), ("OrderedStorage", OrderedStoragePayload),
    ("Storage", StoragePayload), ("Stopwatch", StopwatchPayload), ("Timer", TimerPayload),
    ("BaseStorage", BaseStoragePayload) ]

/-- The values the nine payloads load to, in the same order. -/
def shippedDocs : List JSON :=
  [ ValueDoc, BindDoc, Color3UtilDoc, FlowDoc, OrderedStorageDoc, StorageDoc, StopwatchDoc,
    TimerDoc, BaseStorageDoc ]

/-- The shape of a documentation entry: an object with a non-empty string
`name`, a string `desc`, arrays `functions`, `properties` and `types`, and a
`source` record. -/
def isDocEntry (d : JSON) : Bool :=
  d.isObject &&
  (match (d.get "name").bind JSON.string? with
    | some s => !s.isEmpty
    | none => false) &&
  ((d.get "desc").bind JSON.string?).isSome &&
  ((d.get "functions").bind JSON.elements?).isSome &&
  ((d.get "properties").bind JSON.elements?).isSome &&
  ((d.get "types").bind JSON.elements?).isSome &&
  (match d.get "source" with
    | some s => s.isObject
    | none => false)

/-- A well-formed payload text without a `name` field (the Timer entry, cut down). -/
def namelessPayload : String :=
  "\x7b\"functions\":[],\"properties\":[],\"types\":[],\"desc\":\"A timer class.\",\"source\":\x7b\"line\":49,\"path\":\"lib/Timer.lua\"\x7d\x7d"

/-- The value `namelessPayload` denotes. -/
def namelessDoc : JSON :=
  .obj [ (units "functions", .arr []), (units "properties", .arr []), (units "types", .arr []),
    (units "desc", .str (units "A timer class.")),
    (units "source", .obj [(units "line", .num 49), (units "path", .str (units "lib/Timer.lua"))]) ]

/-- The payload of the scenario in section 8 of the spec: name "Timer", the three
functions `new`, `Start`, `Destroy` and the one property `Finished`. -/
def scenarioDoc : JSON :=
  .obj [ (units "functions", .arr [
      .obj [(units "name", .str (units "new"))],
      .obj [(units "name", .str (units "Start"))],
      .obj [(units "name", .str (units "Destroy"))] ]),
    (units "properties", .arr [ .obj [(units "name", .str (units "Finished"))] ]),
    (units "types", .arr []),
    (units "name", .str (units "Timer")) ]

/-- The text of `scenarioDoc`. -/
def scenarioPayload : String :=
  "\x7b\"functions\":[\x7b\"name\":\"new\"\x7d,\x7b\"name\":\"Start\"\x7d,\x7b\"name\":\"Destroy\"\x7d],\"properties\":[\x7b\"name\":\"Finished\"\x7d],\"types\":[],\"name\":\"Timer\"\x7d"

/-! ### Reading the records of an entry -/

/-- The keys of an object, in property order (none for any other value). -/
def JSON.keys : JSON → List (List Nat)
  | .obj ms => ms.map (fun p => p.1)
  | _ => []

/-- The value is an object with exactly the fields `ks`, in this order. -/
def JSON.hasFields (ks : List String) (v : JSON) : Bool :=
  v.isObject && v.keys == ks.map units

/-- The string field `k` of an object (`none` when absent or not a string). -/
def JSON.text (k : String) (v : JSON) : Option (List Nat) :=
  (v.get k).bind JSON.string?

/-- The integer when the value is a number. -/
def JSON.int? : JSON → Option Int
  | .num n => some n
  | _ => none

/-- The functions, properties and types of an entry, in this order. -/
def JSON.members (d : JSON) : List JSON :=
  d.list "functions" ++ d.list "properties" ++ d.list "types"

/-- The record has the field `k`. -/
def JSON.has (k : String) (v : JSON) : Bool := (v.get k).isSome

mutual
/-- Every string in the value, key or string value at any depth, satisfies `p`. -/
def JSON.allStrings (p : List Nat → Bool) : JSON → Bool
  | .null => true
  | .bool _ => true
  | .num _ => true
  | .str s => p s
  | .arr vs => JSON.allStringsElements p vs
  | .obj ms => JSON.allStringsMembers p ms
/-- The same for the elements of an array. -/
def JSON.allStringsElements (p : List Nat → Bool) : List JSON → Bool
  | [] => true
  | v :: vs => JSON.allStrings p v && JSON.allStringsElements p vs
/-- The same for the members of an object. -/
def JSON.allStringsMembers (p : List Nat → Bool) : List (List Nat × JSON) → Bool
  | [] => true
  | (k, v) :: ms => p k && JSON.allStrings p v && JSON.allStringsMembers p ms
end

/-- The text `s` starts with `needle`. -/
def startsWithUnits : List Nat → List Nat → Bool
  | [], _ => true
  | _ :: _, [] => false
  | a :: as, b :: bs => a == b && startsWithUnits as bs

/-- The text contains `needle` as a run of consecutive units. -/
def containsUnits (needle : List Nat) : List Nat → Bool
  | [] => needle.isEmpty
  | c :: cs => startsWithUnits needle (c :: cs) || containsUnits needle cs

/-- No backslash (unit 92) in the text. -/
def noBackslash (s : List Nat) : Bool := s.all (fun c => c != 92)

/-- The `function_type` of a function record is "static" or "method". -/
def functionTypeOk (f : JSON) : Bool :=
  f.text "function_type" == some (units "static") ||
    f.text "function_type" == some (units "method")

/-- A `source` record: exactly the fields `line`, a positive integer, and `path`, a string. -/
def sourceOk (s : JSON) : Bool :=
  s.hasFields ["line", "path"] &&
  (match (s.get "line").bind JSON.int? with
    | some n => decide (0 < n)
    | none => false) &&
  (s.text "path").isSome

/-- The record has a `source` field that is a well-shaped source record. -/
def hasSourceOk (m : JSON) : Bool :=
  match m.get "source" with
  | some s => sourceOk s
  | none => false

/-- An entry of `params`: exactly the string fields `name`, `desc`, `lua_type`. -/
def paramOk (p : JSON) : Bool :=
  p.hasFields ["name", "desc", "lua_type"] &&
  (p.text "name").isSome && (p.text "desc").isSome && (p.text "lua_type").isSome

/-- An entry of `returns`: exactly the string fields `desc`, `lua_type`. -/
def returnOk (r : JSON) : Bool :=
  r.hasFields ["desc", "lua_type"] && (r.text "desc").isSome && (r.text "lua_type").isSome

/-- The shape of a type record as the spec gives it: `name`, `desc`, `lua_type`, `source`. -/
def plainTypeDoc (t : JSON) : Bool := t.hasFields ["name", "desc", "lua_type", "source"]

/-- The `ignore` flag is confined to function records: every type record is
plain, and no property or type record has an `ignore` field. -/
def ignoreOnlyOnFunctions (d : JSON) : Bool :=
  (d.list "types").all plainTypeDoc &&
  (d.list "properties" ++ d.list "types").all (fun m => !m.has "ignore")

/-- The names of the records in the list `k` of an entry that carry an `ignore` field. -/
def ignoredNames (k : String) (d : JSON) : List (Option (List Nat)) :=
  ((d.list k).filter (fun m => m.has "ignore")).map (JSON.text "name")

/-- Every function record of the entry has a proper `function_type`. -/
def functionTypesOk (d : JSON) : Bool := (d.list "functions").all functionTypeOk

/-- The entry and each of its functions, properties and types carry a well-shaped `source`. -/
def sourcesOk (d : JSON) : Bool := (d :: d.members).all hasSourceOk

/-- No string of the entry contains a backslash. -/
def textClean (d : JSON) : Bool := d.allStrings noBackslash

/-- Every entry of `params` and of `returns` of every function record is well shaped. -/
def signaturesOk (d : JSON) : Bool :=
  (d.list "functions").all
    (fun f => (f.list "params").all paramOk && (f.list "returns").all returnOk)

/-- A type record, plain or with the `ignore` flag between `lua_type` and `source`. -/
def typeDocOk (t : JSON) : Bool :=
  plainTypeDoc t || t.hasFields ["name", "desc", "lua_type", "ignore", "source"]

/-- No property record has an `ignore` field and every type record is plain or
plain with `ignore`. -/
def ignoreFlagsOk (d : JSON) : Bool :=
  (d.list "properties").all (fun m => !m.has "ignore") && (d.list "types").all typeDocOk

/-- The `desc` of the function record called `name`. -/
def functionDesc (name : String) (d : JSON) : Option (List Nat) :=
  ((d.list "functions").find? (fun f => f.text "name" == some (units name))).bind
    (JSON.text "desc")

/-- The number of entries of `params` and of `returns` over all functions of an entry. -/
def signatureCounts (d : JSON) : Nat × Nat :=
  (((d.list "functions").map (fun f => (f.list "params").length)).foldl (fun a b => a + b) 0,
    ((d.list "functions").map (fun f => (f.list "returns").length)).foldl (fun a b => a + b) 0)

/-! ### The payload store (spec, section 4.1) -/

/-- Modelled from the spec: the result of `lookup`, `DocEntry | NotFound`
(sections 4.1 and 7). No lookup by symbol name is among the sources; `NotFound`
is a value that is returned, not an exception. -/
inductive LookupResult where
  | found (entry : JSON)
  | notFound

/-- Modelled from the spec: the Documentation Payload Store of section 4.1,
"one parsed DocEntry per documented symbol", available by name. No store is
among the sources; it is modelled as the list of the entries with their names. -/
structure Store where
  entries : List (List Nat × JSON)

/-- Modelled from the spec: the store with nothing loaded. -/
def Store.empty : Store := ⟨[]⟩

/-- Modelled from the spec: loading one chunk into the store (section 4.1). The
payload is loaded as the chunk does it (`loadChunk`); a failure of the load is
passed on ("fail fast at load time"), and an entry without a string `name`
cannot be stored and is reported as a parse error (section 7). An entry already
stored under the same name is replaced. -/
def Store.load (s : Store) (literal : String) : Except LoadError Store :=
  match loadChunk literal with
  | .error e => .error e
  | .ok d =>
    match d.text "name" with
    | none => .error .parseError
    | some n => .ok ⟨s.entries.filter (fun p => p.1 != n) ++ [(n, d)]⟩

/-- Modelled from the spec: `lookup(symbolName) -> DocEntry | NotFound`, "pure
lookup, no side effects" (section 4.1). -/
def Store.lookup (s : Store) (symbolName : String) : LookupResult :=
  match s.entries.find? (fun p => p.1 == units symbolName) with
  | some p => .found p.2
  | none => .notFound

/-! ### The chunk registry `self.webpackChunkdocs` -/

/-- The data of one payload chunk file,
`(self.webpackChunkdocs=self.webpackChunkdocs||[]).push([[chunkId],{moduleId: factory}])`,
where the factory is `e => { e.exports = JSON.parse('literal') }`. -/
structure Chunk where
  chunkId : Nat
  moduleId : Nat
  literal : String
deriving DecidableEq

/-- One entry of the registry, `[[chunkId], {moduleId: factory}]`: the list of
chunk ids and the module factories by module id. A factory is represented by
the string literal of its `JSON.parse` call. -/
structure ChunkEntry where
  chunkIds : List Nat
  modules : List (Nat × String)
deriving DecidableEq

/-- The global object `self`, as far as the chunks use it: the property
`webpackChunkdocs`, which is absent (`none`) or an array of entries. -/
structure Global where
  webpackChunkdocs : Option (List ChunkEntry)
deriving DecidableEq

/-- The entry a chunk pushes. -/
def Chunk.entry (c : Chunk) : ChunkEntry := ⟨[c.chunkId], [(c.moduleId, c.literal)]⟩

/-- Evaluating a chunk file: `self.webpackChunkdocs = self.webpackChunkdocs || []`
keeps an existing array and creates an empty one otherwise, and `push` (the
array's own) appends the entry. -/
def evalChunk (c : Chunk) (self : Global) : Global :=
  { webpackChunkdocs := some ((self.webpackChunkdocs.getD []) ++ [c.entry]) }

/-- Evaluating chunk files one after the other. -/
def evalChunks (cs : List Chunk) (self : Global) : Global :=
  cs.foldl (fun g c => evalChunk c g) self

/-- The nine payload chunks under `src` with their chunk and module ids. -/
def shippedChunks : List Chunk :=
  [ ⟨8281, 48809, ValuePayload⟩, ⟨837, 3866, BindPayload⟩, ⟨463, 43102, Color3UtilPayload⟩,
    ⟨6519, 36356, FlowPayload⟩, ⟨7189, 44035, OrderedStoragePayload⟩,
    ⟨1918, 73913, StoragePayload⟩, ⟨18, 41755, StopwatchPayload⟩, ⟨9297, 81670, TimerPayload⟩,
    ⟨9529, 99986, BaseStoragePayload⟩ ]

/-! ### Rendered descriptions -/

mutual
/-- The children of every `p` element of a tree, in document order. -/
def paragraphs : Element → List (List Element)
  | .text _ => []
  | .empty => []
  | .fragment cs => paragraphsList cs
  | .host tag _ cs => if tag = "p" then [cs] else paragraphsList cs
  | .component _ _ => []
  | .feature _ _ _ _ => []
/-- The same for a list of children. -/
def paragraphsList : List Element → List (List Element)
  | [] => []
  | c :: cs => paragraphs c ++ paragraphsList cs
end

/-- A text run without a line break and without white space at either end. -/
def isSingleTextRun (s : String) : Bool :=
  !s.toList.isEmpty &&
  s.toList.all (fun c => c != '\n' && c != '\r') &&
  (match s.toList.head? with
    | some c => !c.isWhitespace
    | none => false) &&
  (match s.toList.getLast? with
    | some c => !c.isWhitespace
    | none => false)

/-! ### Names, source lines, parameters and type tags of the records -/

/-- The names of the functions, properties and types of an entry, in this order. -/
def memberNames (d : JSON) : List (Option (List Nat)) :=
  d.members.map (JSON.text "name")

/-- Every member has a name and no two members have the same name (names are
compared unit by unit, so case matters). -/
def memberNamesUnique (d : JSON) : Bool :=
  (memberNames d).all (fun n => n.isSome) && decide ((memberNames d).Nodup)

/-- The `line` of the `source` record of a record. -/
def sourceLine (m : JSON) : Option Int :=
  ((m.get "source").bind (JSON.get "line")).bind JSON.int?

/-- The `path` of the `source` record of a record. -/
def sourcePath (m : JSON) : Option (List Nat) :=
  (m.get "source").bind (JSON.text "path")

/-- Every record of the list has a source line, and the lines strictly increase along the list. -/
def linesIncreasing (ms : List JSON) : Bool :=
  (ms.map sourceLine).all (fun l => l.isSome) &&
    decide ((ms.filterMap sourceLine).Pairwise (fun a b => a < b))

/-- All records of the list come from one source file. -/
def onePath (ms : List JSON) : Bool :=
  match ms with
  | [] => true
  | m :: rest => (sourcePath m).isSome && rest.all (fun r => sourcePath r == sourcePath m)

/-- Each of the lists `functions`, `properties` and `types` of an entry is in
declaration order: one source file, strictly increasing lines. -/
def declarationOrder (d : JSON) : Bool :=
  ["functions", "properties", "types"].all
    (fun k => linesIncreasing (d.list k) && onePath (d.list k))

/-- The positions, from 0, of the parameters of a function record that are named "self". -/
def selfPositions (f : JSON) : List Nat :=
  (((f.list "params").map (JSON.text "name")).enum.filter
    (fun ip => ip.2 == some (units "self"))).map (fun ip => ip.1)

/-- A function record has no parameter named "self", or it is typed "static"
and "self" is its first parameter and no other. -/
def selfParamOk (f : JSON) : Bool :=
  selfPositions f == [] ||
    (f.text "function_type" == some (units "static") && selfPositions f == [0])

/-- A function typed "method" has no parameter named "self". -/
def methodWithoutSelf (f : JSON) : Bool :=
  f.text "function_type" != some (units "method") || selfPositions f == []

/-- The rule on "self" holds of every function record of the entry. -/
def selfParamsOk (d : JSON) : Bool :=
  (d.list "functions").all (fun f => selfParamOk f && methodWithoutSelf f)

/-- The functions with a "self" parameter and the functions typed "method", counted. -/
def selfCounts (d : JSON) : Nat × Nat :=
  (((d.list "functions").filter (fun f => selfPositions f != [])).length,
    ((d.list "functions").filter
      (fun f => f.text "function_type" == some (units "method"))).length)

/-- The text has a carriage return (13) or a line feed (10). -/
def hasLineBreak (s : List Nat) : Bool := s.any (fun c => c == 13 || c == 10)

/-- The text ends in a carriage return and a line feed and has no other line break. -/
def endsInCRLFOnly (s : List Nat) : Bool :=
  s.reverse.take 2 == [10, 13] && !hasLineBreak (s.reverse.drop 2)

/-- The record has a `lua_type` without a line break. -/
def luaTypeUnbroken (m : JSON) : Bool :=
  match m.text "lua_type" with
  | some s => !hasLineBreak s
  | none => false

/-- The record has a `lua_type` whose only line break, if any, is the suffix CR LF. -/
def luaTypeBrokenAtEndOnly (m : JSON) : Bool :=
  match m.text "lua_type" with
  | some s => !hasLineBreak s || endsInCRLFOnly s
  | none => false

/-- In an entry, the `lua_type` of every parameter, property and type has no line
break, and that of every `returns` entry has none except a suffix CR LF. -/
def luaTypesOk (d : JSON) : Bool :=
  (d.list "functions").all
    (fun f => (f.list "params").all luaTypeUnbroken &&
      (f.list "returns").all luaTypeBrokenAtEndOnly) &&
  (d.list "properties" ++ d.list "types").all luaTypeUnbroken

/-- The `returns` entries of an entry whose `lua_type` ends in CR LF, and those without a line break, counted. -/
def returnTagCounts (d : JSON) : Nat × Nat :=
  ((((d.list "functions").map (fun f => (f.list "returns").filter
      (fun r => (r.text "lua_type").any endsInCRLFOnly))).flatten).length,
    (((d.list "functions").map (fun f => (f.list "returns").filter luaTypeUnbroken)).flatten).length)

/-- The `lua_type` of each `returns` entry of the function called `name`. -/
def returnTags (name : String) (d : JSON) : Option (List (Option (List Nat))) :=
  ((d.list "functions").find? (fun f => f.text "name" == some (units name))).map
    (fun f => (f.list "returns").map (JSON.text "lua_type"))

/-! ### The page as a run of events

The sources hold one piece of state that changes while the page runs: the
property `webpackChunkdocs` of the global object, to which every chunk file
appends. The component module reads its arguments, the imported CSS module
`styles` and its own constant `FeatureList`; none of its statements assigns
anything. -/

/-- The state a call can see besides its arguments: the global object `self`
with the chunk registry, and the imported CSS module `styles`. -/
structure World where
  self : Global
  styles : Styles

/-- What happens in a run: a chunk file is evaluated, `Feature` is called with
a props object, `HomepageFeatures` is called with whatever arguments the caller
passes, or React expands an element tree. -/
inductive Event where
  | chunk (c : Chunk)
  | callFeature (props : FeatureProps)
  | callHomepageFeatures (arguments : List JSON)
  | expand (element : Element)

/-- The chunk of a chunk event. -/
def Event.chunk? : Event → Option Chunk
  | .chunk c => some c
  | _ => none

/-- One event: the state it leaves and the element it returns. A chunk file
changes `self.webpackChunkdocs` and returns nothing; the components and the
expansion read `styles` and return an element. -/
def World.step (w : World) : Event → World × Option Element
  | .chunk c => ({ w with self := evalChunk c w.self }, none)
  | .callFeature props => (w, some (Feature w.styles props))
  | .callHomepageFeatures arguments => (w, some (HomepageFeatures w.styles arguments))
  | .expand element => (w, some (render w.styles element))

/-- The state after a history of events, oldest first. -/
def World.after (w : World) (history : List Event) : World :=
  history.foldl (fun w e => (w.step e).1) w

/-! ## Lemmas -/

mutual
theorem JSON.eq_of_beq : ∀ (a b : JSON), JSON.beq a b = true → a = b
  | .null, b, h => by cases b <;> simp_all [JSON.beq]
  | .bool x, b, h => by cases b <;> simp_all [JSON.beq]
  | .num x, b, h => by cases b <;> simp_all [JSON.beq]
  | .str x, b, h => by cases b <;> simp_all [JSON.beq]
  | .arr xs, b, h => by
    cases b with
    | arr ys => simp only [JSON.beq] at h; rw [JSON.eq_of_beqElements xs ys h]
    | _ => simp [JSON.beq] at h
  | .obj xs, b, h => by
    cases b with
    | obj ys => simp only [JSON.beq] at h; rw [JSON.eq_of_beqMembers xs ys h]
    | _ => simp [JSON.beq] at h
theorem JSON.eq_of_beqElements : ∀ (a b : List JSON), JSON.beqElements a b = true → a = b
  | [], b, h => by cases b <;> simp_all [JSON.beqElements]
  | x :: xs, b, h => by
    cases b with
    | nil => simp [JSON.beqElements] at h
    | cons y ys =>
      simp only [JSON.beqElements, Bool.and_eq_true] at h
      rw [JSON.eq_of_beq x y h.1, JSON.eq_of_beqElements xs ys h.2]
theorem JSON.eq_of_beqMembers : ∀ (a b : List (List Nat × JSON)),
    JSON.beqMembers a b = true → a = b
  | [], b, h => by cases b <;> simp_all [JSON.beqMembers]
  | (k, x) :: xs, b, h => by
    cases b with
    | nil => simp [JSON.beqMembers] at h
    | cons y ys =>
      obtain ⟨l, y⟩ := y
      simp only [JSON.beqMembers, Bool.and_eq_true, beq_iff_eq] at h
      rw [h.1.1, JSON.eq_of_beq x y h.1.2, JSON.eq_of_beqMembers xs ys h.2]
end

theorem jsStringValueFrom_eq_of_valid : ∀ (src : List Nat) (st : Scan),
    jsStringValidFrom st src = true →
    jsStringValueFrom st src = .ok (jsStringUnitsFrom st src) := by
  intro src
  induction src with
  | nil =>
    intro st h
    cases st <;> simp_all [jsStringValidFrom, jsStringValueFrom, jsStringUnitsFrom]
  | cons c cs ih =>
    intro st h
    cases st with
    | plain =>
      simp only [jsStringValidFrom, jsStringValueFrom, jsStringUnitsFrom] at h ⊢
      split_ifs at h ⊢ with h1 h2
      · exact ih _ h
      · rw [ih _ h]; rfl
    | escape =>
      simp only [jsStringValidFrom, jsStringValueFrom, jsStringUnitsFrom] at h ⊢
      split_ifs at h ⊢ with h1 h2 h3 h4
      · exact ih _ h
      · exact ih _ h
      · rw [ih _ h]; rfl
    | hex more acc =>
      simp only [jsStringValidFrom, jsStringValueFrom, jsStringUnitsFrom] at h ⊢
      cases hd : hexVal c with
      | none => simp [hd] at h
      | some d =>
        simp only [hd] at h ⊢
        cases more with
        | zero => simp only at h ⊢; rw [ih _ h]; rfl
        | succ m => simp only at h ⊢; exact ih _ h

theorem load_eq_of_loadsTextTo {text : List Nat} {doc : JSON}
    (h : loadsTextTo text doc = true) : load text = .ok doc := by
  unfold loadsTextTo at h
  split at h
  · next v hv => rw [hv, JSON.eq_of_beq v doc h]
  · exact absurd h (by simp)

theorem loadChunk_eq_of_loadsTo {literal : String} {doc : JSON}
    (h : loadsTo literal doc = true) : loadChunk literal = .ok doc := by
  unfold loadsTo at h
  rw [Bool.and_eq_true] at h
  unfold loadChunk jsStringValue
  rw [jsStringValueFrom_eq_of_valid _ _ h.1]
  exact load_eq_of_loadsTextTo h.2

theorem load_payloadText_of_loadsTo {literal : String} {doc : JSON}
    (h : loadsTo literal doc = true) : load (payloadText literal) = .ok doc := by
  unfold loadsTo at h
  rw [Bool.and_eq_true] at h
  exact load_eq_of_loadsTextTo h.2

/-! ### What each payload loads to -/

set_option maxRecDepth 1000000 in
/-- Evaluating the Value chunk gives `ValueDoc`. -/
theorem Value_loads : loadsTo ValuePayload ValueDoc = true := by decide!

set_option maxRecDepth 1000000 in
/-- Evaluating the Bind chunk gives `BindDoc`. -/
theorem Bind_loads : loadsTo BindPayload BindDoc = true := by decide!

set_option maxRecDepth 1000000 in
/-- Evaluating the Color3Util chunk gives `Color3UtilDoc`. -/
theorem Color3Util_loads : loadsTo Color3UtilPayload Color3UtilDoc = true := by decide!

set_option maxRecDepth 1000000 in
/-- Evaluating the Flow chunk gives `FlowDoc`. -/
theorem Flow_loads : loadsTo FlowPayload FlowDoc = true := by decide!

set_option maxRecDepth 1000000 in
/-- Evaluating the OrderedStorage chunk gives `OrderedStorageDoc`. -/
theorem OrderedStorage_loads : loadsTo OrderedStoragePayload OrderedStorageDoc = true := by decide!

set_option maxRecDepth 1000000 in
/-- Evaluating the Storage chunk gives `StorageDoc`. -/
theorem Storage_loads : loadsTo StoragePayload StorageDoc = true := by decide!

set_option maxRecDepth 1000000 in
/-- Evaluating the Stopwatch chunk gives `StopwatchDoc`. -/
theorem Stopwatch_loads : loadsTo StopwatchPayload StopwatchDoc = true := by decide!

set_option maxRecDepth 1000000 in
/-- Evaluating the Timer chunk gives `TimerDoc`. -/
theorem Timer_loads : loadsTo TimerPayload TimerDoc = true := by decide!

set_option maxRecDepth 1000000 in
/-- Evaluating the BaseStorage chunk gives `BaseStorageDoc`. -/
theorem BaseStorage_loads : loadsTo BaseStoragePayload BaseStorageDoc = true := by decide!

/-! ### Decimal digits -/

theorem natDigitsAux_append (fuel : Nat) : ∀ (n : Nat) (acc : List Nat),
    natDigitsAux fuel n acc = natDigitsAux fuel n [] ++ acc := by
  induction fuel with
  | zero => intro n acc; simp [natDigitsAux]
  | succ f ih =>
    intro n acc
    simp only [natDigitsAux]
    split_ifs with h
    · simp
    · rw [ih (n / 10) ((48 + n % 10) :: acc), ih (n / 10) [48 + n % 10]]
      simp

theorem digitsVal_append_singleton (xs : List Nat) (d : Nat) :
    digitsVal (xs ++ [d]) = 10 * digitsVal xs + (d - 48) := by
  simp [digitsVal, List.foldl_append]

/-- What `natDigitsAux` produces with enough fuel: digits only, at least one,
denoting `n`, and starting with `0` only for `n = 0`. -/
theorem natDigitsAux_spec (fuel : Nat) : ∀ (n : Nat), n < fuel →
    (∀ d ∈ natDigitsAux fuel n [], isDigit d = true) ∧
    natDigitsAux fuel n [] ≠ [] ∧
    digitsVal (natDigitsAux fuel n []) = n ∧
    ((natDigitsAux fuel n []).head? = some 48 → natDigitsAux fuel n [] = [48]) := by
  induction fuel with
  | zero => intro n h; omega
  | succ f ih =>
    intro n hn
    simp only [natDigitsAux]
    split_ifs with h
    · refine ⟨?_, by simp, ?_, ?_⟩
      · intro d hd
        simp only [List.mem_singleton] at hd
        subst hd
        simp [isDigit]; omega
      · simp [digitsVal]
      · intro h0
        simp only [List.head?_cons, Option.some.injEq] at h0
        have : n = 0 := by omega
        subst this; rfl
    · have hlt : n / 10 < f := by omega
      obtain ⟨h1, h2, h3, h4⟩ := ih (n / 10) hlt
      rw [natDigitsAux_append]
      refine ⟨?_, by simp, ?_, ?_⟩
      · intro d hd
        simp only [List.mem_append, List.mem_singleton] at hd
        rcases hd with hd | hd
        · exact h1 d hd
        · subst hd; simp [isDigit]; omega
      · rw [digitsVal_append_singleton, h3]; omega
      · intro h0
        exfalso
        cases hx : natDigitsAux f (n / 10) [] with
        | nil => exact h2 hx
        | cons x xs =>
          rw [hx] at h0 h4 h3
          simp only [List.cons_append, List.head?_cons, Option.some.injEq] at h0
          subst h0
          have := h4 rfl
          rw [this] at h3
          simp [digitsVal] at h3
          omega

theorem natDigits_spec (n : Nat) :
    (∀ d ∈ natDigits n, isDigit d = true) ∧ natDigits n ≠ [] ∧
    digitsVal (natDigits n) = n ∧
    ((natDigits n).head? = some 48 → natDigits n = [48]) :=
  natDigitsAux_spec (n + 1) n (Nat.lt_succ_self n)

theorem takeDigits_append (ds rest : List Nat) (hds : ∀ d ∈ ds, isDigit d = true)
    (hrest : ∀ c, rest.head? = some c → isDigit c = false) :
    takeDigits (ds ++ rest) = (ds, rest) := by
  induction ds with
  | nil =>
    cases rest with
    | nil => rfl
    | cons c cs =>
      have := hrest c rfl
      simp [takeDigits, this]
  | cons d ds ih =>
    have hd := hds d (List.mem_cons_self _ _)
    have := ih (fun x hx => hds x (List.mem_cons_of_mem _ hx))
    simp [takeDigits, hd, this]

theorem parseNumber_serialize (n : Int) (rest : List Nat)
    (hn : n.natAbs ≤ 9007199254740992) (hrest : Delimited rest) :
    parseNumber (serialize (.num n) ++ rest) = .ok (.num n, rest) := by
  obtain ⟨h1, h2, h3, h4⟩ := natDigits_spec n.natAbs
  have htake : takeDigits (natDigits n.natAbs ++ rest) = (natDigits n.natAbs, rest) :=
    takeDigits_append _ _ h1 (fun c hc => (hrest c hc).1)
  have hr1 : rest.head? ≠ some 46 := fun h => (hrest 46 h).2.1 rfl
  have hr2 : rest.head? ≠ some 101 := fun h => (hrest 101 h).2.2.1 rfl
  have hr3 : rest.head? ≠ some 69 := fun h => (hrest 69 h).2.2.2 rfl
  cases hx : natDigits n.natAbs with
  | nil => exact absurd hx h2
  | cons d ds =>
    rw [hx] at htake h3 h4 h1
    have hd : isDigit d = true := h1 d (List.mem_cons_self _ _)
    have hd45 : d ≠ 45 := by
      intro h; subst h; simp [isDigit] at hd
    have hlead : ¬ (d = 48 ∧ ds ≠ []) := by
      rintro ⟨hd0, hds⟩
      subst hd0
      have := h4 rfl
      simp at this
      exact hds this
    have hbig : ¬ 9007199254740992 < digitsVal (d :: ds) := by rw [h3]; omega
    by_cases hneg : n < 0
    · have hne : ¬ digitsVal (d :: ds) = 0 := by rw [h3]; omega
      have hval : (-((digitsVal (d :: ds) : Nat) : Int)) = n := by rw [h3]; omega
      have hin : serialize (.num n) ++ rest = 45 :: ((d :: ds) ++ rest) := by
        simp [serialize, hneg, hx]
      rw [hin]
      unfold parseNumber
      simp only [List.head?_cons, decide_True, if_true, List.tail_cons]
      rw [htake]
      simp only [hlead, if_false, hr1, hr2, hr3, or_self, hbig, hne, hval]
    · have hval : ((digitsVal (d :: ds) : Nat) : Int) = n := by rw [h3]; omega
      have hin : serialize (.num n) ++ rest = (d :: ds) ++ rest := by
        simp [serialize, hneg, hx]
      rw [hin]
      unfold parseNumber
      have hh : ((d :: ds) ++ rest).head? ≠ some 45 := by
        simp only [List.cons_append, List.head?_cons, ne_eq, Option.some.injEq]
        exact hd45
      simp only [hh, decide_False, Bool.false_eq_true, if_false]
      rw [htake]
      simp only [hlead, if_false, hr1, hr2, hr3, or_self, hbig, hval]

/-! ### Quoted strings -/

theorem hexVal_hexDigit (n : Nat) (h : n < 16) : hexVal (hexDigit n) = some n := by
  unfold hexDigit
  by_cases h10 : n < 10
  · have h1 : 48 ≤ 48 + n ∧ 48 + n ≤ 57 := by omega
    simp only [h10, if_true, hexVal, h1, and_self]
    congr 1; omega
  · have h1 : ¬ (48 ≤ 87 + n ∧ 87 + n ≤ 57) := by omega
    have h2 : 97 ≤ 87 + n ∧ 87 + n ≤ 102 := by omega
    simp only [h10, if_false, hexVal, h1, h2, and_self, if_true]
    congr 1; omega

theorem parseStringFrom_unicodeEscape (c : Nat) (t : List Nat) (hc : c < 65536) :
    parseStringFrom .plain (unicodeEscape c ++ t) = consStr c (parseStringFrom .plain t) := by
  have e1 := hexVal_hexDigit (c / 4096 % 16) (Nat.mod_lt _ (by decide))
  have e2 := hexVal_hexDigit (c / 256 % 16) (Nat.mod_lt _ (by decide))
  have e3 := hexVal_hexDigit (c / 16 % 16) (Nat.mod_lt _ (by decide))
  have e4 := hexVal_hexDigit (c % 16) (Nat.mod_lt _ (by decide))
  have hval : (((0 * 16 + c / 4096 % 16) * 16 + c / 256 % 16) * 16 + c / 16 % 16) * 16 + c % 16
      = c := by omega
  simp only [unicodeEscape, List.cons_append, List.nil_append, parseStringFrom]
  simp only [show ¬ (92 = 34) by decide, if_false, if_true, e1, e2, e3, e4, hval]
  rfl

theorem parseStringFrom_quoteUnit (c : Nat) (t : List Nat) :
    parseStringFrom .plain (quoteUnit c ++ t) = consStr c (parseStringFrom .plain t) := by
  unfold quoteUnit
  split_ifs with h1 h2 h3 h4 h5 h6 h7 h8
  · subst h1; simp [parseStringFrom, jsonEscape]
  · subst h2; simp [parseStringFrom, jsonEscape]
  · subst h3; simp [parseStringFrom, jsonEscape]
  · subst h4; simp [parseStringFrom, jsonEscape]
  · subst h5; simp [parseStringFrom, jsonEscape]
  · subst h6; simp [parseStringFrom, jsonEscape]
  · subst h7; simp [parseStringFrom, jsonEscape]
  · exact parseStringFrom_unicodeEscape c t (by omega)
  · simp only [List.cons_append, List.nil_append, parseStringFrom, h6, h7, h8, if_false]
    rfl

theorem parseStringFrom_plain (c : Nat) (t : List Nat) (h : 56320 ≤ c ∨ (55296 ≤ c ∧ c ≤ 56319)) :
    parseStringFrom .plain (c :: t) = consStr c (parseStringFrom .plain t) := by
  have h1 : ¬ c = 34 := by omega
  have h2 : ¬ c = 92 := by omega
  have h3 : ¬ c < 32 := by omega
  simp only [parseStringFrom, h1, h2, h3, if_false]

/-- Reading back the characters of a quoted string up to its closing quote. -/
theorem parseStringFrom_quoteBody : ∀ (s : List Nat) (paired : Bool) (rest : List Nat),
    (paired = true → ∃ c cs, s = c :: cs ∧ isLowSurrogate c = true) →
    parseStringFrom .plain (quoteBody paired s ++ 34 :: rest) = .ok (s, rest) := by
  intro s
  induction s with
  | nil =>
    intro paired rest hp
    cases paired with
    | true => obtain ⟨c, cs, h, _⟩ := hp rfl; cases h
    | false => simp [quoteBody, parseStringFrom]
  | cons c cs ih =>
    intro paired rest hp
    cases paired with
    | true =>
      obtain ⟨c', cs', h, hlow⟩ := hp rfl
      cases h
      simp only [isLowSurrogate, Bool.and_eq_true, decide_eq_true_eq] at hlow
      simp only [quoteBody, if_true, List.cons_append]
      rw [parseStringFrom_plain c _ (Or.inl hlow.1), ih false rest (by simp)]
      rfl
    | false =>
      simp only [quoteBody, Bool.false_eq_true, if_false]
      by_cases hh : isHighSurrogate c = true
      · simp only [hh, if_true]
        have hh' := hh
        simp only [isHighSurrogate, Bool.and_eq_true, decide_eq_true_eq] at hh'
        by_cases hn : cs.head?.map isLowSurrogate = some true
        · simp only [hn, if_true, List.cons_append]
          rw [parseStringFrom_plain c _ (Or.inr hh'), ih true rest ?_]
          · rfl
          · intro _
            cases cs with
            | nil => simp at hn
            | cons d ds => exact ⟨d, ds, rfl, by simpa using hn⟩
        · simp only [hn, if_false, List.append_assoc]
          rw [parseStringFrom_unicodeEscape c _ (by omega), ih false rest (by simp)]
          rfl
      · simp only [hh, Bool.false_eq_true, if_false]
        by_cases hl : isLowSurrogate c = true
        · simp only [hl, if_true, List.append_assoc]
          have hl' := hl
          simp only [isLowSurrogate, Bool.and_eq_true, decide_eq_true_eq] at hl'
          rw [parseStringFrom_unicodeEscape c _ (by omega), ih false rest (by simp)]
          rfl
        · simp only [hl, Bool.false_eq_true, if_false, List.append_assoc]
          rw [parseStringFrom_quoteUnit, ih false rest (by simp)]
          rfl

theorem parseStringBody_quote (s rest : List Nat) :
    parseStringBody (quoteBody false s ++ 34 :: rest) = .ok (s, rest) :=
  parseStringFrom_quoteBody s false rest (by simp)

/-! ### Defining properties of an object -/

theorem keysOk_iff (ks : List (List Nat)) : keysOk ks = true ↔ ks.Pairwise keyBefore := by
  simp [keysOk]

theorem insertIndex_append (k : List Nat) (v : JSON) (o : List (List Nat × JSON))
    (h : ∀ p ∈ o, isArrayIndex p.1 = true ∧ digitsVal p.1 ≤ digitsVal k) :
    insertIndex k v o = o ++ [(k, v)] := by
  induction o with
  | nil => rfl
  | cons p ps ih =>
    have hp := h p (List.mem_cons_self _ _)
    simp only [insertIndex, hp, and_self, if_true, List.cons_append]
    rw [ih (fun q hq => h q (List.mem_cons_of_mem _ hq))]

/-- A new key that may stand last is put last. -/
theorem setProp_append (o : List (List Nat × JSON)) (k : List Nat) (v : JSON)
    (h : ((o ++ [(k, v)]).map (fun p => p.1)).Pairwise keyBefore) :
    setProp o k v = o ++ [(k, v)] := by
  rw [List.map_append, List.pairwise_append] at h
  obtain ⟨_, _, h⟩ := h
  have hk : ∀ p ∈ o, keyBefore p.1 k := by
    intro p hp
    exact h p.1 (List.mem_map_of_mem _ hp) k (by simp)
  have hany : o.any (fun p => p.1 = k) = false := by
    rw [List.any_eq_false]
    intro p hp
    simpa using (hk p hp).1
  unfold setProp
  simp only [hany, Bool.false_eq_true, if_false]
  by_cases hi : isArrayIndex k = true
  · simp only [hi, if_true]
    exact insertIndex_append k v o (fun p hp => (hk p hp).2 hi)
  · simp only [hi, Bool.false_eq_true, if_false]

theorem mem_keys_insertIndex (k : List Nat) (v : JSON) (o : List (List Nat × JSON))
    (x : List Nat) :
    x ∈ (insertIndex k v o).map (fun p => p.1) ↔ x = k ∨ x ∈ o.map (fun p => p.1) := by
  induction o with
  | nil => simp [insertIndex]
  | cons p ps ih =>
    simp only [insertIndex]
    split_ifs with h
    · simp only [List.map_cons, List.mem_cons, ih]
      tauto
    · simp

theorem keys_insertIndex_pairwise (k : List Nat) (v : JSON) (o : List (List Nat × JSON))
    (hk : isArrayIndex k = true) (hnot : ∀ p ∈ o, p.1 ≠ k)
    (ho : (o.map (fun p => p.1)).Pairwise keyBefore) :
    ((insertIndex k v o).map (fun p => p.1)).Pairwise keyBefore := by
  induction o with
  | nil => simp [insertIndex]
  | cons p ps ih =>
    simp only [List.map_cons, List.pairwise_cons] at ho
    obtain ⟨hp, hps⟩ := ho
    have hpk : p.1 ≠ k := hnot p (List.mem_cons_self _ _)
    have hnot' : ∀ q ∈ ps, q.1 ≠ k := fun q hq => hnot q (List.mem_cons_of_mem _ hq)
    simp only [insertIndex]
    split_ifs with h
    · simp only [List.map_cons, List.pairwise_cons]
      refine ⟨?_, ih hnot' hps⟩
      intro x hx
      rw [mem_keys_insertIndex] at hx
      rcases hx with hx | hx
      · subst hx
        exact ⟨hpk, fun _ => ⟨h.1, h.2⟩⟩
      · exact hp x hx
    · simp only [List.map_cons, List.pairwise_cons]
      refine ⟨?_, hp, hps⟩
      intro x hx
      simp only [List.mem_cons] at hx
      have hlt : isArrayIndex p.1 = true → digitsVal k < digitsVal p.1 := by
        intro hi
        by_contra hc
        exact h ⟨hi, by omega⟩
      rcases hx with hx | hx
      · subst hx
        exact ⟨fun e => hpk e.symm, fun hi => ⟨hk, Nat.le_of_lt (hlt hi)⟩⟩
      · refine ⟨?_, fun hi => ⟨hk, ?_⟩⟩
        · intro e
          obtain ⟨q, hq, hqx⟩ := List.mem_map.mp hx
          exact hnot' q hq (by rw [hqx, e])
        · have := (hp x hx).2 hi
          have := hlt this.1
          omega

theorem keys_setProp_replace (o : List (List Nat × JSON)) (k : List Nat) (v : JSON) :
    (o.map (fun p => if p.1 = k then (k, v) else p)).map (fun p => p.1) =
      o.map (fun p => p.1) := by
  induction o with
  | nil => rfl
  | cons p ps ih =>
    simp only [List.map_cons, ih, List.cons.injEq, and_true]
    split_ifs with h
    · exact h.symm
    · rfl

/-- Defining a property keeps the keys distinct and in property order. -/
theorem keys_setProp_pairwise (o : List (List Nat × JSON)) (k : List Nat) (v : JSON)
    (ho : (o.map (fun p => p.1)).Pairwise keyBefore) :
    ((setProp o k v).map (fun p => p.1)).Pairwise keyBefore := by
  unfold setProp
  by_cases hany : o.any (fun p => p.1 = k) = true
  · simp only [hany, if_true]
    rw [keys_setProp_replace]
    exact ho
  · simp only [hany, Bool.false_eq_true, if_false]
    have hnot : ∀ p ∈ o, p.1 ≠ k := by
      intro p hp e
      apply hany
      rw [List.any_eq_true]
      exact ⟨p, hp, by simpa using e⟩
    by_cases hi : isArrayIndex k = true
    · simp only [hi, if_true]
      exact keys_insertIndex_pairwise k v o hi hnot ho
    · simp only [hi, Bool.false_eq_true, if_false]
      rw [List.map_append, List.pairwise_append]
      refine ⟨ho, by simp, ?_⟩
      intro x hx y hy
      simp only [List.map_cons, List.map_nil, List.mem_singleton] at hy
      subst hy
      obtain ⟨q, hq, hqx⟩ := List.mem_map.mp hx
      refine ⟨?_, fun h => absurd h hi⟩
      rw [← hqx]
      exact hnot q hq

theorem wfMembers_iff (ms : List (List Nat × JSON)) :
    JSON.wfMembers ms = true ↔ ∀ p ∈ ms, JSON.wf p.2 = true := by
  induction ms with
  | nil => simp [JSON.wfMembers]
  | cons p ps ih =>
    obtain ⟨k, v⟩ := p
    simp [JSON.wfMembers, ih]

theorem wfElements_iff (vs : List JSON) :
    JSON.wfElements vs = true ↔ ∀ v ∈ vs, JSON.wf v = true := by
  induction vs with
  | nil => simp [JSON.wfElements]
  | cons v vs ih => simp [JSON.wfElements, ih]

theorem mem_insertIndex (k : List Nat) (v : JSON) (o : List (List Nat × JSON))
    (x : List Nat × JSON) : x ∈ insertIndex k v o → x = (k, v) ∨ x ∈ o := by
  induction o with
  | nil => simp [insertIndex]
  | cons p ps ih =>
    simp only [insertIndex]
    split_ifs with h
    · simp only [List.mem_cons]
      rintro (hx | hx)
      · exact Or.inr (Or.inl hx)
      · rcases ih hx with h1 | h1
        · exact Or.inl h1
        · exact Or.inr (Or.inr h1)
    · simp

/-- Defining a property with a well-formed value keeps the member values well formed. -/
theorem wfMembers_setProp (o : List (List Nat × JSON)) (k : List Nat) (v : JSON)
    (ho : JSON.wfMembers o = true) (hv : JSON.wf v = true) :
    JSON.wfMembers (setProp o k v) = true := by
  rw [wfMembers_iff] at ho ⊢
  intro p hp
  unfold setProp at hp
  split_ifs at hp with h1 h2
  · obtain ⟨q, hq, hqp⟩ := List.mem_map.mp hp
    split_ifs at hqp with h3
    · rw [← hqp]; exact hv
    · rw [← hqp]; exact ho q hq
  · rcases mem_insertIndex k v o p hp with h | h
    · rw [h]; exact hv
    · exact ho p h
  · simp only [List.mem_append, List.mem_singleton] at hp
    rcases hp with h | h
    · exact ho p h
    · rw [h]; exact hv

/-! ### Reading back the text of a value -/

theorem skipWs_cons_of_not_ws {c : Nat} (t : List Nat) (h : isWs c = false) :
    skipWs (c :: t) = c :: t := by
  simp [skipWs, h]

/-- The text of a value starts with a character that is neither white space nor a closing bracket. -/
theorem serialize_head (v : JSON) :
    ∃ c t, serialize v = c :: t ∧ isWs c = false ∧ c ≠ 93 := by
  cases v with
  | null => exact ⟨110, _, rfl, by decide, by decide⟩
  | bool b => cases b <;> exact ⟨_, _, rfl, by decide, by decide⟩
  | num n =>
    obtain ⟨h1, h2, _, _⟩ := natDigits_spec n.natAbs
    simp only [serialize]
    split_ifs with h
    · exact ⟨45, _, rfl, by decide, by decide⟩
    · cases hx : natDigits n.natAbs with
      | nil => exact absurd hx h2
      | cons d ds =>
        have hd : isDigit d = true := h1 d (by rw [hx]; exact List.mem_cons_self _ _)
        simp only [isDigit, Bool.and_eq_true, decide_eq_true_eq] at hd
        refine ⟨d, ds, rfl, ?_, by omega⟩
        simp only [isWs, Bool.or_eq_false_iff, decide_eq_false_iff_not]
        omega
  | str s => exact ⟨34, _, rfl, by decide, by decide⟩
  | arr vs => exact ⟨91, serializeElements vs, by simp [serialize], by decide, by decide⟩
  | obj ms => exact ⟨123, serializeMembers ms, by simp [serialize], by decide, by decide⟩

theorem delimited_cons {c : Nat} (t : List Nat)
    (h : isDigit c = false ∧ c ≠ 46 ∧ c ≠ 101 ∧ c ≠ 69) : Delimited (c :: t) := by
  intro d hd
  simp only [List.head?_cons, Option.some.injEq] at hd
  subst hd
  exact h

theorem delimited_nil : Delimited [] := by
  intro d hd
  simp at hd

theorem delimited_moreElements (vs : List JSON) (rest : List Nat) :
    Delimited (serializeMoreElements vs ++ rest) := by
  cases vs with
  | nil => exact delimited_cons _ (by decide)
  | cons v vs => simp only [serializeMoreElements, List.cons_append]; exact delimited_cons _ (by decide)

theorem delimited_moreMembers (ms : List (List Nat × JSON)) (rest : List Nat) :
    Delimited (serializeMoreMembers ms ++ rest) := by
  cases ms with
  | nil => exact delimited_cons _ (by decide)
  | cons p ms =>
    obtain ⟨k, v⟩ := p
    simp only [serializeMoreMembers, List.cons_append]; exact delimited_cons _ (by decide)

theorem parseValue_number (f c : Nat) (t : List Nat) (h : c = 45 ∨ isDigit c = true) :
    parseValue (f + 1) (c :: t) = parseNumber (c :: t) := by
  have hr : 45 ≤ c ∧ c ≤ 57 := by
    rcases h with h | h
    · omega
    · simp only [isDigit, Bool.and_eq_true, decide_eq_true_eq] at h; omega
  have hws : isWs c = false := by
    simp only [isWs, Bool.or_eq_false_iff, decide_eq_false_iff_not]; omega
  rw [parseValue, skipWs_cons_of_not_ws t hws]
  simp only [show ¬ c = 123 by omega, show ¬ c = 91 by omega, show ¬ c = 34 by omega,
    show ¬ c = 116 by omega, show ¬ c = 102 by omega, show ¬ c = 110 by omega, if_false, h,
    if_true]

theorem parseValue_array (f c : Nat) (t : List Nat) (hws : isWs c = false) (hc : c ≠ 93) :
    parseValue (f + 1) (91 :: c :: t) =
      match parseElements f (c :: t) with
      | .ok (vs, rest) => .ok (.arr vs, rest)
      | .error e => .error e := by
  rw [parseValue, skipWs_cons_of_not_ws _ (by decide)]
  simp only [show ¬ 91 = 123 by decide, if_false, if_true, skipWs_cons_of_not_ws t hws, hc]

theorem parseValue_object (f : Nat) (t : List Nat) :
    parseValue (f + 1) (123 :: 34 :: t) = parseMembers f (34 :: t) [] := by
  rw [parseValue, skipWs_cons_of_not_ws _ (by decide)]
  simp only [if_true, skipWs_cons_of_not_ws t (show isWs 34 = false by decide),
    show ¬ 34 = 125 by decide, if_false]

/-- With enough fuel the parser reads the text of a well-formed value back to the
value and stops right after it; likewise for the elements of an array and the
members of an object. -/
theorem parse_serialize_aux (fuel : Nat) :
    (∀ v rest, JSON.size v ≤ fuel → JSON.wf v = true → Delimited rest →
      parseValue fuel (serialize v ++ rest) = .ok (v, rest)) ∧
    (∀ v vs rest, JSON.sizeElements (v :: vs) ≤ fuel → JSON.wfElements (v :: vs) = true →
      parseElements fuel (serialize v ++ (serializeMoreElements vs ++ rest)) =
        .ok (v :: vs, rest)) ∧
    (∀ k v ms acc rest, JSON.sizeMembers ((k, v) :: ms) ≤ fuel →
      JSON.wfMembers ((k, v) :: ms) = true →
      ((acc ++ (k, v) :: ms).map (fun p => p.1)).Pairwise keyBefore →
      parseMembers fuel (quote k ++ 58 :: (serialize v ++ (serializeMoreMembers ms ++ rest))) acc =
        .ok (.obj (acc ++ (k, v) :: ms), rest)) := by
  induction fuel with
  | zero =>
    refine ⟨?_, ?_, ?_⟩
    · intro v rest hs
      cases v <;> simp [JSON.size] at hs
    · intro v vs rest hs
      simp [JSON.sizeElements] at hs
    · intro k v ms acc rest hs
      simp [JSON.sizeMembers] at hs
  | succ f ih =>
    obtain ⟨ihV, ihE, ihM⟩ := ih
    refine ⟨?_, ?_, ?_⟩
    · intro v rest hs hwf hrest
      cases v with
      | null => simp [serialize, parseValue, skipWs, isWs, parseLiteral]
      | bool b => cases b <;> simp [serialize, parseValue, skipWs, isWs, parseLiteral]
      | num n =>
        simp only [JSON.wf, decide_eq_true_eq] at hwf
        obtain ⟨c, t, hc, _, _⟩ := serialize_head (.num n)
        have hstart : c = 45 ∨ isDigit c = true := by
          obtain ⟨h1, h2, _, _⟩ := natDigits_spec n.natAbs
          simp only [serialize] at hc
          split_ifs at hc with h
          · left; cases hc; rfl
          · right; exact h1 c (by rw [hc]; exact List.mem_cons_self _ _)
        have := parseNumber_serialize n rest hwf hrest
        rw [hc] at this ⊢
        rw [List.cons_append] at this ⊢
        rw [parseValue_number f c _ hstart, this]
      | str s =>
        have : serialize (.str s) ++ rest = 34 :: (quoteBody false s ++ 34 :: rest) := by
          simp [serialize, quote]
        rw [this, parseValue, skipWs_cons_of_not_ws _ (by decide)]
        simp only [show ¬ 34 = 123 by decide, show ¬ 34 = 91 by decide, if_false, if_true,
          parseStringBody_quote]
      | arr vs =>
        cases vs with
        | nil => simp [serialize, serializeElements, parseValue, skipWs, isWs]
        | cons v vs =>
          simp only [JSON.size] at hs
          simp only [JSON.wf] at hwf
          have hE := ihE v vs rest (by omega) hwf
          obtain ⟨c, t, hc, hws, h93⟩ := serialize_head v
          have : serialize (.arr (v :: vs)) ++ rest =
              91 :: (serialize v ++ (serializeMoreElements vs ++ rest)) := by
            simp [serialize, serializeElements]
          rw [this]
          rw [hc, List.cons_append] at hE ⊢
          rw [parseValue_array f c _ hws h93, hE]
      | obj ms =>
        cases ms with
        | nil => simp [serialize, serializeMembers, parseValue, skipWs, isWs]
        | cons p ms =>
          obtain ⟨k, v⟩ := p
          simp only [JSON.size] at hs
          simp only [JSON.wf, Bool.and_eq_true, keysOk_iff] at hwf
          have hM := ihM k v ms [] rest (by omega) hwf.2 (by simpa using hwf.1)
          have : serialize (.obj ((k, v) :: ms)) ++ rest =
              123 :: (quote k ++ 58 :: (serialize v ++ (serializeMoreMembers ms ++ rest))) := by
            simp [serialize, serializeMembers]
          rw [this]
          have hq : ∀ x, quote k ++ x = 34 :: (quoteBody false k ++ 34 :: x) := by
            intro x; simp [quote]
          rw [hq] at hM ⊢
          rw [parseValue_object, hM]
          rfl
    · intro v vs rest hs hwf
      simp only [JSON.sizeElements] at hs
      simp only [JSON.wfElements, Bool.and_eq_true] at hwf
      have hV := ihV v (serializeMoreElements vs ++ rest) (by omega) hwf.1
        (delimited_moreElements vs rest)
      rw [parseElements, hV]
      cases vs with
      | nil =>
        simp only [serializeMoreElements, List.cons_append, List.nil_append]
        rw [skipWs_cons_of_not_ws _ (by decide)]
        simp only [show ¬ 93 = 44 by decide, if_false, if_true]
      | cons v' vs' =>
        have hE := ihE v' vs' rest (by simp only [JSON.sizeElements] at hs ⊢; omega) hwf.2
        simp only [serializeMoreElements, List.cons_append, List.append_assoc]
        rw [skipWs_cons_of_not_ws _ (by decide)]
        simp only [if_true, hE]
    · intro k v ms acc rest hs hwf hkeys
      simp only [JSON.sizeMembers] at hs
      simp only [JSON.wfMembers, Bool.and_eq_true] at hwf
      have hV := ihV v (serializeMoreMembers ms ++ rest) (by omega) hwf.1
        (delimited_moreMembers ms rest)
      have hq : ∀ x, quote k ++ x = 34 :: (quoteBody false k ++ 34 :: x) := by
        intro x; simp [quote]
      have hset : setProp acc k v = acc ++ [(k, v)] := by
        apply setProp_append
        have : acc ++ (k, v) :: ms = (acc ++ [(k, v)]) ++ ms := by simp
        rw [this, List.map_append, List.pairwise_append] at hkeys
        exact hkeys.1
      rw [hq, parseMembers, skipWs_cons_of_not_ws _ (by decide)]
      simp only [if_true, parseStringBody_quote]
      rw [skipWs_cons_of_not_ws _ (by decide)]
      simp only [if_true, hV]
      cases ms with
      | nil =>
        simp only [serializeMoreMembers, List.cons_append, List.nil_append]
        rw [skipWs_cons_of_not_ws _ (by decide)]
        simp only [show ¬ 125 = 44 by decide, if_false, if_true, hset]
      | cons p ms' =>
        obtain ⟨k', v'⟩ := p
        have hM := ihM k' v' ms' (acc ++ [(k, v)]) rest
          (by simp only [JSON.sizeMembers] at hs ⊢; omega) hwf.2 (by simpa using hkeys)
        simp only [serializeMoreMembers, List.cons_append, List.append_assoc]
        rw [skipWs_cons_of_not_ws _ (by decide)]
        simp only [if_true, hset, hM]
        simp

/-! ### Fuel: the length of the text is enough -/

mutual
theorem JSON.size_le_length : ∀ (v : JSON), JSON.size v ≤ (serialize v).length
  | .null => by simp [JSON.size, serialize]
  | .bool true => by simp [JSON.size, serialize]
  | .bool false => by simp [JSON.size, serialize]
  | .num n => by
    obtain ⟨_, h2, _, _⟩ := natDigits_spec n.natAbs
    have : 1 ≤ (natDigits n.natAbs).length := by
      cases hx : natDigits n.natAbs with
      | nil => exact absurd hx h2
      | cons d ds => simp
    simp only [JSON.size, serialize]
    split_ifs
    · simp
    · exact this
  | .str s => by simp [JSON.size, serialize, quote]
  | .arr vs => by
    have := JSON.sizeElements_le_length vs
    simp only [JSON.size, serialize, List.length_cons]
    omega
  | .obj ms => by
    have := JSON.sizeMembers_le_length ms
    simp only [JSON.size, serialize, List.length_cons]
    omega
theorem JSON.sizeElements_le_length : ∀ (vs : List JSON),
    JSON.sizeElements vs ≤ (serializeElements vs).length
  | [] => by simp [JSON.sizeElements]
  | v :: vs => by
    have h1 := JSON.size_le_length v
    have h2 := JSON.sizeMoreElements_le_length vs
    simp only [JSON.sizeElements, serializeElements, List.length_append]
    omega
theorem JSON.sizeMoreElements_le_length : ∀ (vs : List JSON),
    JSON.sizeElements vs + 1 ≤ (serializeMoreElements vs).length
  | [] => by simp [JSON.sizeElements, serializeMoreElements]
  | v :: vs => by
    have h1 := JSON.size_le_length v
    have h2 := JSON.sizeMoreElements_le_length vs
    simp only [JSON.sizeElements, serializeMoreElements, List.length_append, List.length_cons]
    omega
theorem JSON.sizeMembers_le_length : ∀ (ms : List (List Nat × JSON)),
    JSON.sizeMembers ms ≤ (serializeMembers ms).length
  | [] => by simp [JSON.sizeMembers]
  | (k, v) :: ms => by
    have h1 := JSON.size_le_length v
    have h2 := JSON.sizeMoreMembers_le_length ms
    simp only [JSON.sizeMembers, serializeMembers, List.length_append, List.length_cons]
    omega
theorem JSON.sizeMoreMembers_le_length : ∀ (ms : List (List Nat × JSON)),
    JSON.sizeMembers ms + 1 ≤ (serializeMoreMembers ms).length
  | [] => by simp [JSON.sizeMembers, serializeMoreMembers]
  | (k, v) :: ms => by
    have h1 := JSON.size_le_length v
    have h2 := JSON.sizeMoreMembers_le_length ms
    simp only [JSON.sizeMembers, serializeMoreMembers, List.length_append, List.length_cons]
    omega
end

/-- Round trip, text side: a well-formed value is read back from its text. -/
theorem load_serialize (v : JSON) (h : JSON.wf v = true) : load (serialize v) = .ok v := by
  have hfuel : JSON.size v ≤ 2 * (serialize v).length + 1 := by
    have := JSON.size_le_length v
    omega
  have := (parse_serialize_aux (2 * (serialize v).length + 1)).1 v [] hfuel h delimited_nil
  rw [List.append_nil] at this
  simp [load, JSONparse, this, skipWs]

/-! ### What the parser returns is well formed -/

theorem parseNumber_wf (input : List Nat) (v : JSON) (rest : List Nat)
    (h : parseNumber input = .ok (v, rest)) : JSON.wf v = true := by
  unfold parseNumber at h
  simp only at h
  split at h
  · cases h
  · split_ifs at h with h1 h2 h3 h4 h5
    · cases h
      simp only [JSON.wf, Int.natAbs_neg, Int.natAbs_ofNat, decide_eq_true_eq]
      omega
    · cases h
      simp only [JSON.wf, Int.natAbs_ofNat, decide_eq_true_eq]
      omega

theorem parseLiteral_wf (word : List Nat) (v0 : JSON) (input : List Nat) (v : JSON)
    (rest : List Nat) (h0 : JSON.wf v0 = true)
    (h : parseLiteral word v0 input = .ok (v, rest)) : JSON.wf v = true := by
  unfold parseLiteral at h
  split_ifs at h
  cases h
  exact h0

theorem parse_wf_aux (fuel : Nat) :
    (∀ input v rest, parseValue fuel input = .ok (v, rest) → JSON.wf v = true) ∧
    (∀ input vs rest, parseElements fuel input = .ok (vs, rest) →
      JSON.wfElements vs = true) ∧
    (∀ input acc v rest, parseMembers fuel input acc = .ok (v, rest) →
      (acc.map (fun p => p.1)).Pairwise keyBefore → JSON.wfMembers acc = true →
      JSON.wf v = true) := by
  induction fuel with
  | zero =>
    refine ⟨?_, ?_, ?_⟩
    · intro input v rest h; simp [parseValue] at h
    · intro input vs rest h; simp [parseElements] at h
    · intro input acc v rest h; simp [parseMembers] at h
  | succ f ih =>
    obtain ⟨ihV, ihE, ihM⟩ := ih
    refine ⟨?_, ?_, ?_⟩
    · intro input v rest h
      rw [parseValue] at h
      split at h
      · cases h
      · split_ifs at h with h1 h2 h3 h4 h5 h6 h7
        · split at h
          · cases h
          · split_ifs at h
            · cases h; simp [JSON.wf, keysOk, JSON.wfMembers]
            · exact ihM _ _ _ _ h (by simp) (by simp [JSON.wfMembers])
        · split at h
          · cases h
          · split_ifs at h
            · cases h; simp [JSON.wf, JSON.wfElements]
            · split at h
              · next vs rest' hE =>
                cases h
                simp only [JSON.wf]
                exact ihE _ _ _ hE
              · cases h
        · split at h
          · cases h; simp [JSON.wf]
          · cases h
        · exact parseLiteral_wf _ _ _ _ _ (by simp [JSON.wf]) h
        · exact parseLiteral_wf _ _ _ _ _ (by simp [JSON.wf]) h
        · exact parseLiteral_wf _ _ _ _ _ (by simp [JSON.wf]) h
        · exact parseNumber_wf _ _ _ h
    · intro input vs rest h
      rw [parseElements] at h
      split at h
      · cases h
      · next v rest1 hV =>
        have hv := ihV _ _ _ hV
        split at h
        · cases h
        · split_ifs at h
          · split at h
            · next vs' rest2 hE =>
              cases h
              simp only [JSON.wfElements, hv, ihE _ _ _ hE, Bool.and_self]
            · cases h
          · cases h
            simp [JSON.wfElements, hv]
    · intro input acc v rest h hkeys hacc
      rw [parseMembers] at h
      split at h
      · cases h
      · split_ifs at h
        split at h
        · cases h
        · next k rest1 hk =>
          split at h
          · cases h
          · split_ifs at h
            split at h
            · cases h
            · next v1 rest2 hV =>
              have hv := ihV _ _ _ hV
              have hkeys' := keys_setProp_pairwise acc k v1 hkeys
              have hacc' := wfMembers_setProp acc k v1 hacc hv
              split at h
              · cases h
              · split_ifs at h
                · exact ihM _ _ _ _ h hkeys' hacc'
                · cases h
                  simp only [JSON.wf, Bool.and_eq_true, keysOk_iff]
                  exact ⟨hkeys', hacc'⟩

/-- Every value `load` returns is well formed. -/
theorem load_wf (text : List Nat) (v : JSON) (h : load text = .ok v) : JSON.wf v = true := by
  unfold load JSONparse at h
  split at h
  · next v' rest hp =>
    split_ifs at h
    cases h
    exact (parse_wf_aux _).1 _ _ _ hp
  · cases h

/-! ### The recursion bound is never used up -/

theorem skipWs_length_le (l : List Nat) : (skipWs l).length ≤ l.length := by
  induction l with
  | nil => simp [skipWs]
  | cons c cs ih =>
    simp only [skipWs]
    split_ifs
    · simp only [List.length_cons]; omega
    · exact Nat.le_refl _

theorem length_lt_of_skipWs_eq_cons {l : List Nat} {c : Nat} {cs : List Nat}
    (h : skipWs l = c :: cs) : cs.length < l.length := by
  have := skipWs_length_le l
  rw [h] at this
  simp only [List.length_cons] at this
  omega

theorem parseStringFrom_progress : ∀ (input : List Nat) (st : Scan),
    (∀ s rest, parseStringFrom st input = .ok (s, rest) → rest.length < input.length) ∧
    parseStringFrom st input ≠ .error .fuel := by
  intro input
  induction input with
  | nil => intro st; cases st <;> simp [parseStringFrom]
  | cons c cs ih =>
    intro st
    have key : ∀ (u : Nat) (st' : Scan),
        (∀ s rest, consStr u (parseStringFrom st' cs) = .ok (s, rest) →
          rest.length < (c :: cs).length) ∧
        consStr u (parseStringFrom st' cs) ≠ .error .fuel := by
      intro u st'
      obtain ⟨h1, h2⟩ := ih st'
      cases hx : parseStringFrom st' cs with
      | error e =>
        refine ⟨by intro s rest h; simp [consStr] at h, ?_⟩
        intro h
        simp only [consStr, Except.error.injEq] at h
        exact h2 (by rw [hx, h])
      | ok p =>
        obtain ⟨s', rest'⟩ := p
        refine ⟨?_, by simp [consStr]⟩
        intro s rest h
        simp only [consStr, Except.ok.injEq, Prod.mk.injEq] at h
        have := h1 s' rest' hx
        rw [← h.2]
        simp only [List.length_cons]
        omega
    have step : ∀ (st' : Scan),
        (∀ s rest, parseStringFrom st' cs = .ok (s, rest) →
          rest.length < (c :: cs).length) ∧
        parseStringFrom st' cs ≠ .error .fuel := by
      intro st'
      obtain ⟨h1, h2⟩ := ih st'
      refine ⟨?_, h2⟩
      intro s rest h
      have := h1 s rest h
      simp only [List.length_cons]
      omega
    cases st with
    | plain =>
      simp only [parseStringFrom]
      split_ifs
      · refine ⟨?_, by simp⟩
        intro s rest h
        simp only [Except.ok.injEq, Prod.mk.injEq] at h
        rw [← h.2]
        simp
      · exact step _
      · simp
      · exact key _ _
    | escape =>
      simp only [parseStringFrom]
      split_ifs
      · exact step _
      · split
        · exact key _ _
        · simp
    | hex more acc =>
      simp only [parseStringFrom]
      split
      · simp
      · split
        · exact key _ _
        · exact step _

theorem takeDigits_length (l : List Nat) :
    (takeDigits l).1.length + (takeDigits l).2.length = l.length := by
  induction l with
  | nil => simp [takeDigits]
  | cons c cs ih =>
    simp only [takeDigits]
    split_ifs
    · simp only [List.length_cons]; omega
    · simp

theorem parseNumber_progress (input : List Nat) :
    (∀ v rest, parseNumber input = .ok (v, rest) → rest.length < input.length) ∧
    parseNumber input ≠ .error .fuel := by
  have hbody : ∀ (b : Bool), (if b = true then input.tail else input).length ≤ input.length := by
    intro b
    split_ifs
    · simp
    · exact Nat.le_refl _
  have hlen := takeDigits_length (if (decide (input.head? = some 45)) = true
    then input.tail else input)
  have hb := hbody (decide (input.head? = some 45))
  unfold parseNumber
  simp only
  split
  · simp
  · next d ds rest htake =>
    rw [htake] at hlen
    simp only [List.length_cons] at hlen
    refine ⟨?_, ?_⟩
    · intro v rest' h
      split_ifs at h <;>
        (simp only [Except.ok.injEq, Prod.mk.injEq] at h; rw [← h.2]; omega)
    · split_ifs <;> simp

theorem parseLiteral_progress (word : List Nat) (v0 : JSON) (input : List Nat)
    (hw : word ≠ []) :
    (∀ v rest, parseLiteral word v0 input = .ok (v, rest) → rest.length < input.length) ∧
    parseLiteral word v0 input ≠ .error .fuel := by
  unfold parseLiteral
  split_ifs with h
  · refine ⟨?_, by simp⟩
    intro v rest hr
    simp only [Except.ok.injEq, Prod.mk.injEq] at hr
    rw [← hr.2]
    have hl := congrArg List.length h
    simp only [List.length_take] at hl
    have hw' : 0 < word.length := List.length_pos.mpr hw
    simp only [List.length_drop]
    omega
  · simp

/-- Every successful step of the parser consumes text, and a recursion bound of
twice the length of the text is never used up. -/
theorem parse_progress_aux (fuel : Nat) :
    (∀ input,
      (∀ v rest, parseValue fuel input = .ok (v, rest) → rest.length < input.length) ∧
      (2 * input.length + 1 ≤ fuel → parseValue fuel input ≠ .error .fuel)) ∧
    (∀ input,
      (∀ vs rest, parseElements fuel input = .ok (vs, rest) → rest.length < input.length) ∧
      (2 * input.length + 2 ≤ fuel → parseElements fuel input ≠ .error .fuel)) ∧
    (∀ input acc,
      (∀ v rest, parseMembers fuel input acc = .ok (v, rest) → rest.length < input.length) ∧
      (2 * input.length + 2 ≤ fuel → parseMembers fuel input acc ≠ .error .fuel)) := by
  induction fuel with
  | zero =>
    refine ⟨?_, ?_, ?_⟩
    · intro input
      exact ⟨by intro v rest h; simp [parseValue] at h, by intro h; omega⟩
    · intro input
      exact ⟨by intro v rest h; simp [parseElements] at h, by intro h; omega⟩
    · intro input acc
      exact ⟨by intro v rest h; simp [parseMembers] at h, by intro h; omega⟩
  | succ f ih =>
    obtain ⟨ihV, ihE, ihM⟩ := ih
    refine ⟨?_, ?_, ?_⟩
    · intro input
      rw [parseValue]
      split
      · simp
      · next c cs hsk =>
        have hcs := length_lt_of_skipWs_eq_cons hsk
        split_ifs
        · split
          · simp
          · next d ds hsk2 =>
            have hds := length_lt_of_skipWs_eq_cons hsk2
            split_ifs
            · refine ⟨?_, by simp⟩
              intro v rest h
              simp only [Except.ok.injEq, Prod.mk.injEq] at h
              rw [← h.2]; omega
            · obtain ⟨h1, h2⟩ := ihM (d :: ds) []
              refine ⟨?_, ?_⟩
              · intro v rest h
                have := h1 v rest h
                simp only [List.length_cons] at this
                omega
              · intro hf
                apply h2
                simp only [List.length_cons]
                omega
        · split
          · simp
          · next d ds hsk2 =>
            have hds := length_lt_of_skipWs_eq_cons hsk2
            split_ifs
            · refine ⟨?_, by simp⟩
              intro v rest h
              simp only [Except.ok.injEq, Prod.mk.injEq] at h
              rw [← h.2]; omega
            · obtain ⟨h1, h2⟩ := ihE (d :: ds)
              split
              · next vs rest' hE =>
                refine ⟨?_, by simp⟩
                intro v rest h
                simp only [Except.ok.injEq, Prod.mk.injEq] at h
                have := h1 vs rest' hE
                simp only [List.length_cons] at this
                rw [← h.2]; omega
              · next e hE =>
                refine ⟨by simp, ?_⟩
                intro hf h
                simp only [Except.error.injEq] at h
                apply h2 (by simp only [List.length_cons]; omega)
                rw [hE, h]
        · obtain ⟨h1, h2⟩ := parseStringFrom_progress cs .plain
          unfold parseStringBody
          split
          · next s rest' hS =>
            refine ⟨?_, by simp⟩
            intro v rest h
            simp only [Except.ok.injEq, Prod.mk.injEq] at h
            have := h1 s rest' hS
            rw [← h.2]; omega
          · next e hS =>
            refine ⟨by simp, ?_⟩
            intro _ h
            simp only [Except.error.injEq] at h
            exact h2 (by rw [hS, h])
        · obtain ⟨h1, h2⟩ := parseLiteral_progress [116, 114, 117, 101] (.bool true) (c :: cs)
            (by simp)
          refine ⟨?_, fun _ => h2⟩
          intro v rest h
          have := h1 v rest h
          simp only [List.length_cons] at this
          omega
        · obtain ⟨h1, h2⟩ := parseLiteral_progress [102, 97, 108, 115, 101] (.bool false)
            (c :: cs) (by simp)
          refine ⟨?_, fun _ => h2⟩
          intro v rest h
          have := h1 v rest h
          simp only [List.length_cons] at this
          omega
        · obtain ⟨h1, h2⟩ := parseLiteral_progress [110, 117, 108, 108] .null (c :: cs)
            (by simp)
          refine ⟨?_, fun _ => h2⟩
          intro v rest h
          have := h1 v rest h
          simp only [List.length_cons] at this
          omega
        · obtain ⟨h1, h2⟩ := parseNumber_progress (c :: cs)
          refine ⟨?_, fun _ => h2⟩
          intro v rest h
          have := h1 v rest h
          simp only [List.length_cons] at this
          omega
        · simp
    · intro input
      rw [parseElements]
      obtain ⟨hV1, hV2⟩ := ihV input
      split
      · next e hV =>
        refine ⟨by simp, ?_⟩
        intro hf h
        simp only [Except.error.injEq] at h
        exact hV2 (by omega) (by rw [hV, h])
      · next v rest1 hV =>
        have hr1 := hV1 v rest1 hV
        split
        · simp
        · next c cs hsk =>
          have hcs := length_lt_of_skipWs_eq_cons hsk
          split_ifs
          · obtain ⟨h1, h2⟩ := ihE cs
            split
            · next vs rest2 hE =>
              refine ⟨?_, by simp⟩
              intro vs' rest h
              simp only [Except.ok.injEq, Prod.mk.injEq] at h
              have := h1 vs rest2 hE
              rw [← h.2]; omega
            · next e hE =>
              refine ⟨by simp, ?_⟩
              intro hf h
              simp only [Except.error.injEq] at h
              exact h2 (by omega) (by rw [hE, h])
          · refine ⟨?_, by simp⟩
            intro vs' rest h
            simp only [Except.ok.injEq, Prod.mk.injEq] at h
            rw [← h.2]; omega
          · simp
    · intro input acc
      rw [parseMembers]
      split
      · simp
      · next q cs hsk =>
        have hcs := length_lt_of_skipWs_eq_cons hsk
        split_ifs
        · obtain ⟨hS1, hS2⟩ := parseStringFrom_progress cs .plain
          unfold parseStringBody
          split
          · next e hS =>
            refine ⟨by simp, ?_⟩
            intro _ h
            simp only [Except.error.injEq] at h
            exact hS2 (by rw [hS, h])
          · next k rest hS =>
            have hrest := hS1 k rest hS
            split
            · simp
            · next c rest1 hsk1 =>
              have hr1 := length_lt_of_skipWs_eq_cons hsk1
              split_ifs
              · obtain ⟨hV1, hV2⟩ := ihV rest1
                split
                · next e hV =>
                  refine ⟨by simp, ?_⟩
                  intro hf h
                  simp only [Except.error.injEq] at h
                  exact hV2 (by omega) (by rw [hV, h])
                · next v rest2 hV =>
                  have hr2 := hV1 v rest2 hV
                  split
                  · simp
                  · next d rest3 hsk3 =>
                    have hr3 := length_lt_of_skipWs_eq_cons hsk3
                    split_ifs
                    · obtain ⟨h1, h2⟩ := ihM rest3 (setProp acc k v)
                      refine ⟨?_, ?_⟩
                      · intro v' rest' h
                        have := h1 v' rest' h
                        omega
                      · intro hf
                        exact h2 (by omega)
                    · refine ⟨?_, by simp⟩
                      intro v' rest' h
                      simp only [Except.ok.injEq, Prod.mk.injEq] at h
                      rw [← h.2]; omega
                    · simp
              · simp
        · simp

/-- Loading never stops for lack of fuel: every text either loads, is rejected
as a syntax error, or lies outside the modelled fragment. -/
theorem load_ne_fuel (text : List Nat) : load text ≠ .error .fuel := by
  unfold load JSONparse
  have h := ((parse_progress_aux (2 * text.length + 1)).1 text).2 (Nat.le_refl _)
  split
  · split_ifs <;> simp
  · next e he =>
    intro hf
    simp only [Except.error.injEq] at hf
    exact h (by rw [he, hf])

/-! ### Facts about all nine payloads at once -/

/-- The nine payloads load to the nine listed values. -/
theorem shipped_load :
    List.Forall₂ (fun (p : String × String) (d : JSON) => loadChunk p.2 = .ok d)
      shippedPayloads shippedDocs := by
  unfold shippedPayloads shippedDocs
  refine .cons (loadChunk_eq_of_loadsTo Value_loads) ?_
  refine .cons (loadChunk_eq_of_loadsTo Bind_loads) ?_
  refine .cons (loadChunk_eq_of_loadsTo Color3Util_loads) ?_
  refine .cons (loadChunk_eq_of_loadsTo Flow_loads) ?_
  refine .cons (loadChunk_eq_of_loadsTo OrderedStorage_loads) ?_
  refine .cons (loadChunk_eq_of_loadsTo Storage_loads) ?_
  refine .cons (loadChunk_eq_of_loadsTo Stopwatch_loads) ?_
  refine .cons (loadChunk_eq_of_loadsTo Timer_loads) ?_
  exact .cons (loadChunk_eq_of_loadsTo BaseStorage_loads) .nil

theorem forall₂_and_right {α β : Type} {R : α → β → Prop} {P : β → Prop} :
    ∀ {l₁ : List α} {l₂ : List β}, List.Forall₂ R l₁ l₂ → (∀ b ∈ l₂, P b) →
      List.Forall₂ (fun a b => R a b ∧ P b) l₁ l₂
  | _, _, .nil, _ => .nil
  | _, _, .cons h t, hp =>
    .cons ⟨h, hp _ (List.mem_cons_self _ _)⟩
      (forall₂_and_right t (fun b hb => hp b (List.mem_cons_of_mem _ hb)))

/-- A check that holds of each of the nine listed values holds of what each payload loads to. -/
theorem shipped_all {check : JSON → Bool} (h : shippedDocs.all check = true) :
    List.Forall₂ (fun (p : String × String) (d : JSON) =>
      loadChunk p.2 = .ok d ∧ check d = true) shippedPayloads shippedDocs :=
  forall₂_and_right shipped_load (fun d hd => List.all_eq_true.mp h d hd)

/-! ### The registry after several chunks -/

theorem evalChunks_cons (c : Chunk) (cs : List Chunk) (self : Global) :
    evalChunks (c :: cs) self = evalChunks cs (evalChunk c self) := rfl

/-- Evaluating chunks appends their entries, in the order of evaluation. -/
theorem evalChunks_registry (cs : List Chunk) : ∀ (self : Global), cs ≠ [] →
    (evalChunks cs self).webpackChunkdocs =
      some (self.webpackChunkdocs.getD [] ++ cs.map Chunk.entry) := by
  induction cs with
  | nil => intro self h; exact absurd rfl h
  | cons c cs ih =>
    intro self _
    rw [evalChunks_cons]
    cases cs with
    | nil => rfl
    | cons d ds =>
      rw [ih (evalChunk c self) (by simp)]
      simp [evalChunk]

/-! ### Runs of the page -/

/-- No event changes the CSS module. -/
theorem World.step_styles (w : World) (e : Event) : (w.step e).1.styles = w.styles := by
  cases e <;> rfl

/-- An event changes the registry exactly when it is a chunk evaluation. -/
theorem World.step_self (w : World) (e : Event) :
    (w.step e).1.self = (match e.chunk? with
      | some c => evalChunk c w.self
      | none => w.self) := by
  cases e <;> rfl

/-- A history leaves the CSS module as it was. -/
theorem World.after_styles (w : World) (history : List Event) :
    (w.after history).styles = w.styles := by
  induction history generalizing w with
  | nil => rfl
  | cons e es ih =>
    show (World.after (w.step e).1 es).styles = w.styles
    rw [ih, World.step_styles]

/-- A history changes the registry by its chunk evaluations, in order, and by nothing else. -/
theorem World.after_self (w : World) (history : List Event) :
    (w.after history).self = evalChunks (history.filterMap Event.chunk?) w.self := by
  induction history generalizing w with
  | nil => rfl
  | cons e es ih =>
    show (World.after (w.step e).1 es).self = _
    rw [ih, World.step_self]
    cases e <;> rfl

/-- What an event returns is determined by the event and the CSS module. -/
theorem World.step_output (w₁ w₂ : World) (e : Event) (h : w₁.styles = w₂.styles) :
    (w₁.step e).2 = (w₂.step e).2 := by
  cases e <;> simp only [World.step, h]

/-! ### Properties of the feature list view -/

/-- C1: `HomepageFeatures` renders the constant `FeatureList` as exactly three
columns inside the one row, in the order "Easy to Use", "No Setup",
"Typechecking Galore"; the i-th column holds the i-th title in its `h3` and the
i-th description text, unchanged, in its `p`. -/
theorem homepageFeatures_renders_three_columns {α : Type} (styles : Styles)
    (arguments : List α) :
    render styles (HomepageFeatures styles arguments) =
      .host "section" [("className", styles.features)]
        [ .host "div" [("className", "container")]
            [ .host "div" [("className", "row")]
                ([ ("Easy to Use",
                    "Each of the modules in dToolkit was made to be very easy to use by new and experienced developers alike!"),
                   ("No Setup",
                    "Just plop dToolkit into your experience, and you're all set!"),
                   ("Typechecking Galore",
                    "dToolkit has typechecking for all of its classes, and every library also implements typechecking to be as easy to implement into your projects!") ].map
                  (fun td =>
                    Element.host "div" [("className", "col col--4")]
                      [ .host "div" [("className", "text--center")] [.empty],
                        .host "div" [("className", " padding-horiz--md")]
                          [ .host "h3" [("className", "text--center")] [.text td.1],
                            .host "p" [] [.fragment [.text td.2]] ] ])) ] ] := by
  rfl

/-- C2: for every descriptor, `Feature` returns one element of class
"col col--4" with exactly two children: first the "text--center" icon
container, then the text container. The icon container holds the `Png` element
with `alt` equal to the title when `Png` is present, and nothing when it is
absent; the text container holds the title in a "text--center" `h3` followed by
the description in a `p`. -/
theorem feature_layout (styles : Styles) (props : FeatureProps) :
    ∃ icon : Element,
      Feature styles props =
        .host "div" [("className", "col col--4")]
          [ .host "div" [("className", "text--center")] [icon],
            .host "div" [("className", " padding-horiz--md")]
              [ .host "h3" [("className", "text--center")] [.text props.title],
                .host "p" [] [props.description] ] ] ∧
      ((∃ Png, props.Png = some Png ∧
          icon = .component Png [("className", styles.featurePng), ("alt", props.title)]) ∨
        (props.Png = none ∧ icon = .empty)) := by
  obtain ⟨png, title, description⟩ := props
  cases png with
  | none => exact ⟨.empty, rfl, Or.inr ⟨rfl, rfl⟩⟩
  | some P => exact ⟨_, rfl, Or.inl ⟨P, rfl, rfl⟩⟩

/-- C3: rendering is deterministic and depends on no hidden or mutable state.
In a run of the page from any state `w`, with chunk files being evaluated,
components being called and element trees being expanded in any order:

* the history changes the chunk registry (by its chunk evaluations) and leaves
  the CSS module alone, and a call or an expansion changes nothing at all;
* every call or expansion `e` made again `later` in the same run, or
  `elsewhere` in a run that starts from another global object and has another
  history, returns what it returned `now`;
* two calls of `HomepageFeatures` return the same element whatever their
  arguments, and two expansions of a `<Feature>` element of the same
  descriptor return the same markup whatever their keys;
* what `Feature` returns is the column built from the descriptor, and the
  expansion of what `HomepageFeatures` returns is the section holding the
  `Feature` columns of the three records of `FeatureList`. -/
theorem rendering_deterministic (w : World) (before between other : List Event)
    (self' : Global) (e : Event) (element : Element) (key₁ key₂ : Nat)
    (props : FeatureProps) (a b : List JSON) :
    let now := w.after before
    let later := now.after (e :: between)
    let elsewhere := World.after ⟨self', w.styles⟩ other
    (now.self = evalChunks (before.filterMap Event.chunk?) w.self ∧
      now.styles = w.styles ∧
      (now.step (.callFeature props)).1 = now ∧
      (now.step (.callHomepageFeatures a)).1 = now ∧
      (now.step (.expand element)).1 = now) ∧
    ((later.step e).2 = (now.step e).2 ∧
      (elsewhere.step e).2 = (now.step e).2) ∧
    ((later.step (.callHomepageFeatures b)).2 = (now.step (.callHomepageFeatures a)).2 ∧
      (elsewhere.step (.callHomepageFeatures b)).2 = (now.step (.callHomepageFeatures a)).2 ∧
      (later.step (.expand (.feature key₂ props.Png props.title props.description))).2 =
        (now.step (.expand (.feature key₁ props.Png props.title props.description))).2 ∧
      (elsewhere.step (.expand (.feature key₂ props.Png props.title props.description))).2 =
        (now.step (.expand (.feature key₁ props.Png props.title props.description))).2) ∧
    ((now.step (.callFeature props)).2 =
        some (.host "div" [("className", "col col--4")]
          [ .host "div" [("className", "text--center")]
              [ match props.Png with
                | some Png =>
                  .component Png [("className", w.styles.featurePng), ("alt", props.title)]
                | none => .empty ],
            .host "div" [("className", " padding-horiz--md")]
              [ .host "h3" [("className", "text--center")] [.text props.title],
                .host "p" [] [props.description] ] ]) ∧
      ((now.step (.callHomepageFeatures a)).2.bind fun tree => (now.step (.expand tree)).2) =
        some (.host "section" [("className", w.styles.features)]
          [ .host "div" [("className", "container")]
              [ .host "div" [("className", "row")]
                  (FeatureList.map (Feature w.styles)) ] ])) := by
  intro now later elsewhere
  have hnow : now.styles = w.styles := World.after_styles w before
  have hlater : later.styles = now.styles := World.after_styles now (e :: between)
  have helse : elsewhere.styles = now.styles :=
    (World.after_styles ⟨self', w.styles⟩ other).trans hnow.symm
  refine ⟨⟨World.after_self w before, hnow, rfl, rfl, rfl⟩,
    ⟨World.step_output later now e hlater, World.step_output elsewhere now e helse⟩,
    ⟨?_, ?_, ?_, ?_⟩, ?_, ?_⟩
  · show some (HomepageFeatures later.styles b) = some (HomepageFeatures now.styles a)
    rw [hlater]; rfl
  · show some (HomepageFeatures elsewhere.styles b) = some (HomepageFeatures now.styles a)
    rw [helse]; rfl
  · show some (render later.styles _) = some (render now.styles _)
    rw [hlater]; rfl
  · show some (render elsewhere.styles _) = some (render now.styles _)
    rw [helse]; rfl
  · show some (Feature now.styles props) = _
    rw [hnow]; rfl
  · show some (render now.styles (HomepageFeatures now.styles a)) = _
    rw [hnow]; rfl

/-- C4: the feature list view has no error path. `Feature` is total and returns
a column element for every descriptor, with an icon or without one;
`HomepageFeatures` returns a section element on every call, and so does its
expansion. -/
theorem feature_view_total {α : Type} (styles : Styles) (props : FeatureProps)
    (arguments : List α) :
    (∃ children, Feature styles props =
        .host "div" [("className", "col col--4")] children) ∧
    (∃ children, HomepageFeatures styles arguments =
        .host "section" [("className", styles.features)] children) ∧
    (∃ children, render styles (HomepageFeatures styles arguments) =
        .host "section" [("className", styles.features)] children) :=
  ⟨⟨_, rfl⟩, ⟨_, rfl⟩, ⟨_, rfl⟩⟩

/-- C5: `HomepageFeatures` takes no external input: whatever arguments two
calls receive, the returned element tree is the same. -/
theorem homepageFeatures_ignores_arguments {α β : Type} (styles : Styles)
    (a : List α) (b : List β) :
    HomepageFeatures styles a = HomepageFeatures styles b := rfl

/-! ### Properties of the documentation payloads -/

/-- C6: loading keeps the member sequences as they are written. For every
well-formed entry value `d`, loading the payload text that writes `d` gives a
value whose `functions`, `properties` and `types` sequences are exactly those
written (same length, same elements, same order). -/
theorem load_preserves_member_order (d : JSON) (hwf : JSON.wf d = true) :
    ∃ e, load (serialize d) = .ok e ∧
      e.list "functions" = d.list "functions" ∧
      e.list "properties" = d.list "properties" ∧
      e.list "types" = d.list "types" ∧
      (e.list "functions").length = (d.list "functions").length ∧
      (e.list "properties").length = (d.list "properties").length ∧
      (e.list "types").length = (d.list "types").length :=
  ⟨d, load_serialize d hwf, rfl, rfl, rfl, rfl, rfl, rfl⟩

/-- Witness for C6: the scenario payload, whose three functions come back in the order written. -/
theorem load_preserves_member_order_witness :
    JSON.wf scenarioDoc = true ∧
    serialize scenarioDoc = units scenarioPayload ∧
    ∃ e, load (serialize scenarioDoc) = .ok e ∧
      e.list "functions" = scenarioDoc.list "functions" ∧
      e.list "properties" = scenarioDoc.list "properties" ∧
      e.list "types" = scenarioDoc.list "types" ∧
      (e.list "functions").length = (scenarioDoc.list "functions").length ∧
      (e.list "properties").length = (scenarioDoc.list "properties").length ∧
      (e.list "types").length = (scenarioDoc.list "types").length :=
  ⟨by decide, by decide, load_preserves_member_order scenarioDoc (by decide)⟩

/-- C7: round trip. For every payload text `P` that loads to a value `v`,
serialising `v` and loading the result gives `v` again. -/
theorem load_serialize_roundtrip (P : List Nat) (v : JSON) (h : load P = .ok v) :
    load (serialize v) = .ok v :=
  load_serialize v (load_wf P v h)

/-- Witness for C7: the round trip at each of the nine shipped payloads. -/
theorem load_serialize_roundtrip_witness :
    (load (payloadText ValuePayload) = .ok ValueDoc ∧
      load (serialize ValueDoc) = .ok ValueDoc) ∧
    (load (payloadText BindPayload) = .ok BindDoc ∧
      load (serialize BindDoc) = .ok BindDoc) ∧
    (load (payloadText Color3UtilPayload) = .ok Color3UtilDoc ∧
      load (serialize Color3UtilDoc) = .ok Color3UtilDoc) ∧
    (load (payloadText FlowPayload) = .ok FlowDoc ∧
      load (serialize FlowDoc) = .ok FlowDoc) ∧
    (load (payloadText OrderedStoragePayload) = .ok OrderedStorageDoc ∧
      load (serialize OrderedStorageDoc) = .ok OrderedStorageDoc) ∧
    (load (payloadText StoragePayload) = .ok StorageDoc ∧
      load (serialize StorageDoc) = .ok StorageDoc) ∧
    (load (payloadText StopwatchPayload) = .ok StopwatchDoc ∧
      load (serialize StopwatchDoc) = .ok StopwatchDoc) ∧
    (load (payloadText TimerPayload) = .ok TimerDoc ∧
      load (serialize TimerDoc) = .ok TimerDoc) ∧
    (load (payloadText BaseStoragePayload) = .ok BaseStorageDoc ∧
      load (serialize BaseStorageDoc) = .ok BaseStorageDoc) :=
  ⟨⟨load_payloadText_of_loadsTo Value_loads,
      load_serialize_roundtrip _ _ (load_payloadText_of_loadsTo Value_loads)⟩,
    ⟨load_payloadText_of_loadsTo Bind_loads,
      load_serialize_roundtrip _ _ (load_payloadText_of_loadsTo Bind_loads)⟩,
    ⟨load_payloadText_of_loadsTo Color3Util_loads,
      load_serialize_roundtrip _ _ (load_payloadText_of_loadsTo Color3Util_loads)⟩,
    ⟨load_payloadText_of_loadsTo Flow_loads,
      load_serialize_roundtrip _ _ (load_payloadText_of_loadsTo Flow_loads)⟩,
    ⟨load_payloadText_of_loadsTo OrderedStorage_loads,
      load_serialize_roundtrip _ _ (load_payloadText_of_loadsTo OrderedStorage_loads)⟩,
    ⟨load_payloadText_of_loadsTo Storage_loads,
      load_serialize_roundtrip _ _ (load_payloadText_of_loadsTo Storage_loads)⟩,
    ⟨load_payloadText_of_loadsTo Stopwatch_loads,
      load_serialize_roundtrip _ _ (load_payloadText_of_loadsTo Stopwatch_loads)⟩,
    ⟨load_payloadText_of_loadsTo Timer_loads,
      load_serialize_roundtrip _ _ (load_payloadText_of_loadsTo Timer_loads)⟩,
    ⟨load_payloadText_of_loadsTo BaseStorage_loads,
      load_serialize_roundtrip _ _ (load_payloadText_of_loadsTo BaseStorage_loads)⟩⟩

/-- C8, counterexample: a well-formed payload without a `name` field does not
fail with a parse error; loading returns the value, in which `name` is absent. -/
theorem load_nameless_succeeds :
    load (units namelessPayload) ≠ .error .parseError ∧
    load (units namelessPayload) = .ok namelessDoc ∧
    namelessDoc.get "name" = none := by
  have h : load (units namelessPayload) = .ok namelessDoc :=
    load_eq_of_loadsTextTo (by decide!)
  refine ⟨?_, h, by rfl⟩
  rw [h]
  exact fun e => by cases e

/-- C8, amended: `load` does not look for a `name` field. The text of any
well-formed value without a `name` field loads to that value: no parse error,
and `name` stays absent. -/
theorem load_ignores_missing_name (v : JSON) (hwf : JSON.wf v = true)
    (hname : v.get "name" = none) :
    load (serialize v) = .ok v ∧ load (serialize v) ≠ .error .parseError ∧
      ∀ e, load (serialize v) = .ok e → e.get "name" = none := by
  have h := load_serialize v hwf
  refine ⟨h, by rw [h]; simp, ?_⟩
  intro e he
  rw [h] at he
  cases he
  exact hname

/-- Witness for the amended C8, at the nameless Timer entry. -/
theorem load_ignores_missing_name_witness :
    JSON.wf namelessDoc = true ∧ namelessDoc.get "name" = none ∧
    (load (serialize namelessDoc) = .ok namelessDoc ∧
      load (serialize namelessDoc) ≠ .error .parseError ∧
      ∀ e, load (serialize namelessDoc) = .ok e → e.get "name" = none) :=
  ⟨by decide, by rfl, load_ignores_missing_name namelessDoc (by decide) (by rfl)⟩

/-- C9: each of the nine shipped payloads loads without an error, to an object
with a non-empty string `name` (the documented symbol), a string `desc`, arrays
`functions`, `properties` and `types`, and a `source` record. -/
theorem shipped_payloads_load :
    List.Forall₂
      (fun (p : String × String) (d : JSON) =>
        loadChunk p.2 = .ok d ∧ isDocEntry d = true ∧
          (d.get "name").bind JSON.string? = some (units p.1))
      shippedPayloads shippedDocs := by
  unfold shippedPayloads shippedDocs
  refine .cons ⟨loadChunk_eq_of_loadsTo Value_loads, by decide, by decide⟩ ?_
  refine .cons ⟨loadChunk_eq_of_loadsTo Bind_loads, by decide, by decide⟩ ?_
  refine .cons ⟨loadChunk_eq_of_loadsTo Color3Util_loads, by decide, by decide⟩ ?_
  refine .cons ⟨loadChunk_eq_of_loadsTo Flow_loads, by decide, by decide⟩ ?_
  refine .cons ⟨loadChunk_eq_of_loadsTo OrderedStorage_loads, by decide, by decide⟩ ?_
  refine .cons ⟨loadChunk_eq_of_loadsTo Storage_loads, by decide, by decide⟩ ?_
  refine .cons ⟨loadChunk_eq_of_loadsTo Stopwatch_loads, by decide, by decide⟩ ?_
  refine .cons ⟨loadChunk_eq_of_loadsTo Timer_loads, by decide, by decide⟩ ?_
  exact .cons ⟨loadChunk_eq_of_loadsTo BaseStorage_loads, by decide, by decide⟩ .nil

/-- C10: the Timer scenario. A payload that writes an entry named "Timer" with
the three functions `new`, `Start`, `Destroy` and the one property `Finished`
loads to a value with name "Timer", exactly three functions with these names in
this order, and `Finished` as the name of the first property. -/
theorem timer_scenario_loads (d : JSON) (hwf : JSON.wf d = true)
    (hname : (d.get "name").bind JSON.string? = some (units "Timer"))
    (hfunctions : d.names "functions" =
      [some (units "new"), some (units "Start"), some (units "Destroy")])
    (hproperties : d.names "properties" = [some (units "Finished")]) :
    ∃ e, load (serialize d) = .ok e ∧
      (e.get "name").bind JSON.string? = some (units "Timer") ∧
      (e.list "functions").length = 3 ∧
      e.names "functions" = [some (units "new"), some (units "Start"), some (units "Destroy")] ∧
      ((e.list "properties")[0]?.bind (fun p => (p.get "name").bind JSON.string?)) =
        some (units "Finished") := by
  refine ⟨d, load_serialize d hwf, hname, ?_, hfunctions, ?_⟩
  · have := congrArg List.length hfunctions
    simpa [JSON.names] using this
  · unfold JSON.names at hproperties
    cases hl : d.list "properties" with
    | nil => rw [hl] at hproperties; simp at hproperties
    | cons p ps =>
      rw [hl] at hproperties
      simp only [List.map_cons, List.cons.injEq] at hproperties
      simpa using hproperties.1

/-- Witness for C10: the scenario payload itself, as text. -/
theorem timer_scenario_loads_witness :
    serialize scenarioDoc = units scenarioPayload ∧
    ∃ e, load (serialize scenarioDoc) = .ok e ∧
      (e.get "name").bind JSON.string? = some (units "Timer") ∧
      (e.list "functions").length = 3 ∧
      e.names "functions" = [some (units "new"), some (units "Start"), some (units "Destroy")] ∧
      ((e.list "properties")[0]?.bind (fun p => (p.get "name").bind JSON.string?)) =
        some (units "Finished") :=
  ⟨by decide, timer_scenario_loads scenarioDoc (by decide) (by decide) (by decide) (by decide)⟩

/-! ### Invariants of the shipped payloads -/

set_option maxRecDepth 1000000 in
/-- C11: in every shipped payload, every function record has a `function_type`
that is exactly "static" or "method"; none lacks the field or has another value
(65 function records in all). -/
theorem shipped_function_types :
    List.Forall₂ (fun (p : String × String) (d : JSON) =>
      loadChunk p.2 = .ok d ∧ functionTypesOk d = true) shippedPayloads shippedDocs ∧
    shippedDocs.map (fun d => (d.list "functions").length) = [6, 5, 9, 6, 9, 4, 7, 9, 10] :=
  ⟨shipped_all (by decide!), by decide!⟩

set_option maxRecDepth 1000000 in
/-- C12, counterexample: the Storage payload has type records that carry
`ignore` (SaveStatus and LoadStatus), so `ignore` is not confined to function
records and these two type records are not plain. -/
theorem storage_types_carry_ignore :
    loadChunk StoragePayload = .ok StorageDoc ∧
    ignoreOnlyOnFunctions StorageDoc = false ∧
    ignoredNames "types" StorageDoc = [some (units "SaveStatus"), some (units "LoadStatus")] :=
  ⟨loadChunk_eq_of_loadsTo Storage_loads, by decide!, by decide!⟩

set_option maxRecDepth 1000000 in
/-- C12, amended: in every shipped payload no property record carries `ignore`
and every type record consists of `name`, `desc`, `lua_type` and `source`, with
`ignore` in addition on two of them. The records that carry `ignore` are the
function GetLimitedColor of Color3Util and the types SaveStatus and LoadStatus
of Storage. -/
theorem shipped_ignore_flags :
    List.Forall₂ (fun (p : String × String) (d : JSON) =>
      loadChunk p.2 = .ok d ∧ ignoreFlagsOk d = true) shippedPayloads shippedDocs ∧
    shippedDocs.map (fun d => (ignoredNames "functions" d, ignoredNames "properties" d,
        ignoredNames "types" d)) =
      [ ([], [], []), ([], [], []), ([some (units "GetLimitedColor")], [], []), ([], [], []),
        ([], [], []), ([], [], [some (units "SaveStatus"), some (units "LoadStatus")]),
        ([], [], []), ([], [], []), ([], [], []) ] :=
  ⟨shipped_all (by decide!), by decide!⟩

set_option maxRecDepth 1000000 in
/-- C13: in every shipped payload the `source` record of the entry and of each
function, property and type has exactly the two fields `line` and `path`, with
`line` a positive integer and `path` a string (124 records in all). -/
theorem shipped_sources :
    List.Forall₂ (fun (p : String × String) (d : JSON) =>
      loadChunk p.2 = .ok d ∧ sourcesOk d = true) shippedPayloads shippedDocs ∧
    shippedDocs.map (fun d => (d :: d.members).length) = [9, 10, 11, 13, 22, 16, 8, 14, 21] :=
  ⟨shipped_all (by decide!), by decide!⟩

set_option maxRecDepth 1000000 in
/-- C15: after loading, no string of any shipped payload (so no `desc`,
`lua_type`, `name` or `path`) contains a backslash: both escaping layers are
decoded. The ClampRGB description of Color3Util is the text with real line
breaks and contains "--> 255, 0, 5", which the chunk source writes as
`--\x3e 255, 0, 5` followed by an escaped `\n`; the description of Timer.new has
a real tab after a line break. -/
theorem shipped_text_decoded :
    List.Forall₂ (fun (p : String × String) (d : JSON) =>
      loadChunk p.2 = .ok d ∧ textClean d = true) shippedPayloads shippedDocs ∧
    functionDesc "ClampRGB" Color3UtilDoc = some (units
      "Returns a Color3 with clamped R, G, and B values.\n\n```lua\nlocal clampedColor = Color3Util:ClampRGB(300, -2500, 5)\n\nprint(clampedColor) --> 255, 0, 5\n```") ∧
    ((functionDesc "ClampRGB" Color3UtilDoc).map (containsUnits (units "--> 255, 0, 5"))) =
      some true ∧
    ((functionDesc "new" TimerDoc).map (containsUnits (units "\n\tprint("))) = some true ∧
    containsUnits (units "print(clampedColor) --\\x3e 255, 0, 5\\\\n") (units Color3UtilPayload) =
      true :=
  ⟨shipped_all (by decide!), by decide!, by decide!, by decide!, by decide!⟩

set_option maxRecDepth 1000000 in
/-- C16: the shipped Timer payload loads to an entry named "Timer" whose
functions are, in order, new, Start, Pause, Stop, IsRunning, SetDuration,
GetRemaining, Destroy, withUpdate, whose properties are, in order, Finished,
Paused, Updated, and in which only the property Updated has a `deprecated`
record; its version is "v2.0.0". -/
theorem timer_payload_contents :
    loadChunk TimerPayload = .ok TimerDoc ∧
    TimerDoc.text "name" = some (units "Timer") ∧
    TimerDoc.names "functions" =
      [ some (units "new"), some (units "Start"), some (units "Pause"), some (units "Stop"),
        some (units "IsRunning"), some (units "SetDuration"), some (units "GetRemaining"),
        some (units "Destroy"), some (units "withUpdate") ] ∧
    (TimerDoc.list "functions").length = 9 ∧
    TimerDoc.names "properties" =
      [some (units "Finished"), some (units "Paused"), some (units "Updated")] ∧
    (TimerDoc.list "properties").map (JSON.has "deprecated") = [false, false, true] ∧
    (TimerDoc :: (TimerDoc.list "functions" ++ TimerDoc.list "types")).all
      (fun m => !m.has "deprecated") = true ∧
    ((TimerDoc.list "properties").map
      (fun p => (p.get "deprecated").bind (JSON.text "version"))) =
      [none, none, some (units "v2.0.0")] :=
  ⟨loadChunk_eq_of_loadsTo Timer_loads, by decide!, by decide!, by decide!, by decide!,
    by decide!, by decide!, by decide!⟩

set_option maxRecDepth 1000000 in
/-- C17: in every shipped payload every entry of a function's `params` has
exactly the fields `name`, `desc` and `lua_type`, and every entry of its
`returns` has exactly the fields `desc` and `lua_type`, all of them strings (110
entries of `params` and 43 of `returns` in all). -/
theorem shipped_signatures :
    List.Forall₂ (fun (p : String × String) (d : JSON) =>
      loadChunk p.2 = .ok d ∧ signaturesOk d = true) shippedPayloads shippedDocs ∧
    shippedDocs.map signatureCounts =
      [(8, 3), (6, 1), (18, 9), (3, 1), (24, 7), (13, 4), (6, 6), (10, 4), (22, 8)] :=
  ⟨shipped_all (by decide!), by decide!⟩

/-! ### The store, the registry and the rendered descriptions -/

set_option maxRecDepth 1000000 in
/-- C14: in the store loaded only with the Timer payload, `lookup` of
"DoesNotExist" returns the value `notFound` and `lookup` of "Timer" returns the
Timer entry; `lookup` is a total function, it does not raise. -/
theorem lookup_in_timer_store :
    ∃ store, Store.load Store.empty TimerPayload = .ok store ∧
      store.entries.length = 1 ∧
      store.lookup "DoesNotExist" = .notFound ∧
      store.lookup "Timer" = .found TimerDoc := by
  have hload : loadChunk TimerPayload = .ok TimerDoc := loadChunk_eq_of_loadsTo Timer_loads
  have hname : TimerDoc.text "name" = some (units "Timer") := by decide!
  have h1 : (units "Timer" == units "DoesNotExist") = false := by decide
  have h2 : (units "Timer" == units "Timer") = true := by decide
  refine ⟨⟨[(units "Timer", TimerDoc)]⟩, ?_, rfl, ?_, ?_⟩
  · unfold Store.load
    rw [hload]
    simp only [hname]
    rfl
  · simp only [Store.lookup, List.find?, h1]
  · simp only [Store.lookup, List.find?, h2]

/-- C18: evaluating a payload chunk appends exactly one entry
`[[chunkId], {moduleId: factory}]` to `self.webpackChunkdocs`, starting from the
empty list when the registry does not exist, and leaves the entries already
there unchanged and in place; after the nine chunks, in any order, the registry
holds their nine entries in the order of evaluation. -/
theorem chunk_registry_append (c : Chunk) (self : Global) (order : List Chunk)
    (h : order.Perm shippedChunks) :
    (evalChunk c self).webpackChunkdocs =
      some (self.webpackChunkdocs.getD [] ++ [⟨[c.chunkId], [(c.moduleId, c.literal)]⟩]) ∧
    (self.webpackChunkdocs = none →
      (evalChunk c self).webpackChunkdocs = some [⟨[c.chunkId], [(c.moduleId, c.literal)]⟩]) ∧
    (∀ old, self.webpackChunkdocs = some old →
      ∃ new, (evalChunk c self).webpackChunkdocs = some new ∧
        new.length = old.length + 1 ∧ new.take old.length = old ∧
        ∀ i, i < old.length → new[i]? = old[i]?) ∧
    (evalChunks order ⟨none⟩).webpackChunkdocs = some (order.map Chunk.entry) ∧
    (evalChunks order ⟨none⟩).webpackChunkdocs.map List.length = some 9 := by
  have hlen : order.length = 9 := by rw [h.length_eq]; rfl
  have hne : order ≠ [] := by
    intro e; rw [e] at hlen; simp at hlen
  have hreg := evalChunks_registry order ⟨none⟩ hne
  simp only [Option.getD_none, List.nil_append] at hreg
  refine ⟨rfl, ?_, ?_, hreg, ?_⟩
  · intro h0
    simp [evalChunk, h0, Chunk.entry]
  · intro old h0
    refine ⟨old ++ [c.entry], by simp [evalChunk, h0], by simp, by simp, ?_⟩
    intro i hi
    exact List.getElem?_append_left hi
  · rw [hreg]
    simp [hlen]

/-- Witness for C18: the Bind chunk evaluated on a registry that holds the Timer
entry, and the nine chunks evaluated in reverse order. -/
theorem chunk_registry_append_witness :
    shippedChunks.reverse.Perm shippedChunks ∧
    (evalChunk ⟨837, 3866, BindPayload⟩ ⟨some [⟨[9297], [(81670, TimerPayload)]⟩]⟩).webpackChunkdocs =
      some [⟨[9297], [(81670, TimerPayload)]⟩, ⟨[837], [(3866, BindPayload)]⟩] ∧
    (evalChunks shippedChunks.reverse ⟨none⟩).webpackChunkdocs.map List.length = some 9 :=
  ⟨List.reverse_perm _,
    (chunk_registry_append ⟨837, 3866, BindPayload⟩ ⟨some [⟨[9297], [(81670, TimerPayload)]⟩]⟩
      shippedChunks.reverse (List.reverse_perm _)).1,
    (chunk_registry_append ⟨837, 3866, BindPayload⟩ ⟨some [⟨[9297], [(81670, TimerPayload)]⟩]⟩
      shippedChunks.reverse (List.reverse_perm _)).2.2.2.2⟩

/-- C19: each rendered description is a single text run without a line break
and without white space at either end. The line break and indentation inside
the third description of the source are rendered as one space. -/
theorem rendered_descriptions_single_run {α : Type} (styles : Styles) (arguments : List α) :
    paragraphs (render styles (HomepageFeatures styles arguments)) =
      [ [.fragment [.text
          "Each of the modules in dToolkit was made to be very easy to use by new and experienced developers alike!"]],
        [.fragment [.text "Just plop dToolkit into your experience, and you're all set!"]],
        [.fragment [.text
          "dToolkit has typechecking for all of its classes, and every library also implements typechecking to be as easy to implement into your projects!"]] ] ∧
    [ "Each of the modules in dToolkit was made to be very easy to use by new and experienced developers alike!",
      "Just plop dToolkit into your experience, and you're all set!",
      "dToolkit has typechecking for all of its classes, and every library also implements typechecking to be as easy to implement into your projects!" ].all
      isSingleTextRun = true ∧
    cleanJSXText
      "\n        dToolkit has typechecking for all of its classes, and every library also implements typechecking to be as easy to\n        implement into your projects!\n      " =
      "dToolkit has typechecking for all of its classes, and every library also implements typechecking to be as easy to implement into your projects!" :=
  ⟨by rfl, by decide, by decide⟩

set_option maxRecDepth 1000000 in
/-- C20: the `name` fields of the nine shipped payloads are pairwise distinct:
nine payloads, nine different names, and in a mapping from name to payload each
payload is found under its own name. -/
theorem shipped_names_distinct :
    List.Forall₂ (fun (p : String × String) (d : JSON) => loadChunk p.2 = .ok d)
      shippedPayloads shippedDocs ∧
    shippedDocs.map (JSON.text "name") =
      [ some (units "Value"), some (units "Bind"), some (units "Color3Util"),
        some (units "Flow"), some (units "OrderedStorage"), some (units "Storage"),
        some (units "Stopwatch"), some (units "Timer"), some (units "BaseStorage") ] ∧
    (shippedDocs.map (JSON.text "name")).Nodup ∧
    (shippedDocs.map (JSON.text "name")).length = 9 ∧
    (List.range 9).all (fun i =>
      ((shippedDocs.map (JSON.text "name")).zip (List.range 9)).lookup
        ((shippedDocs.map (JSON.text "name")).getD i none) == some i) = true :=
  ⟨shipped_load, by decide!, by decide!, by decide!, by decide!⟩

/-! ### Names, order, parameters and type tags in the shipped payloads -/

set_option maxRecDepth 1000000 in
/-- C21: within each shipped payload the names of the functions, properties and
types taken together are pairwise different, compared case-sensitively (124 - 9
= 115 members in all). Case matters: Bind has the properties boundFunction and
keys next to the types BoundFunction and Keys. -/
theorem shipped_member_names_unique :
    List.Forall₂ (fun (p : String × String) (d : JSON) =>
      loadChunk p.2 = .ok d ∧ memberNamesUnique d = true) shippedPayloads shippedDocs ∧
    shippedDocs.map (fun d => (memberNames d).length) = [8, 9, 10, 12, 21, 15, 7, 13, 20] ∧
    [units "boundFunction", units "BoundFunction", units "keys", units "Keys"].all
      (fun n => (memberNames BindDoc).contains (some n)) = true :=
  ⟨shipped_all (by decide!), by decide!, by decide!⟩

set_option maxRecDepth 1000000 in
/-- C22: in every shipped payload each of the lists `functions`, `properties`
and `types` is strictly increasing in `source.line`, and the records of a list
come from one source file: the payload order is the declaration order. The
lines of the eleven types of Storage are listed. -/
theorem shipped_declaration_order :
    List.Forall₂ (fun (p : String × String) (d : JSON) =>
      loadChunk p.2 = .ok d ∧ declarationOrder d = true) shippedPayloads shippedDocs ∧
    (StorageDoc.list "types").map sourceLine =
      [some 12, some 18, some 22, some 28, some 49, some 54, some 59, some 63, some 70,
        some 77, some 105] :=
  ⟨shipped_all (by decide!), by decide!⟩

set_option maxRecDepth 1000000 in
/-- C23: in every shipped payload no function typed "method" has a parameter
named "self"; a parameter named "self" occurs only as the first parameter of
functions typed "static". Per payload, the number of functions with "self" and
the number of methods are listed. -/
theorem shipped_self_parameters :
    List.Forall₂ (fun (p : String × String) (d : JSON) =>
      loadChunk p.2 = .ok d ∧ selfParamsOk d = true) shippedPayloads shippedDocs ∧
    shippedDocs.map selfCounts =
      [(5, 0), (0, 4), (0, 8), (0, 5), (7, 1), (0, 2), (6, 0), (7, 0), (0, 9)] :=
  ⟨shipped_all (by decide!), by decide!⟩

set_option maxRecDepth 1000000 in
/-- C24: type tags are stored untrimmed. In the shipped payloads a carriage
return or line feed occurs in a `lua_type` only as the suffix CR LF of a
`returns` entry (Timer.new returns "Timer\r\n"), and the `lua_type` of no
parameter, property or type has either character. Per payload, the `returns`
entries that end in CR LF and those without a line break are counted. -/
theorem shipped_type_tags_untrimmed :
    List.Forall₂ (fun (p : String × String) (d : JSON) =>
      loadChunk p.2 = .ok d ∧ luaTypesOk d = true) shippedPayloads shippedDocs ∧
    returnTags "new" TimerDoc = some [some (units "Timer\r\n")] ∧
    returnTags "Get" ValueDoc = some [some (units "a...")] ∧
    returnTags "Pause" StopwatchDoc = some [some (units "number?\r\n")] ∧
    returnTags "GetElapsed" StopwatchDoc = some [some (units "number"), some (units "number?")] ∧
    shippedDocs.map returnTagCounts =
      [(2, 1), (1, 0), (9, 0), (1, 0), (7, 0), (4, 0), (4, 2), (4, 0), (8, 0)] :=
  ⟨shipped_all (by decide!), by decide!, by decide!, by decide!, by decide!, by decide!⟩

end DToolkit
